import Mathlib

/-!
# The stereo frame pipeline of the Oculus Rift examples

A shallow embedding of the frame-submission code of

* `examples/cpp/Example_SelfContained.cpp` (`GlfwApp`, `RiftManagerApp`, `RiftGlfwApp`,
  `RiftApp`, `ExampleApp`, `main`),
* `examples/cpp/Example_2_4_HelloRift.cpp` (`HelloRift`),
* `examples/cpp/Example_5_4_RiftSensors.cpp` (`CubeScene_RiftSensors`),
* `examples/cpp/Example_X_ClientSideDistortion.cpp` (`ClientSideDistortionExample`).

The programs are sequences of calls into GLFW, OpenGL and the Oculus SDK.  A C++ object is
a record of its data members, a member function is a function from the record to the new
record together with the list of external calls it made, in order.  What the outside world
answers (does the window want to close, which poses does the SDK report, does a set-up call
succeed) is read from an `Env`.  The `while` loop of `GlfwApp::run` runs on fuel.

Floating point numbers of plain SDK data are rationals; `glm::mat4` is a type parameter
`Mat`, its product the `*` of that type.  Calls that neither return a value the program
uses nor take part in the frame protocol (window hints, callback registration, window
placement, clearing, GL capabilities) and the calls made by destructors are left out of the
traces.
-/

namespace OculusRift

/-! ## Plain data -/

/-- Number of values of a C++ `unsigned int` (32 bits on Windows, Mac and Linux alike). -/
def UINT_RANGE : Nat := 2 ^ 32

/-- The enumeration `ovrEyeType`; its third enumerator `ovrEye_Count` is no eye and is
modelled by the absence of an eye where the source uses it as a sentinel. -/
inductive ovrEyeType where
  | ovrEye_Left
  | ovrEye_Right
deriving DecidableEq, Repr

/-- A C array `T[2]` indexed by `ovrEyeType`. -/
structure PerEye (α : Type) where
  left : α
  right : α
deriving DecidableEq, Repr

/-- Read `a[eye]`. -/
def PerEye.get {α : Type} (a : PerEye α) : ovrEyeType → α
  | .ovrEye_Left => a.left
  | .ovrEye_Right => a.right

/-- Write `a[eye] = v`. -/
def PerEye.set {α : Type} (a : PerEye α) (eye : ovrEyeType) (v : α) : PerEye α :=
  match eye with
  | .ovrEye_Left => { a with left := v }
  | .ovrEye_Right => { a with right := v }

structure uvec2 where
  x : Nat
  y : Nat
deriving DecidableEq, Repr

structure ivec2 where
  x : Int
  y : Int
deriving DecidableEq, Repr

structure ovrSizei where
  w : Int
  h : Int
deriving DecidableEq, Repr

structure ovrVector2i where
  x : Int
  y : Int
deriving DecidableEq, Repr

structure ovrRecti where
  Pos : ovrVector2i
  Size : ovrSizei
deriving DecidableEq, Repr

structure ovrVector3f where
  x : ℚ
  y : ℚ
  z : ℚ
deriving DecidableEq

structure ovrQuatf where
  x : ℚ
  y : ℚ
  z : ℚ
  w : ℚ
deriving DecidableEq

structure ovrPosef where
  Orientation : ovrQuatf
  Position : ovrVector3f
deriving DecidableEq

structure ovrFovPort where
  UpTan : ℚ
  DownTan : ℚ
  LeftTan : ℚ
  RightTan : ℚ
deriving DecidableEq

/-- The two fields of `ovrEyeRenderDesc` the examples read. -/
structure ovrEyeRenderDesc where
  Fov : ovrFovPort
  HmdToEyeViewOffset : ovrVector3f
deriving DecidableEq

inductive ovrRenderAPIType where
  | ovrRenderAPI_None
  | ovrRenderAPI_OpenGL
deriving DecidableEq, Repr

structure ovrTextureHeader where
  API : ovrRenderAPIType
  TextureSize : ovrSizei
  RenderViewport : ovrRecti
deriving DecidableEq, Repr

/-- An `ovrTexture` seen as the `ovrGLTexture` the examples cast it to: the header and the
OpenGL texture name `OGL.TexId`. -/
structure ovrTexture where
  Header : ovrTextureHeader
  TexId : Nat
deriving DecidableEq, Repr

/-- The fields of `ovrHmdDesc` (what `ovrHmd hmd` points to) the examples read. -/
structure ovrHmdDesc where
  Resolution : ovrSizei
  WindowsPos : ovrVector2i
  DefaultEyeFov : PerEye ovrFovPort
  MaxEyeFov : PerEye ovrFovPort
  EyeRenderOrder : Fin 2 → ovrEyeType

/-- Operating system the example is compiled for (`OVR_OS_WIN32`, `OVR_OS_MAC`,
`OVR_OS_LINUX`), which decides what `ON_WINDOWS`, `ON_MAC` and `ON_LINUX` expand to. -/
inductive OS where
  | win32
  | mac
  | linux
deriving DecidableEq, Repr

/-! ## The OpenGL context -/

/-- The part of the OpenGL state the examples act on: how many object names of each kind
have been generated (the next name is the count plus one, name 0 is the default
framebuffer), the framebuffers bound for drawing and for reading, the viewport, the
attachments made to framebuffers and the storage given to textures and renderbuffers (latest
first). -/
structure GlContext where
  framebuffers : Nat
  textures : Nat
  renderbuffers : Nat
  drawFramebuffer : Nat
  readFramebuffer : Nat
  viewport : ovrRecti
  colorAttachment : List (Nat × Nat)
  depthAttachment : List (Nat × Nat)
  texImage : List (Nat × uvec2)
  renderbufferStorage : List (Nat × uvec2)
deriving DecidableEq

/-- The context right after `glfwMakeContextCurrent`: no object yet, the default
framebuffer bound for drawing and for reading, the viewport covering the window. -/
def GlContext.initial (windowSize : uvec2) : GlContext :=
  { framebuffers := 0, textures := 0, renderbuffers := 0, drawFramebuffer := 0,
    readFramebuffer := 0,
    viewport := { Pos := { x := 0, y := 0 }, Size := { w := windowSize.x, h := windowSize.y } },
    colorAttachment := [], depthAttachment := [], texImage := [], renderbufferStorage := [] }

/-! ## External calls -/

/-- A call the program makes to GLFW, GLEW, OpenGL, the Oculus SDK or the standard streams,
with the arguments and results that matter to the frame protocol.  `say` is the macro `SAY`
of `Common.h`, a message for the user.  `renderScene` is the
call of the scene renderer: it records the framebuffer bound for drawing at that moment and
the projection and view matrix the renderer gets (as arguments in `RiftApp`, as the tops of
the matrix stacks in the other examples). -/
inductive Event (Mat : Type) where
  | cout (text : String)
  | cerr (text : String)
  | say (text : String)
  | ovr_Initialize (result : Bool)
  | ovr_Shutdown
  | glfwInit (result : Bool)
  | ovrHmd_Create (found : Bool)
  | ovrHmd_CreateDebug
  | ovrHmd_ConfigureTracking (result : Bool)
  | ovrHmd_AttachToWindow
  | glfwCreateWindow (size : uvec2) (created : Bool)
  | glewInit (result : Nat)
  | ovrHmd_ConfigureRendering (result : Bool)
  | ovrHmd_RecenterPose
  | glfwWindowShouldClose (result : Bool)
  | glfwPollEvents
  | glfwSwapBuffers
  | ovrHmd_GetEyePoses (frameIndex : Nat) (hmdToEyeViewOffset : PerEye ovrVector3f)
      (outEyePoses : PerEye ovrPosef)
  | ovrHmd_BeginFrame (frameIndex : Nat)
  | ovrHmd_EndFrame (renderPose : PerEye ovrPosef) (eyeTexture : PerEye ovrTexture)
  | ovrHmd_BeginFrameTiming (frameIndex : Nat)
  | ovrHmd_GetHmdPosePerEye (eye : ovrEyeType) (pose : ovrPosef)
  | ovrHmd_EndFrameTiming
  | bindDrawFramebuffer (name : Nat)
  | viewport (rect : ovrRecti)
  | activate (framebuffer : Nat)
  | deactivate (framebuffer : Nat)
  | renderScene (drawFramebuffer : Nat) (projection : Mat) (view : Mat)
  | drawDistortionMesh (eye : ovrEyeType) (texture : Nat)
deriving DecidableEq

/-- What the outside world answers.  `glfwWindowShouldClose k` is the answer to the test of
the close request made at the start of loop iteration `k` (counted from 0, so the answer to
test number `k + 1`); `eyePoses k` are the poses the SDK writes in iteration `k`;
`endFrameAccepted k` tells whether the compositor accepts the frame submitted in iteration
`k`, and `configureRendering` whether it accepted the rendering configuration.
`glfwCreateWindow` is the window handle GLFW returns (`none` for a null pointer),
`glewInit` the status of `glewInit()` (0 is success), `extendDesktop` the
`ovrHmdCap_ExtendDesktop` bit of the enabled capabilities, `indeterminatePoses` the
content of the member `eyePoses` before the first query writes it, and
`contextAfterConfigureRendering` the state of the OpenGL context when
`ovrHmd_ConfigureRendering` returns: the SDK has made objects of its own in it, so the
names the examples get afterwards for their framebuffers, textures and renderbuffers differ
from kind to kind. -/
structure Env where
  os : OS
  ovr_Initialize : Bool
  glfwInit : Bool
  ovrHmd_Create : Option ovrHmdDesc
  ovrHmd_CreateDebug : ovrHmdDesc
  extendDesktop : Bool
  ovrHmd_ConfigureTracking : Bool
  glfwCreateWindow : Option Nat
  glewInit : Nat
  configureRendering : Bool
  contextAfterConfigureRendering : GlContext
  eyeRenderDescs : PerEye ovrEyeRenderDesc
  ovrHmd_GetFovTextureSize : ovrEyeType → ovrFovPort → ovrSizei
  indeterminatePoses : PerEye ovrPosef
  glfwWindowShouldClose : Nat → Bool
  eyePoses : Nat → PerEye ovrPosef
  endFrameAccepted : Nat → Bool

/-- Outcome of a piece of code that may throw a `std::runtime_error`: the calls made up to
the end or up to the `throw`, and the value or the message of the exception. -/
structure Step (Mat α : Type) where
  events : List (Event Mat)
  result : Except String α

/-- The macro `FAIL(X)`: `throw std::runtime_error(X)`. -/
def FAIL {Mat α : Type} (events : List (Event Mat)) (X : String) : Step Mat α :=
  { events := events, result := Except.error X }

/-- Conversion of an `int` to `unsigned int`. -/
def toUnsigned (i : Int) : Nat := (i % (UINT_RANGE : Int)).toNat

/-- Conversion of an `unsigned int` to `int` (`GLsizei`, `GLint`). -/
def toSigned (u : Nat) : Int :=
  if u % UINT_RANGE < 2 ^ 31 then ((u % UINT_RANGE : Nat) : Int)
  else ((u % UINT_RANGE : Nat) : Int) - (UINT_RANGE : Int)

/-- The function `ovr::toGlm(const ovrSizei &)`: `uvec2(ov.w, ov.h)`. -/
def toGlmSize (ov : ovrSizei) : uvec2 := { x := toUnsigned ov.w, y := toUnsigned ov.h }

/-! ## What OpenGL does with the objects -/

/-- The colour texture attached to a framebuffer, if any. -/
def GlContext.colorOf (gl : GlContext) (framebuffer : Nat) : Option Nat :=
  gl.colorAttachment.lookup framebuffer

/-- The call `Image2D(0, format, width, height, ...)` on the texture bound: `width` and
`height` are `GLsizei`, an `int`.  The texture gets `width` by `height` pixels; with a
negative size the call is an error of OpenGL that gives the texture no storage. -/
def GlContext.Image2D (gl : GlContext) (texture : Nat) (width height : Int) : GlContext :=
  if width < 0 ∨ height < 0 then gl
  else { gl with texImage := (texture, { x := width.toNat, y := height.toNat }) :: gl.texImage }

/-- The call `Storage(format, width, height)` on the renderbuffer bound: `width` and
`height` are `GLsizei`, an `int`.  The renderbuffer gets `width` by `height` pixels; with a
negative size the call is an error of OpenGL that gives the renderbuffer no storage. -/
def GlContext.Storage (gl : GlContext) (renderbuffer : Nat) (width height : Int) : GlContext :=
  if width < 0 ∨ height < 0 then gl
  else
    { gl with
      renderbufferStorage :=
        (renderbuffer, { x := width.toNat, y := height.toNat }) :: gl.renderbufferStorage }

/-- The struct `FboWrapper`: the names of its `oglplus::Framebuffer`, `oglplus::Texture` and
`oglplus::Renderbuffer` members. -/
structure FboWrapper where
  fbo : Nat
  color : Nat
  depth : Nat
deriving DecidableEq, Repr

/-- Construction of an `FboWrapper`: each of the three members generates its name. -/
def FboWrapper.new (gl : GlContext) : FboWrapper × GlContext :=
  ({ fbo := gl.framebuffers + 1, color := gl.textures + 1, depth := gl.renderbuffers + 1 },
   { gl with framebuffers := gl.framebuffers + 1, textures := gl.textures + 1,
             renderbuffers := gl.renderbuffers + 1 })

/-- The function `FboWrapper::init`: give the colour texture and the depth renderbuffer
`size.x` by `size.y` pixels, bind the framebuffer for drawing and attach both to it. -/
def FboWrapper.init {Mat : Type} (self : FboWrapper) (size : uvec2) (gl : GlContext) :
    GlContext × List (Event Mat) :=
  ({ gl with texImage := (self.color, size) :: gl.texImage,
             renderbufferStorage := (self.depth, size) :: gl.renderbufferStorage,
             drawFramebuffer := self.fbo,
             colorAttachment := (self.fbo, self.color) :: gl.colorAttachment,
             depthAttachment := (self.fbo, self.depth) :: gl.depthAttachment },
   [Event.bindDrawFramebuffer self.fbo])

/-! ## `GlfwApp` and its run loop -/

/-- Data members of the class `GlfwApp`; `window` is `none` for the null pointer and `frame`
is an `unsigned int`. -/
structure GlfwApp where
  windowSize : uvec2
  windowPosition : ivec2
  window : Option Nat
  frame : Nat
deriving DecidableEq

/-- An object of a class derived from `GlfwApp`: the members of the base and those of the
derived classes. -/
structure Obj (D : Type) where
  glfw : GlfwApp
  self : D

/-- The virtual member functions the loop of `GlfwApp::run` calls, on an object whose
derived members are a `D`.  `draw` gets the number `k` of the iteration (counted from 0) to
look up what the outside world answers in it. -/
structure LoopVirtuals (Mat D : Type) where
  update : Obj D → Obj D × List (Event Mat)
  draw : Nat → Obj D → Obj D × List (Event Mat)
  finishFrame : Obj D → Obj D × List (Event Mat)

/-- The virtual member functions `GlfwApp::run` calls.  `C` holds the derived members of the
object as the constructors leave it, `D` as `initGl` leaves it (members that are null
pointers until `initGl` exist in `D` only). -/
structure Virtuals (Mat C D : Type) extends LoopVirtuals Mat D where
  createRenderingTarget : Obj C → Step Mat (Obj C × Option Nat)
  initGl : Obj C → Obj D × List (Event Mat)

/-- The function `GlfwApp::update`: empty. -/
def GlfwApp.update {Mat D : Type} (o : Obj D) : Obj D × List (Event Mat) := (o, [])

/-- The function `GlfwApp::finishFrame`: `glfwSwapBuffers(window)`. -/
def GlfwApp.finishFrame {Mat D : Type} (o : Obj D) : Obj D × List (Event Mat) :=
  (o, [Event.glfwSwapBuffers])

/-- One thing the `while` loop of `GlfwApp::run` does: the test of its condition, the call
of `glfwPollEvents`, or the call of one of the three virtual functions with the external
calls made inside it. -/
inductive LoopStep (Mat : Type) where
  | test (closeRequested : Bool)
  | pollEvents
  | update (calls : List (Event Mat))
  | draw (calls : List (Event Mat))
  | finishFrame (calls : List (Event Mat))
deriving DecidableEq

/-- The external calls of a step of the loop. -/
def LoopStep.events {Mat : Type} : LoopStep Mat → List (Event Mat)
  | .test b => [Event.glfwWindowShouldClose b]
  | .pollEvents => [Event.glfwPollEvents]
  | .update es => es
  | .draw es => es
  | .finishFrame es => es

/-- A step of the loop without the calls made inside it. -/
inductive StepKind where
  | test (closeRequested : Bool)
  | pollEvents
  | update
  | draw
  | finishFrame
deriving DecidableEq, Repr

def LoopStep.kind {Mat : Type} : LoopStep Mat → StepKind
  | .test b => .test b
  | .pollEvents => .pollEvents
  | .update _ => .update
  | .draw _ => .draw
  | .finishFrame _ => .finishFrame

/-- The body of the loop of `GlfwApp::run`, as iteration `k`:
`++frame; glfwPollEvents(); update(); draw(); finishFrame();`. -/
def GlfwApp.iteration {Mat D : Type} (v : LoopVirtuals Mat D) (k : Nat) (o : Obj D) :
    Obj D × List (LoopStep Mat) :=
  let o1 : Obj D := { o with glfw := { o.glfw with frame := (o.glfw.frame + 1) % UINT_RANGE } }
  let u := v.update o1
  let d := v.draw k u.1
  let f := v.finishFrame d.1
  (f.1, [LoopStep.pollEvents, LoopStep.update u.2, LoopStep.draw d.2, LoopStep.finishFrame f.2])

/-- The loop `while (!glfwWindowShouldClose(window)) { ... }` of `GlfwApp::run`, entered
with `k` iterations behind it; `none` when the fuel does not reach the end of the loop. -/
def GlfwApp.loop {Mat D : Type} (v : LoopVirtuals Mat D) (env : Env) :
    Nat → Nat → Obj D → Option (Obj D × List (LoopStep Mat))
  | 0, _, _ => none
  | fuel + 1, k, o =>
    if env.glfwWindowShouldClose k then some (o, [LoopStep.test true])
    else
      let it := GlfwApp.iteration v k o
      match GlfwApp.loop v env fuel (k + 1) it.1 with
      | none => none
      | some (o', steps) => some (o', LoopStep.test false :: (it.2 ++ steps))

/-- How a function ended: by `return code` or by an exception that left it. -/
inductive Completion where
  | returned (code : Int)
  | threw (what : String)
deriving DecidableEq, Repr

/-- An execution of `GlfwApp::run`: the calls made before the loop, the steps of the loop,
and how `run` ended. -/
structure Exec (Mat : Type) where
  setup : List (Event Mat)
  steps : List (LoopStep Mat)
  completion : Completion

/-- The external calls of a sequence of steps of the loop, in order. -/
def stepsTrace {Mat : Type} (steps : List (LoopStep Mat)) : List (Event Mat) :=
  (steps.map LoopStep.events).flatten

/-- All external calls of an execution, in order. -/
def Exec.trace {Mat : Type} (x : Exec Mat) : List (Event Mat) :=
  x.setup ++ stepsTrace x.steps

/-- The function `GlfwApp::postCreate`: make the context current and initialise GLEW,
failing when `glewInit()` does not return 0. -/
def GlfwApp.postCreate {Mat : Type} (env : Env) : Step Mat Unit :=
  if env.glewInit ≠ 0 then FAIL [Event.glewInit env.glewInit] ("Failed to initialize GLEW")
  else { events := [Event.glewInit env.glewInit], result := Except.ok () }

/-- The function `GlfwApp::run`.  `none` when the fuel does not reach the end of the
loop. -/
def GlfwApp.run {Mat C D : Type} (v : Virtuals Mat C D) (env : Env) (fuel : Nat) (o : Obj C) :
    Option (Exec Mat) :=
  let c := v.createRenderingTarget o
  match c.result with
  | Except.error what => some { setup := c.events, steps := [], completion := .threw what }
  | Except.ok (o1, window) =>
    let o2 : Obj C := { o1 with glfw := { o1.glfw with window := window } }
    match window with
    | none =>
      some { setup := c.events ++ [Event.cout ("Unable to create OpenGL window")], steps := [],
             completion := .returned (-1) }
    | some _ =>
      let p : Step Mat Unit := GlfwApp.postCreate env
      match p.result with
      | Except.error what =>
        some { setup := c.events ++ p.events, steps := [], completion := .threw what }
      | Except.ok _ =>
        let g := v.initGl o2
        match GlfwApp.loop v.toLoopVirtuals env fuel 0 g.1 with
        | none => none
        | some (_, steps) =>
          some { setup := c.events ++ p.events ++ g.2, steps := steps,
                 completion := .returned 0 }

/-! ## Matrices -/

structure vec3 where
  x : ℚ
  y : ℚ
  z : ℚ
deriving DecidableEq

structure quat where
  x : ℚ
  y : ℚ
  z : ℚ
  w : ℚ
deriving DecidableEq

/-- The SDK matrix `ovrMatrix4f`: `M[row][column]`. -/
structure ovrMatrix4f where
  M : Fin 4 → Fin 4 → ℚ

/-- The functions of glm and of the SDK on matrices that the examples call; their code is
not part of the repository.  `identity` is `glm::mat4()`, `make_mat4 om` is
`glm::make_mat4(&om.M[0][0])`.  With them goes `preMultiply`, what
`gl::MatrixStack::preMultiply(m)` of `Common.h` (not among the sources) makes the top of the
stack, from `m` and the top it finds. -/
structure Lib (Mat : Type) where
  identity : Mat
  make_mat4 : ovrMatrix4f → Mat
  transpose : Mat → Mat
  inverse : Mat → Mat
  mat4_cast : quat → Mat
  translate : Mat → vec3 → Mat
  scale : Mat → vec3 → Mat
  lookAt : vec3 → vec3 → vec3 → Mat
  preMultiply : Mat → Mat → Mat
  ovrMatrix4f_Projection : ovrFovPort → ℚ → ℚ → Bool → ovrMatrix4f

/-- The SDK constant `OVR_DEFAULT_IPD`, 0.064. -/
def OVR_DEFAULT_IPD : ℚ := 64 / 1000

/-- The function `ovr::toGlm(const ovrMatrix4f &)`. -/
def toGlmMatrix {Mat : Type} (L : Lib Mat) (om : ovrMatrix4f) : Mat :=
  L.transpose (L.make_mat4 om)

/-- The function `ovr::toGlm(const ovrVector3f &)`. -/
def toGlmVector (ov : ovrVector3f) : vec3 := { x := ov.x, y := ov.y, z := ov.z }

/-- The function `ovr::toGlm(const ovrQuatf &)`. -/
def toGlmQuat (oq : ovrQuatf) : quat := { x := oq.x, y := oq.y, z := oq.z, w := oq.w }

/-- The function `ovr::toGlm(const ovrPosef &)`: `translation * orientation`. -/
def toGlm {Mat : Type} [Mul Mat] (L : Lib Mat) (op : ovrPosef) : Mat :=
  let orientation := L.mat4_cast (toGlmQuat op.Orientation)
  let translation := L.translate L.identity (toGlmVector op.Position)
  translation * orientation

/-! ## `RiftManagerApp`, `RiftGlfwApp`, `RiftApp` and `ExampleApp` -/

/-- The members of an `ExampleApp` object, beyond those of `GlfwApp`, once all constructors
have run: those of `RiftManagerApp` (`hmd`, `hmdNativeResolution`, `hmdDesktopPosition`), of
`RiftApp` (`eyeTextures`) and of `ExampleApp` (`modelview`, `ipd`).  The members the
constructors leave unset or null are not part of it. -/
structure ConstructedApp (Mat : Type) where
  hmd : ovrHmdDesc
  hmdNativeResolution : uvec2
  hmdDesktopPosition : ivec2
  eyeTextures : PerEye ovrTexture
  modelview : Mat
  ipd : ℚ

/-- The members of an `ExampleApp` object, beyond those of `GlfwApp`, once `initGl` has
run, and the OpenGL context it draws with.  `currentEye` is `none` for `ovrEye_Count`. -/
structure RiftApp (Mat : Type) where
  hmd : ovrHmdDesc
  hmdNativeResolution : uvec2
  hmdDesktopPosition : ivec2
  eyeTextures : PerEye ovrTexture
  eyeOffsets : PerEye ovrVector3f
  currentEye : Option ovrEyeType
  eyeRenderDescs : PerEye ovrEyeRenderDesc
  projections : PerEye Mat
  eyePoses : PerEye ovrPosef
  eyeFbos : PerEye FboWrapper
  modelview : Mat
  ipd : ℚ
  gl : GlContext

/-- The constructor `GlfwApp::GlfwApp`. -/
def GlfwApp.new {Mat : Type} (env : Env) : Step Mat GlfwApp :=
  if !env.glfwInit then FAIL [Event.glfwInit false] ("Failed to initialize GLFW")
  else
    { events := [Event.glfwInit true],
      result := Except.ok { windowSize := { x := 0, y := 0 }, windowPosition := { x := 0, y := 0 },
                            window := none, frame := 0 } }

/-- The constructor `RiftManagerApp::RiftManagerApp`: the detected headset or, without one,
the debug headset.  Gives `hmd`, `hmdNativeResolution` and `hmdDesktopPosition`. -/
def RiftManagerApp.new {Mat : Type} (env : Env) :
    (ovrHmdDesc × uvec2 × ivec2) × List (Event Mat) :=
  match env.ovrHmd_Create with
  | none =>
    let hmd := env.ovrHmd_CreateDebug
    ((hmd, { x := toUnsigned hmd.Resolution.w, y := toUnsigned hmd.Resolution.h },
      { x := 100, y := 100 }),
     [Event.ovrHmd_Create false, Event.ovrHmd_CreateDebug])
  | some hmd =>
    ((hmd, { x := toUnsigned hmd.Resolution.w, y := toUnsigned hmd.Resolution.h },
      { x := hmd.WindowsPos.x, y := hmd.WindowsPos.y }),
     [Event.ovrHmd_Create true])

/-- The function `glfw::createWindow`. -/
def glfw.createWindow {Mat : Type} (env : Env) (size : uvec2) : Step Mat (Option Nat) :=
  match env.glfwCreateWindow with
  | none => FAIL [Event.glfwCreateWindow size false] ("Unable to create rendering window")
  | some window =>
    { events := [Event.glfwCreateWindow size true], result := Except.ok (some window) }

/-- The function `glfw::createSecondaryScreenWindow`: `createWindow` at the position of a
secondary screen. -/
def glfw.createSecondaryScreenWindow {Mat : Type} (env : Env) (size : uvec2) :
    Step Mat (Option Nat) :=
  glfw.createWindow env size

/-- The local variable `directHmdMode` of `RiftGlfwApp::createRenderingTarget`: on Windows,
whether the headset is not an extension of the desktop; elsewhere `false`. -/
def RiftGlfwApp.directHmdMode (env : Env) : Bool :=
  if env.os = OS.win32 then !env.extendDesktop else false

/-- The first part of `RiftGlfwApp::createRenderingTarget`, called by `run` on the members
`windowSize` and `windowPosition`: on Linux swap the two coordinates of
`hmdNativeResolution`, then `size = hmdNativeResolution; pos = hmdDesktopPosition;`. -/
def RiftGlfwApp.sized {Mat : Type} (env : Env) (o : Obj (ConstructedApp Mat)) :
    Obj (ConstructedApp Mat) :=
  let hmdNativeResolution : uvec2 :=
    if env.os = OS.linux then
      { x := o.self.hmdNativeResolution.y, y := o.self.hmdNativeResolution.x }
    else o.self.hmdNativeResolution
  { glfw := { o.glfw with windowSize := hmdNativeResolution,
                          windowPosition := o.self.hmdDesktopPosition },
    self := { o.self with hmdNativeResolution := hmdNativeResolution } }

/-- The function `RiftGlfwApp::createRenderingTarget`: the window, on a secondary screen in
direct mode and at the position of the headset otherwise; in direct mode the headset is
attached to the window (the native handle of a window that was created is not null). -/
def RiftGlfwApp.createRenderingTarget {Mat : Type} (env : Env) (o : Obj (ConstructedApp Mat)) :
    Step Mat (Obj (ConstructedApp Mat) × Option Nat) :=
  let directHmdMode := RiftGlfwApp.directHmdMode env
  let o1 := RiftGlfwApp.sized env o
  let w : Step Mat (Option Nat) :=
    if directHmdMode then glfw.createSecondaryScreenWindow env o1.glfw.windowSize
    else glfw.createWindow env o1.glfw.windowSize
  match w.result with
  | Except.error what => { events := w.events, result := Except.error what }
  | Except.ok result =>
    { events := w.events ++ (if directHmdMode then [Event.ovrHmd_AttachToWindow] else []),
      result := Except.ok (o1, result) }

/-- The all-zero `ovrTexture` that `memset` leaves. -/
def ovrTexture.zero : ovrTexture :=
  { Header := { API := .ovrRenderAPI_None, TextureSize := { w := 0, h := 0 },
                RenderViewport := { Pos := { x := 0, y := 0 }, Size := { w := 0, h := 0 } } },
    TexId := 0 }

/-- The body of the `for_each_eye` of the constructor `RiftApp::RiftApp`. -/
def RiftApp.newEyeTexture (env : Env) (hmd : ovrHmdDesc) (eye : ovrEyeType)
    (eyeTexture : ovrTexture) : ovrTexture :=
  let eyeTextureSize := env.ovrHmd_GetFovTextureSize eye (hmd.MaxEyeFov.get eye)
  { eyeTexture with
    Header := { eyeTexture.Header with
                TextureSize := eyeTextureSize,
                RenderViewport := { eyeTexture.Header.RenderViewport with Size := eyeTextureSize },
                API := .ovrRenderAPI_OpenGL } }

/-- The constructor `RiftApp::RiftApp`: configure tracking, failing when the SDK reports
that it could not, then fill in the headers of `eyeTextures`. -/
def RiftApp.new {Mat : Type} (env : Env) (hmd : ovrHmdDesc) : Step Mat (PerEye ovrTexture) :=
  if !env.ovrHmd_ConfigureTracking then
    FAIL [Event.ovrHmd_ConfigureTracking false] ("Could not attach to sensor device")
  else
    { events := [Event.ovrHmd_ConfigureTracking true],
      result := Except.ok
        { left := RiftApp.newEyeTexture env hmd .ovrEye_Left ovrTexture.zero,
          right := RiftApp.newEyeTexture env hmd .ovrEye_Right ovrTexture.zero } }

/-- The expression `ExampleApp()`: the constructors of `GlfwApp`, `RiftManagerApp`,
`RiftGlfwApp`, `RiftApp` and `ExampleApp`, in this order. -/
def ExampleApp.new {Mat : Type} (L : Lib Mat) (env : Env) : Step Mat (Obj (ConstructedApp Mat)) :=
  let g : Step Mat GlfwApp := GlfwApp.new env
  match g.result with
  | Except.error what => { events := g.events, result := Except.error what }
  | Except.ok glfw =>
    let m : (ovrHmdDesc × uvec2 × ivec2) × List (Event Mat) := RiftManagerApp.new env
    let r : Step Mat (PerEye ovrTexture) := RiftApp.new env m.1.1
    match r.result with
    | Except.error what => { events := g.events ++ m.2 ++ r.events, result := Except.error what }
    | Except.ok eyeTextures =>
      { events := g.events ++ m.2 ++ r.events,
        result := Except.ok
          { glfw := glfw,
            self := { hmd := m.1.1, hmdNativeResolution := m.1.2.1, hmdDesktopPosition := m.1.2.2,
                      eyeTextures := eyeTextures,
                      modelview := L.lookAt { x := 0, y := 0, z := OVR_DEFAULT_IPD * 5 }
                        { x := 0, y := 0, z := 0 } { x := 0, y := 1, z := 0 },
                      ipd := OVR_DEFAULT_IPD } } }

/-- The members `RiftApp::initGl` sets for one eye. -/
structure EyeGl (Mat : Type) where
  projection : Mat
  eyeOffset : ovrVector3f
  eyeFbo : FboWrapper
  eyeTexture : ovrTexture

/-- The body of the `for_each_eye` of `RiftApp::initGl`: the projection and the offset of
the eye from its render description, a new `FboWrapper` of the size of the eye texture, and
the name of its colour texture stored as `OGL.TexId` of the eye texture. -/
def RiftApp.initEye {Mat : Type} (L : Lib Mat) (erd : ovrEyeRenderDesc) (eyeTexture : ovrTexture)
    (gl : GlContext) : (EyeGl Mat × GlContext) × List (Event Mat) :=
  let ovrPerspectiveProjection := L.ovrMatrix4f_Projection erd.Fov (OVR_DEFAULT_IPD * 4) 100000 true
  let n := FboWrapper.new gl
  let i : GlContext × List (Event Mat) := n.1.init (toGlmSize eyeTexture.Header.TextureSize) n.2
  (({ projection := toGlmMatrix L ovrPerspectiveProjection,
      eyeOffset := erd.HmdToEyeViewOffset,
      eyeFbo := n.1,
      eyeTexture := { eyeTexture with TexId := n.1.color } }, i.1), i.2)

/-- The function `RiftApp::initGl`: configure SDK rendering (the result is stored in a local
variable and not looked at), then set up the left and the right eye. -/
def RiftApp.initGl {Mat : Type} (L : Lib Mat) (env : Env) (o : Obj (ConstructedApp Mat)) :
    Obj (RiftApp Mat) × List (Event Mat) :=
  let eyeRenderDescs := env.eyeRenderDescs
  let l := RiftApp.initEye L eyeRenderDescs.left o.self.eyeTextures.left
    env.contextAfterConfigureRendering
  let r := RiftApp.initEye L eyeRenderDescs.right o.self.eyeTextures.right l.1.2
  ({ glfw := o.glfw,
     self := { hmd := o.self.hmd, hmdNativeResolution := o.self.hmdNativeResolution,
               hmdDesktopPosition := o.self.hmdDesktopPosition,
               eyeTextures := { left := l.1.1.eyeTexture, right := r.1.1.eyeTexture },
               eyeOffsets := { left := l.1.1.eyeOffset, right := r.1.1.eyeOffset },
               currentEye := none,
               eyeRenderDescs := eyeRenderDescs,
               projections := { left := l.1.1.projection, right := r.1.1.projection },
               eyePoses := env.indeterminatePoses,
               eyeFbos := { left := l.1.1.eyeFbo, right := r.1.1.eyeFbo },
               modelview := o.self.modelview, ipd := o.self.ipd,
               gl := r.1.2 } },
   Event.ovrHmd_ConfigureRendering env.configureRendering :: (l.2 ++ r.2))

/-- The function `ExampleApp::initGl`: `RiftApp::initGl`, then the OpenGL settings and the
cube geometry of the scene, which are not traced, and `ovrHmd_RecenterPose`. -/
def ExampleApp.initGl {Mat : Type} (L : Lib Mat) (env : Env) (o : Obj (ConstructedApp Mat)) :
    Obj (RiftApp Mat) × List (Event Mat) :=
  let r := RiftApp.initGl L env o
  (r.1, r.2 ++ [Event.ovrHmd_RecenterPose])

/-- The object as `run` hands it to `initGl` once the window `w` is created. -/
def RiftGlfwApp.withWindow {Mat : Type} (env : Env) (o : Obj (ConstructedApp Mat)) (w : Nat) :
    Obj (ConstructedApp Mat) :=
  { RiftGlfwApp.sized env o with
    glfw := { (RiftGlfwApp.sized env o).glfw with window := some w } }

/-- The function `RiftApp::finishFrame`: empty, "to prevent the swap buffer call, because
OVR does it in end frame". -/
def RiftApp.finishFrame {Mat D : Type} (o : Obj D) : Obj D × List (Event Mat) := (o, [])

/-- One pass of the `for` loop of `RiftApp::draw`: make `eye` the current eye, bind its
framebuffer for drawing, set the viewport of its texture and call `renderScene` with its
projection and its pose. -/
def RiftApp.renderEye {Mat : Type} [Mul Mat] (L : Lib Mat) (o : Obj (RiftApp Mat))
    (eye : ovrEyeType) : Obj (RiftApp Mat) × List (Event Mat) :=
  let vp := (o.self.eyeTextures.get eye).Header.RenderViewport
  let gl : GlContext :=
    { o.self.gl with drawFramebuffer := (o.self.eyeFbos.get eye).fbo, viewport := vp }
  ({ o with self := { o.self with currentEye := some eye, gl := gl } },
   [Event.bindDrawFramebuffer (o.self.eyeFbos.get eye).fbo,
    Event.viewport vp,
    Event.renderScene gl.drawFramebuffer (o.self.projections.get eye)
      (toGlm L (o.self.eyePoses.get eye))])

/-- The function `RiftApp::draw`.  `sdkPoses` is what `ovrHmd_GetEyePoses` writes to the
member `eyePoses`.  The SDK functions `ovrHmd_BeginFrame` and `ovrHmd_EndFrame` return
nothing the function looks at. -/
def RiftApp.draw {Mat : Type} [Mul Mat] (L : Lib Mat) (sdkPoses : PerEye ovrPosef)
    (o : Obj (RiftApp Mat)) : Obj (RiftApp Mat) × List (Event Mat) :=
  let o0 : Obj (RiftApp Mat) := { o with self := { o.self with eyePoses := sdkPoses } }
  let e1 := RiftApp.renderEye L o0 (o0.self.hmd.EyeRenderOrder 0)
  let e2 := RiftApp.renderEye L e1.1 (e1.1.self.hmd.EyeRenderOrder 1)
  let o3 : Obj (RiftApp Mat) :=
    { e2.1 with self := { e2.1.self with gl := { e2.1.self.gl with drawFramebuffer := 0 } } }
  (o3,
   [Event.ovrHmd_GetEyePoses o.glfw.frame o.self.eyeOffsets sdkPoses,
    Event.ovrHmd_BeginFrame o.glfw.frame]
   ++ e1.2 ++ e2.2 ++
   [Event.bindDrawFramebuffer 0,
    Event.ovrHmd_EndFrame o3.self.eyePoses o3.self.eyeTextures])

/-- The virtual functions of an `ExampleApp` object that the loop calls. -/
def ExampleApp.loopVirtuals {Mat : Type} [Mul Mat] (L : Lib Mat) (env : Env) :
    LoopVirtuals Mat (RiftApp Mat) :=
  { update := GlfwApp.update
    draw := fun k o => RiftApp.draw L (env.eyePoses k) o
    finishFrame := RiftApp.finishFrame }

/-- The virtual functions of an `ExampleApp` object. -/
def ExampleApp.virtuals {Mat : Type} [Mul Mat] (L : Lib Mat) (env : Env) :
    Virtuals Mat (ConstructedApp Mat) (RiftApp Mat) :=
  { ExampleApp.loopVirtuals L env with
    createRenderingTarget := RiftGlfwApp.createRenderingTarget env
    initGl := ExampleApp.initGl L env }

/-- The function `main` of `Example_SelfContained.cpp`: the status it returns and the
external calls it made; `none` when the fuel does not reach the end of the render loop. -/
def main {Mat : Type} [Mul Mat] (L : Lib Mat) (env : Env) (fuel : Nat) :
    Option (Int × List (Event Mat)) :=
  if !env.ovr_Initialize then
    some (-1, [Event.ovr_Initialize false, Event.cerr ("Failed to initialize the Oculus SDK"),
               Event.ovr_Shutdown])
  else
    let a : Step Mat (Obj (ConstructedApp Mat)) := ExampleApp.new L env
    match a.result with
    | Except.error what =>
      some (-1, Event.ovr_Initialize true :: (a.events ++ [Event.cerr what, Event.ovr_Shutdown]))
    | Except.ok o =>
      match GlfwApp.run (ExampleApp.virtuals L env) env fuel o with
      | none => none
      | some x =>
        match x.completion with
        | .threw what =>
          some (-1, Event.ovr_Initialize true ::
            (a.events ++ x.trace ++ [Event.cerr what, Event.ovr_Shutdown]))
        | .returned code =>
          some (code, Event.ovr_Initialize true :: (a.events ++ x.trace ++ [Event.ovr_Shutdown]))

/-! ## Matrix stacks and the framebuffer wrappers of `Common.h` -/

/-- The class `gl::MatrixStack`, declared in `Common.h`, which is not among the sources: a
stack of matrices that is never empty.  The examples read and write its top (`top()`), run
code between a push and the pop that undoes it (`withPush`), and call `preMultiply`. -/
structure MatrixStack (Mat : Type) where
  top : Mat
  below : List Mat

/-- The push that `withPush` starts with: the top is saved and stays the top. -/
def MatrixStack.push {Mat : Type} (s : MatrixStack Mat) : MatrixStack Mat :=
  { top := s.top, below := s.top :: s.below }

/-- The pop that `withPush` ends with: the top is the one saved by the push. -/
def MatrixStack.pop {Mat : Type} (s : MatrixStack Mat) : MatrixStack Mat :=
  match s.below with
  | [] => s
  | t :: rest => { top := t, below := rest }

/-- The call `preMultiply(m)` on a stack: the top becomes what `L.preMultiply` makes of `m`
and the top. -/
def MatrixStack.preMultiply {Mat : Type} (L : Lib Mat) (s : MatrixStack Mat) (m : Mat) :
    MatrixStack Mat :=
  { s with top := L.preMultiply m s.top }

/-- The two global stacks `gl::Stacks::projection()` and `gl::Stacks::modelview()` of
`Common.h`. -/
structure Stacks (Mat : Type) where
  projection : MatrixStack Mat
  modelview : MatrixStack Mat

/-- Modelled from the spec: `gl::FrameBufferWrapper` (declared in `Common.h`), the per-eye
render target: the names of its framebuffer and of its colour texture, and its size. -/
structure GlFrameBufferWrapper where
  frameBuffer : Nat
  color : Nat
  size : uvec2
deriving DecidableEq, Repr

/-- Modelled from the spec: `activate()` "redirects all rendering commands to this target and
sets the viewport to its full extent". -/
def GlFrameBufferWrapper.activate {Mat : Type} (self : GlFrameBufferWrapper) (gl : GlContext) :
    GlContext × List (Event Mat) :=
  ({ gl with drawFramebuffer := self.frameBuffer,
             viewport := { Pos := { x := 0, y := 0 },
                           Size := { w := self.size.x, h := self.size.y } } },
   [Event.activate self.frameBuffer])

/-- Modelled from the spec: `deactivate()` "restores rendering to the default/display
target". -/
def GlFrameBufferWrapper.deactivate {Mat : Type} (self : GlFrameBufferWrapper) (gl : GlContext) :
    GlContext × List (Event Mat) :=
  ({ gl with drawFramebuffer := 0 }, [Event.deactivate self.frameBuffer])

/-! ## `HelloRift` -/

/-- The struct `EyeArgs` of `Example_2_4_HelloRift.cpp`. -/
structure EyeArgs (Mat : Type) where
  projection : Mat
  viewOffset : Mat
  framebuffer : GlFrameBufferWrapper

/-- The members of a `HelloRift` object that `update` and `draw` use, with the static local
variables `frameIndex`, `eyePoses` and `eyeOffsets` of `draw`, the global matrix stacks and
the OpenGL context.  `frameIndex` is an `int`; the model does not bound it (the overflow of
an `int` is undefined, and 2^31 frames away). -/
structure HelloRift (Mat : Type) where
  hmd : ovrHmdDesc
  perEyeArgs : PerEye (EyeArgs Mat)
  textures : PerEye ovrTexture
  player : Mat
  frameIndex : Int
  eyePoses : PerEye ovrPosef
  eyeOffsets : PerEye ovrVector3f
  glStacks : Stacks Mat
  gl : GlContext

/-- The function `HelloRift::finishFrame`: empty, "the SDK it responsible for buffer
swapping, so we have to override the method and ensure it does nothing". -/
def HelloRift.finishFrame {Mat D : Type} (o : Obj D) : Obj D × List (Event Mat) := (o, [])

/-- The function `HelloRift::update`: `gl::Stacks::modelview().top() = glm::inverse(player)`. -/
def HelloRift.update {Mat : Type} (L : Lib Mat) (o : Obj (HelloRift Mat)) :
    Obj (HelloRift Mat) × List (Event Mat) :=
  ({ o with self := { o.self with
       glStacks := { o.self.glStacks with
         modelview := { o.self.glStacks.modelview with top := L.inverse o.self.player } } } }, [])

/-- One pass of the `for` loop of `HelloRift::draw`.  `fromOvr` is `Rift::fromOvr` of
`Common.h` on poses. -/
def HelloRift.renderEye {Mat : Type} [Mul Mat] (L : Lib Mat) (fromOvr : ovrPosef → Mat)
    (o : Obj (HelloRift Mat)) (eye : ovrEyeType) : Obj (HelloRift Mat) × List (Event Mat) :=
  let eyeArgs := o.self.perEyeArgs.get eye
  let projection : MatrixStack Mat := { o.self.glStacks.projection with top := eyeArgs.projection }
  let a : GlContext × List (Event Mat) := eyeArgs.framebuffer.activate o.self.gl
  let mv := o.self.glStacks.modelview.push
  let mv1 : MatrixStack Mat :=
    { mv with top := eyeArgs.viewOffset * L.inverse (fromOvr (o.self.eyePoses.get eye)) * mv.top }
  let render : Event Mat := Event.renderScene a.1.drawFramebuffer projection.top mv1.top
  let mv2 := mv1.pop
  let d : GlContext × List (Event Mat) := eyeArgs.framebuffer.deactivate a.1
  ({ o with self := { o.self with glStacks := { projection := projection, modelview := mv2 },
                                  gl := d.1 } },
   a.2 ++ [render] ++ d.2)

/-- The function `HelloRift::draw`.  `sdkPoses` is what `ovrHmd_GetEyePoses` writes to
`eyePoses`. -/
def HelloRift.draw {Mat : Type} [Mul Mat] (L : Lib Mat) (fromOvr : ovrPosef → Mat)
    (sdkPoses : PerEye ovrPosef) (o : Obj (HelloRift Mat)) :
    Obj (HelloRift Mat) × List (Event Mat) :=
  let zero : ovrVector3f := { x := 0, y := 0, z := 0 }
  let o0 : Obj (HelloRift Mat) :=
    { o with self := { o.self with eyeOffsets := { left := zero, right := zero },
                                   frameIndex := o.self.frameIndex + 1,
                                   eyePoses := sdkPoses } }
  let e1 := HelloRift.renderEye L fromOvr o0 (o0.self.hmd.EyeRenderOrder 0)
  let e2 := HelloRift.renderEye L fromOvr e1.1 (e1.1.self.hmd.EyeRenderOrder 1)
  (e2.1,
   [Event.ovrHmd_GetEyePoses (toUnsigned o0.self.frameIndex) o0.self.eyeOffsets sdkPoses,
    Event.ovrHmd_BeginFrame (toUnsigned o0.self.frameIndex)]
   ++ e1.2 ++ e2.2 ++
   [Event.ovrHmd_EndFrame e2.1.self.eyePoses e2.1.self.textures])

/-- The virtual functions of a `HelloRift` object that the loop calls. -/
def HelloRift.loopVirtuals {Mat : Type} [Mul Mat] (L : Lib Mat) (fromOvr : ovrPosef → Mat)
    (env : Env) : LoopVirtuals Mat (HelloRift Mat) :=
  { update := HelloRift.update L
    draw := fun k o => HelloRift.draw L fromOvr (env.eyePoses k) o
    finishFrame := HelloRift.finishFrame }

/-! ## `ClientSideDistortionExample` -/

/-- The members of the struct `EyeArg` of `Example_X_ClientSideDistortion.cpp` that the
rendering of the scene uses (the distortion mesh and its buffers are left out). -/
structure EyeArg (Mat : Type) where
  frameBuffer : GlFrameBufferWrapper
  projection : Mat
  viewOffset : Mat

/-- The members of a `ClientSideDistortionExample` object that `draw` uses, with the static
local variable `frameIndex` of `draw`, the global matrix stacks and the OpenGL context. -/
structure ClientSideDistortionExample (Mat : Type) where
  hmd : ovrHmdDesc
  eyeArgs : PerEye (EyeArg Mat)
  player : Mat
  frameIndex : Int
  glStacks : Stacks Mat
  gl : GlContext

/-- The function `ClientSideDistortionExample::update`. -/
def ClientSideDistortionExample.update {Mat : Type} (L : Lib Mat)
    (o : Obj (ClientSideDistortionExample Mat)) :
    Obj (ClientSideDistortionExample Mat) × List (Event Mat) :=
  ({ o with self := { o.self with
       glStacks := { o.self.glStacks with
         modelview := { o.self.glStacks.modelview with top := L.inverse o.self.player } } } }, [])

/-- One pass of the first `for` loop of `ClientSideDistortionExample::draw`; `pose` is what
`ovrHmd_GetHmdPosePerEye` returns in it.  `gl::Stacks::with_push` saves both stacks and
restores them after the body. -/
def ClientSideDistortionExample.renderEye {Mat : Type} [Mul Mat] (L : Lib Mat)
    (fromOvr : ovrPosef → Mat) (o : Obj (ClientSideDistortionExample Mat)) (eye : ovrEyeType)
    (pose : ovrPosef) : Obj (ClientSideDistortionExample Mat) × List (Event Mat) :=
  let eyeArg := o.self.eyeArgs.get eye
  let projection : MatrixStack Mat := { o.self.glStacks.projection with top := eyeArg.projection }
  let a : GlContext × List (Event Mat) := eyeArg.frameBuffer.activate o.self.gl
  let pr := projection.push
  let mv := o.self.glStacks.modelview.push
  let mv1 := mv.preMultiply L (L.inverse (fromOvr pose))
  let mv2 := mv1.preMultiply L eyeArg.viewOffset
  let render : Event Mat := Event.renderScene a.1.drawFramebuffer pr.top mv2.top
  let d : GlContext × List (Event Mat) := eyeArg.frameBuffer.deactivate a.1
  ({ o with self := { o.self with glStacks := { projection := pr.pop, modelview := mv2.pop },
                                  gl := d.1 } },
   [Event.ovrHmd_GetHmdPosePerEye eye pose] ++ a.2 ++ [render] ++ d.2)

/-- The function `ClientSideDistortionExample::draw`: begin the frame timing with
`frameIndex++`, render the scene for the two eyes in the order of the headset, draw the two
distortion meshes to the window, end the frame timing.  `sdkPose i` is what the `i`-th call
of `ovrHmd_GetHmdPosePerEye` returns. -/
def ClientSideDistortionExample.draw {Mat : Type} [Mul Mat] (L : Lib Mat)
    (fromOvr : ovrPosef → Mat) (sdkPose : Fin 2 → ovrPosef)
    (o : Obj (ClientSideDistortionExample Mat)) :
    Obj (ClientSideDistortionExample Mat) × List (Event Mat) :=
  let o0 : Obj (ClientSideDistortionExample Mat) :=
    { o with self := { o.self with frameIndex := o.self.frameIndex + 1 } }
  let e1 := ClientSideDistortionExample.renderEye L fromOvr o0 (o0.self.hmd.EyeRenderOrder 0)
    (sdkPose 0)
  let e2 := ClientSideDistortionExample.renderEye L fromOvr e1.1 (e1.1.self.hmd.EyeRenderOrder 1)
    (sdkPose 1)
  let gl : GlContext :=
    { e2.1.self.gl with
      viewport := { Pos := { x := 0, y := 0 },
                    Size := { w := o.glfw.windowSize.x, h := o.glfw.windowSize.y } } }
  ({ e2.1 with self := { e2.1.self with gl := gl } },
   [Event.ovrHmd_BeginFrameTiming (toUnsigned o.self.frameIndex)]
   ++ e1.2 ++ e2.2 ++
   [Event.drawDistortionMesh .ovrEye_Left (e2.1.self.eyeArgs.get .ovrEye_Left).frameBuffer.color,
    Event.drawDistortionMesh .ovrEye_Right (e2.1.self.eyeArgs.get .ovrEye_Right).frameBuffer.color,
    Event.ovrHmd_EndFrameTiming])

/-! ## `CubeScene_RiftSensors` -/

/-- The struct `FramebufferWrapper` of `common/opengl/Framebuffer.h`: its size and the names
of the framebuffer, the colour texture and the depth renderbuffer it points to. -/
structure FramebufferWrapper where
  size : uvec2
  fbo : Nat
  color : Nat
  depth : Nat
deriving DecidableEq, Repr

/-- The function `FramebufferWrapper::init`: remember the size, make a new texture, a new
renderbuffer and a new framebuffer, call `Image2D` on the texture and `Storage` on the
renderbuffer with `size.x` and `size.y`, which are converted from `unsigned int` to
`GLsizei`, bind the framebuffer for drawing and attach both to it. -/
def FramebufferWrapper.init {Mat : Type} (_self : FramebufferWrapper) (size : uvec2)
    (gl : GlContext) : (FramebufferWrapper × GlContext) × List (Event Mat) :=
  let color := gl.textures + 1
  let depth := gl.renderbuffers + 1
  let fbo := gl.framebuffers + 1
  let gl1 : GlContext := { gl with textures := color, renderbuffers := depth, framebuffers := fbo }
  let gl2 := gl1.Image2D color (toSigned size.x) (toSigned size.y)
  let gl3 := gl2.Storage depth (toSigned size.x) (toSigned size.y)
  (({ size := size, fbo := fbo, color := color, depth := depth },
    { gl3 with drawFramebuffer := fbo,
               colorAttachment := (fbo, color) :: gl3.colorAttachment,
               depthAttachment := (fbo, depth) :: gl3.depthAttachment }),
   [Event.bindDrawFramebuffer fbo])

/-- The default-constructed `FramebufferWrapper`. -/
def FramebufferWrapper.empty : FramebufferWrapper :=
  { size := { x := 0, y := 0 }, fbo := 0, color := 0, depth := 0 }

/-- The SDK constant `OVR_DEFAULT_EYE_HEIGHT`, 1.675. -/
def OVR_DEFAULT_EYE_HEIGHT : ℚ := 1675 / 1000

/-- A `CubeScene_RiftSensors` object once its constructors have run: the headset of its base
class and the global matrix stacks. -/
structure ConstructedCubeScene (Mat : Type) where
  hmd : ovrHmdDesc
  glStacks : Stacks Mat

/-- The members of a `CubeScene_RiftSensors` object once `initGl` has run, with the headset
of its base class, the global matrix stacks and the OpenGL context.  `frameIndex` is an
`int` that the model does not bound. -/
structure CubeScene_RiftSensors (Mat : Type) where
  hmd : ovrHmdDesc
  frameIndex : Int
  eyeFramebuffers : PerEye FramebufferWrapper
  eyeTextures : PerEye ovrTexture
  eyeOffsets : PerEye ovrVector3f
  eyeProjections : PerEye Mat
  glStacks : Stacks Mat
  gl : GlContext

/-- The constructor `CubeScene_RiftSensors::CubeScene_RiftSensors`, after the constructors
of the base classes have made `glfw`, `hmd` and the matrix stacks: set the modelview, ask
the SDK for tracking, and say a warning when it reports that it could not. -/
def CubeScene_RiftSensors.new {Mat : Type} (L : Lib Mat) (env : Env) (glfw : GlfwApp)
    (hmd : ovrHmdDesc) (glStacks : Stacks Mat) : Step Mat (Obj (ConstructedCubeScene Mat)) :=
  let modelview : MatrixStack Mat :=
    { glStacks.modelview with
      top := L.lookAt { x := 0, y := OVR_DEFAULT_EYE_HEIGHT, z := 5 * OVR_DEFAULT_IPD }
        { x := 0, y := OVR_DEFAULT_EYE_HEIGHT, z := 0 } { x := 0, y := 1, z := 0 } }
  { events :=
      Event.ovrHmd_ConfigureTracking env.ovrHmd_ConfigureTracking ::
        (if !env.ovrHmd_ConfigureTracking then
          [Event.say ("Warning: Unable to locate Rift sensor device.  This demo is boring now.")]
         else []),
    result := Except.ok
      { glfw := glfw, self := { hmd := hmd, glStacks := { glStacks with modelview := modelview } } } }

/-- What `CubeScene_RiftSensors::initGl` sets for one eye. -/
structure CubeEyeGl (Mat : Type) where
  eyeFramebuffer : FramebufferWrapper
  eyeTexture : ovrTexture
  eyeOffset : ovrVector3f
  eyeProjection : Mat

/-- The body of the `for_each_eye` of `CubeScene_RiftSensors::initGl`. -/
def CubeScene_RiftSensors.initEye {Mat : Type} (L : Lib Mat) (env : Env) (hmd : ovrHmdDesc)
    (eye : ovrEyeType) (gl : GlContext) : (CubeEyeGl Mat × GlContext) × List (Event Mat) :=
  let fov := hmd.DefaultEyeFov.get eye
  let texSize := env.ovrHmd_GetFovTextureSize eye fov
  let i : (FramebufferWrapper × GlContext) × List (Event Mat) :=
    FramebufferWrapper.empty.init (toGlmSize texSize) gl
  let projection := L.ovrMatrix4f_Projection fov (1 / 100) 100 true
  (({ eyeFramebuffer := i.1.1,
      eyeTexture := { Header := { API := .ovrRenderAPI_OpenGL, TextureSize := texSize,
                                  RenderViewport := { Pos := { x := 0, y := 0 }, Size := texSize } },
                      TexId := i.1.1.color },
      eyeOffset := (env.eyeRenderDescs.get eye).HmdToEyeViewOffset,
      eyeProjection := toGlmMatrix L projection }, i.1.2), i.2)

/-- The function `CubeScene_RiftSensors::initGl`. -/
def CubeScene_RiftSensors.initGl {Mat : Type} (L : Lib Mat) (env : Env)
    (o : Obj (ConstructedCubeScene Mat)) : Obj (CubeScene_RiftSensors Mat) × List (Event Mat) :=
  let l := CubeScene_RiftSensors.initEye L env o.self.hmd .ovrEye_Left
    env.contextAfterConfigureRendering
  let r := CubeScene_RiftSensors.initEye L env o.self.hmd .ovrEye_Right l.1.2
  ({ glfw := o.glfw,
     self := { hmd := o.self.hmd, frameIndex := 0,
               eyeFramebuffers := { left := l.1.1.eyeFramebuffer, right := r.1.1.eyeFramebuffer },
               eyeTextures := { left := l.1.1.eyeTexture, right := r.1.1.eyeTexture },
               eyeOffsets := { left := l.1.1.eyeOffset, right := r.1.1.eyeOffset },
               eyeProjections := { left := l.1.1.eyeProjection, right := r.1.1.eyeProjection },
               glStacks := o.self.glStacks, gl := r.1.2 } },
   Event.ovrHmd_ConfigureRendering env.configureRendering :: (l.2 ++ r.2))

/-- The function `CubeScene_RiftSensors::finishFrame`: empty. -/
def CubeScene_RiftSensors.finishFrame {Mat D : Type} (o : Obj D) : Obj D × List (Event Mat) :=
  (o, [])

/-- One pass of the `for` loop of `CubeScene_RiftSensors::draw`; `eyePoses` is the local
array of `draw`. -/
def CubeScene_RiftSensors.renderEye {Mat : Type} [Mul Mat] (L : Lib Mat)
    (eyePoses : PerEye ovrPosef) (o : Obj (CubeScene_RiftSensors Mat)) (eye : ovrEyeType) :
    Obj (CubeScene_RiftSensors Mat) × List (Event Mat) :=
  let projection : MatrixStack Mat :=
    { o.self.glStacks.projection with top := o.self.eyeProjections.get eye }
  let vp := (o.self.eyeTextures.get eye).Header.RenderViewport
  let gl : GlContext :=
    { o.self.gl with drawFramebuffer := (o.self.eyeFramebuffers.get eye).fbo, viewport := vp }
  let mv := o.self.glStacks.modelview.push
  let mv1 := mv.preMultiply L (L.inverse (toGlm L (eyePoses.get eye)))
  ({ o with self := { o.self with glStacks := { projection := projection, modelview := mv1.pop },
                                  gl := gl } },
   [Event.bindDrawFramebuffer (o.self.eyeFramebuffers.get eye).fbo,
    Event.viewport vp,
    Event.renderScene gl.drawFramebuffer projection.top mv1.top])

/-- The function `CubeScene_RiftSensors::draw`.  `sdkPoses` is what `ovrHmd_GetEyePoses`
writes to the local array `eyePoses`. -/
def CubeScene_RiftSensors.draw {Mat : Type} [Mul Mat] (L : Lib Mat) (sdkPoses : PerEye ovrPosef)
    (o : Obj (CubeScene_RiftSensors Mat)) : Obj (CubeScene_RiftSensors Mat) × List (Event Mat) :=
  let o0 : Obj (CubeScene_RiftSensors Mat) :=
    { o with self := { o.self with frameIndex := o.self.frameIndex + 1 } }
  let eyePoses := sdkPoses
  let e1 := CubeScene_RiftSensors.renderEye L eyePoses o0 (o0.self.hmd.EyeRenderOrder 0)
  let e2 := CubeScene_RiftSensors.renderEye L eyePoses e1.1 (e1.1.self.hmd.EyeRenderOrder 1)
  let o3 : Obj (CubeScene_RiftSensors Mat) :=
    { e2.1 with self := { e2.1.self with gl := { e2.1.self.gl with drawFramebuffer := 0 } } }
  (o3,
   [Event.ovrHmd_GetEyePoses (toUnsigned o0.self.frameIndex) o0.self.eyeOffsets sdkPoses,
    Event.ovrHmd_BeginFrame (toUnsigned o0.self.frameIndex)]
   ++ e1.2 ++ e2.2 ++
   [Event.bindDrawFramebuffer 0,
    Event.ovrHmd_EndFrame eyePoses o3.self.eyeTextures])

/-- The virtual functions of a `CubeScene_RiftSensors` object that the loop calls; `update`
is the one of `GlfwApp`. -/
def CubeScene_RiftSensors.loopVirtuals {Mat : Type} [Mul Mat] (L : Lib Mat) (env : Env) :
    LoopVirtuals Mat (CubeScene_RiftSensors Mat) :=
  { update := GlfwApp.update
    draw := fun k o => CubeScene_RiftSensors.draw L (env.eyePoses k) o
    finishFrame := CubeScene_RiftSensors.finishFrame }

/-- The virtual functions of a `CubeScene_RiftSensors` object.  The function
`createRenderingTarget` is the one of its base class `RiftGlfwApp` of `Common.h`, which is
not among the sources, and is a parameter. -/
def CubeScene_RiftSensors.virtuals {Mat : Type} [Mul Mat] (L : Lib Mat) (env : Env)
    (createRenderingTarget :
      Obj (ConstructedCubeScene Mat) → Step Mat (Obj (ConstructedCubeScene Mat) × Option Nat)) :
    Virtuals Mat (ConstructedCubeScene Mat) (CubeScene_RiftSensors Mat) :=
  { CubeScene_RiftSensors.loopVirtuals L env with
    createRenderingTarget := createRenderingTarget
    initGl := CubeScene_RiftSensors.initGl L env }

/-- An object with the virtual functions of `v`, except that `finishFrame` is the one of the
base class `GlfwApp`. -/
def LoopVirtuals.withBaseFinishFrame {Mat D : Type} (v : LoopVirtuals Mat D) :
    LoopVirtuals Mat D :=
  { v with finishFrame := GlfwApp.finishFrame }

/-! ## The constructor of `HelloRift` -/

/-- The members of a `HelloRift` object that its constructor sets. -/
structure ConstructedHelloRift (Mat : Type) where
  hmd : ovrHmdDesc
  directMode : Bool
  debugDevice : Bool
  eyeHeight : ℚ
  ipd : ℚ
  player : Mat

/-- The constructor `HelloRift::HelloRift`, after the constructor of the base class has made
`glfw`: initialise the SDK, take the detected headset or, without one, the debug headset,
ask for tracking (the result is not looked at), take the position and the size of the
window from the headset, and `resetPosition()`. -/
def HelloRift.new {Mat : Type} (L : Lib Mat) (env : Env) (glfw : GlfwApp) :
    Obj (ConstructedHelloRift Mat) × List (Event Mat) :=
  let debugDevice : Bool := env.ovrHmd_Create.isNone
  let hmd : ovrHmdDesc :=
    match env.ovrHmd_Create with
    | none => env.ovrHmd_CreateDebug
    | some hmd => hmd
  let directMode : Bool := if env.os = OS.win32 then !env.extendDesktop else false
  let windowPosition : ivec2 := { x := hmd.WindowsPos.x, y := hmd.WindowsPos.y }
  let windowSize : uvec2 := { x := toUnsigned hmd.Resolution.w, y := toUnsigned hmd.Resolution.h }
  let windowSize : uvec2 :=
    if env.os = OS.linux then { x := windowSize.y, y := windowSize.x } else windowSize
  let EYE : vec3 := { x := 0, y := OVR_DEFAULT_EYE_HEIGHT, z := OVR_DEFAULT_IPD * 5 }
  let LOOKAT : vec3 := { x := 0, y := OVR_DEFAULT_EYE_HEIGHT, z := 0 }
  ({ glfw := { glfw with windowPosition := windowPosition, windowSize := windowSize },
     self := { hmd := hmd, directMode := directMode, debugDevice := debugDevice,
               eyeHeight := OVR_DEFAULT_EYE_HEIGHT, ipd := OVR_DEFAULT_IPD,
               player := L.inverse (L.lookAt EYE LOOKAT { x := 0, y := 1, z := 0 }) } },
   [Event.ovr_Initialize env.ovr_Initialize, Event.ovrHmd_Create env.ovrHmd_Create.isSome]
   ++ (if debugDevice then [Event.ovrHmd_CreateDebug] else [])
   ++ [Event.ovrHmd_ConfigureTracking env.ovrHmd_ConfigureTracking, Event.ovrHmd_RecenterPose])

/-! ## Binding the framebuffer wrappers -/

/-- The enumeration `oglplus::Framebuffer::Target`, as far as the wrappers use it. -/
inductive FramebufferTarget where
  | Draw
  | Read
deriving DecidableEq, Repr

/-- The framebuffer bound to a target. -/
def GlContext.boundTo (gl : GlContext) : FramebufferTarget → Nat
  | .Draw => gl.drawFramebuffer
  | .Read => gl.readFramebuffer

/-- The call `glBindFramebuffer(target, name)`, which `Bind(target)` of an
`oglplus::Framebuffer` and of `oglplus::DefaultFramebuffer` (name 0) makes. -/
def GlContext.BindFramebuffer (gl : GlContext) (target : FramebufferTarget) (name : Nat) :
    GlContext :=
  match target with
  | .Draw => { gl with drawFramebuffer := name }
  | .Read => { gl with readFramebuffer := name }

/-- The call `oglplus::Context::Viewport(x, y, w, h)`. -/
def GlContext.Viewport (gl : GlContext) (x y w h : Int) : GlContext :=
  { gl with viewport := { Pos := { x := x, y := y }, Size := { w := w, h := h } } }

/-- The call `glFramebufferTexture2D(target, GL_COLOR_ATTACHMENT0, GL_TEXTURE_2D, texture, 0)`:
`texture` becomes colour attachment 0 of the framebuffer bound to `target` (texture 0
detaches); with the default framebuffer bound the call is an error that changes nothing. -/
def GlContext.FramebufferTexture2D (gl : GlContext) (target : FramebufferTarget)
    (texture : Nat) : GlContext :=
  if gl.boundTo target = 0 then gl
  else { gl with colorAttachment := (gl.boundTo target, texture) :: gl.colorAttachment }

/-- The function `FramebufferWrapper::Bind(target)` (`target` defaults to `Draw`):
`fbo->Bind(target); Viewport(0, 0, size.x, size.y);`. -/
def FramebufferWrapper.Bind (self : FramebufferWrapper) (target : FramebufferTarget)
    (gl : GlContext) : GlContext :=
  (gl.BindFramebuffer target self.fbo).Viewport 0 0 (toSigned self.size.x) (toSigned self.size.y)

/-- The static function `FramebufferWrapper::Unbind(target)`:
`DefaultFramebuffer().Bind(target)`. -/
def FramebufferWrapper.Unbind (target : FramebufferTarget) (gl : GlContext) : GlContext :=
  gl.BindFramebuffer target 0

/-- The SDK struct `ovrSwapTextureSet`, which the member `textureSet` of a
`RiftFramebufferWrapper` points to. -/
structure ovrSwapTextureSet where
  Textures : List ovrTexture
  TextureCount : Int
  CurrentIndex : Int
deriving DecidableEq

/-- The members of a `RiftFramebufferWrapper` that `OvrUtils.cpp` uses, the headset handle
apart: `size`, the names of the framebuffer `fbo` and of the renderbuffer `depth`, and the
swap texture set. -/
structure RiftFramebufferWrapper where
  size : uvec2
  fbo : Nat
  depth : Nat
  textureSet : ovrSwapTextureSet
deriving DecidableEq

/-- The function `RiftFramebufferWrapper::Bind(target)`: bind `fbo` to `target` and make the
swap texture `Textures[CurrentIndex]` its colour attachment 0.  `none` when `CurrentIndex` is
not the index of a texture of the set. -/
def RiftFramebufferWrapper.Bind (self : RiftFramebufferWrapper) (target : FramebufferTarget)
    (gl : GlContext) : Option GlContext :=
  if self.textureSet.CurrentIndex < 0 then none
  else
    match self.textureSet.Textures.get? self.textureSet.CurrentIndex.toNat with
    | none => none
    | some tex => some ((gl.BindFramebuffer target self.fbo).FramebufferTexture2D target tex.TexId)

/-- The function `RiftFramebufferWrapper::Unbind(target)`: detach colour attachment 0 of the
framebuffer bound to `target`, then bind the default framebuffer to `target`. -/
def RiftFramebufferWrapper.Unbind (_self : RiftFramebufferWrapper) (target : FramebufferTarget)
    (gl : GlContext) : GlContext :=
  (gl.FramebufferTexture2D target 0).BindFramebuffer target 0

/-- The function `RiftFramebufferWrapper::Viewport`: `Viewport(0, 0, size.x, size.y)`. -/
def RiftFramebufferWrapper.Viewport (self : RiftFramebufferWrapper) (gl : GlContext) :
    GlContext :=
  gl.Viewport 0 0 (toSigned self.size.x) (toSigned self.size.y)

/-- The function `RiftFramebufferWrapper::Increment`:
`++textureSet->CurrentIndex; textureSet->CurrentIndex %= textureSet->TextureCount;` on the
two `int` members of the set.  `none` where C++ gives the statements no meaning: when the
increment overflows, and when `TextureCount` is 0. -/
def RiftFramebufferWrapper.Increment (self : RiftFramebufferWrapper) :
    Option RiftFramebufferWrapper :=
  if 2 ^ 31 ≤ self.textureSet.CurrentIndex + 1 then none
  else if self.textureSet.TextureCount = 0 then none
  else
    some { self with
           textureSet := { self.textureSet with
                           CurrentIndex := (self.textureSet.CurrentIndex + 1).tmod
                             self.textureSet.TextureCount } }

/-- A number of calls of `Increment`, one after the other. -/
def RiftFramebufferWrapper.IncrementTimes :
    Nat → RiftFramebufferWrapper → Option RiftFramebufferWrapper
  | 0, self => some self
  | k + 1, self =>
    match self.Increment with
    | none => none
    | some next => RiftFramebufferWrapper.IncrementTimes k next

/-! ## The position of a secondary screen -/

/-- The fields of a `GLFWvidmode` that `glfw::getSize` reads. -/
structure GLFWvidmode where
  width : Int
  height : Int
deriving DecidableEq, Repr

/-- What GLFW answers about the monitors; a monitor is the handle (`GLFWmonitor *`, not
null) GLFW gives for it. -/
structure GlfwMonitors where
  glfwGetPrimaryMonitor : Nat
  glfwGetMonitors : List Nat
  glfwGetVideoMode : Nat → GLFWvidmode
  glfwGetMonitorPos : Nat → ivec2

/-- The function `glfw::getSize`: `uvec2(mode->width, mode->height)`. -/
def glfw.getSize (d : GlfwMonitors) (monitor : Nat) : uvec2 :=
  { x := toUnsigned (d.glfwGetVideoMode monitor).width,
    y := toUnsigned (d.glfwGetVideoMode monitor).height }

/-- The function `glfw::getPosition`. -/
def glfw.getPosition (d : GlfwMonitors) (monitor : Nat) : ivec2 := d.glfwGetMonitorPos monitor

/-- The body of the `for` loop of `glfw::getSecondaryScreenPosition` for the monitor `cur`,
on the variables `best` and `bestSize` (`none` while `best` is the null pointer, when
`bestSize` is not read). -/
def glfw.considerMonitor (d : GlfwMonitors) (best : Option (Nat × uvec2)) (cur : Nat) :
    Option (Nat × uvec2) :=
  if cur = d.glfwGetPrimaryMonitor then best
  else
    let curSize := glfw.getSize d cur
    match best with
    | none => some (cur, curSize)
    | some (b, bestSize) =>
      if bestSize.x < curSize.x ∧ bestSize.y < curSize.y then some (cur, curSize)
      else some (b, bestSize)

/-- The `for` loop of `glfw::getSecondaryScreenPosition` over the monitors that are left. -/
def glfw.considerMonitors (d : GlfwMonitors) :
    List Nat → Option (Nat × uvec2) → Option (Nat × uvec2)
  | [], best => best
  | cur :: rest, best => glfw.considerMonitors d rest (glfw.considerMonitor d best cur)

/-- The variables `best` and `bestSize` of `glfw::getSecondaryScreenPosition` when the
position is taken: the result of the loop or, when it left `best` null, the primary
monitor. -/
def glfw.secondaryScreen (d : GlfwMonitors) : Nat × uvec2 :=
  match glfw.considerMonitors d d.glfwGetMonitors none with
  | none => (d.glfwGetPrimaryMonitor, glfw.getSize d d.glfwGetPrimaryMonitor)
  | some r => r

/-- The statement `if (bestSize > size) pos += (bestSize - size) / 2;` on one coordinate:
the sum is computed in `unsigned int` and stored in the `int`. -/
def glfw.centre (pos : Int) (bestSize size : Nat) : Int :=
  if bestSize > size then toSigned (toUnsigned pos + (bestSize - size) / 2) else pos

/-- The function `glfw::getSecondaryScreenPosition`. -/
def glfw.getSecondaryScreenPosition (d : GlfwMonitors) (size : uvec2) : ivec2 :=
  let best := (glfw.secondaryScreen d).1
  let bestSize := (glfw.secondaryScreen d).2
  let pos := glfw.getPosition d best
  { x := glfw.centre pos.x bestSize.x size.x, y := glfw.centre pos.y bestSize.y size.y }

/-- What the loop of `glfw::getSecondaryScreenPosition` keeps true of `best` and `bestSize`
once it has gone through the monitors `seen`: while `best` is null every monitor seen was
the primary; afterwards `bestSize` is the size of `best`, and no monitor seen, other than the
primary, is larger than `bestSize` in width and in height at once. -/
def glfw.Undominated (d : GlfwMonitors) (seen : List Nat) : Option (Nat × uvec2) → Prop
  | none => ∀ m ∈ seen, m = d.glfwGetPrimaryMonitor
  | some (b, bestSize) =>
    bestSize = glfw.getSize d b ∧
    ∀ m ∈ seen, m ≠ d.glfwGetPrimaryMonitor →
      ¬ (bestSize.x < (glfw.getSize d m).x ∧ bestSize.y < (glfw.getSize d m).y)

/-! ## The scene of `ExampleApp` and the matrices of glm -/

/-- The function `ExampleApp::renderScene`: the object, which it leaves as it is, and the
two arguments of the call `cubeScene->render(projection, modelview)`, where the local
`modelview` is `glm::scale(glm::inverse(headPose) * this->modelview, glm::vec3(ipd))`. -/
def ExampleApp.renderScene {Mat : Type} [Mul Mat] (L : Lib Mat) (o : Obj (RiftApp Mat))
    (projection headPose : Mat) : Obj (RiftApp Mat) × (Mat × Mat) :=
  let modelview := L.inverse headPose * o.self.modelview
  let modelview := L.scale modelview { x := o.self.ipd, y := o.self.ipd, z := o.self.ipd }
  (o, (projection, modelview))

/-- A `glm::mat4` with rational entries, as the matrix it stands for: the entry in row `r`
and column `c` is `m[c][r]` of glm, and the product is `operator*` of glm. -/
abbrev mat4 : Type := Matrix (Fin 4) (Fin 4) ℚ

/-- The function `glm::mat4_cast` of a quaternion. -/
def glm.mat4_cast (q : quat) : mat4 :=
  Matrix.of fun r c =>
    match c, r with
    | 0, 0 => 1 - 2 * (q.y * q.y + q.z * q.z)
    | 0, 1 => 2 * (q.x * q.y + q.w * q.z)
    | 0, 2 => 2 * (q.x * q.z - q.w * q.y)
    | 1, 0 => 2 * (q.x * q.y - q.w * q.z)
    | 1, 1 => 1 - 2 * (q.x * q.x + q.z * q.z)
    | 1, 2 => 2 * (q.y * q.z + q.w * q.x)
    | 2, 0 => 2 * (q.x * q.z + q.w * q.y)
    | 2, 1 => 2 * (q.y * q.z - q.w * q.x)
    | 2, 2 => 1 - 2 * (q.x * q.x + q.y * q.y)
    | 3, 3 => 1
    | _, _ => 0

/-- The function `glm::translate(m, v)`: the columns of `m`, the last one replaced by
`m[0] * v[0] + m[1] * v[1] + m[2] * v[2] + m[3]`. -/
def glm.translate (m : mat4) (v : vec3) : mat4 :=
  Matrix.of fun r c => if c = 3 then m r 0 * v.x + m r 1 * v.y + m r 2 * v.z + m r 3 else m r c

/-- The function `glm::scale(m, v)`: the columns `m[0] * v[0]`, `m[1] * v[1]`,
`m[2] * v[2]` and `m[3]`. -/
def glm.scale (m : mat4) (v : vec3) : mat4 :=
  Matrix.of fun r c =>
    if c = 0 then m r 0 * v.x else if c = 1 then m r 1 * v.y
    else if c = 2 then m r 2 * v.z else m r 3

/-- The function `glm::inverse`: the matrix of cofactors, transposed, times the inverse of
the determinant. -/
def glm.inverse (m : mat4) : mat4 := (m.det)⁻¹ • m.adjugate

/-- The function `glm::make_mat4(&om.M[0][0])`: the sixteen numbers fill the columns one
after the other, so that `m[c][r]` is `om.M[c][r]`. -/
def glm.make_mat4 (om : ovrMatrix4f) : mat4 := Matrix.of fun r c => om.M c r

/-- The functions of glm on matrices with rational entries.  `glm::lookAt` takes a square
root, and the projection is made by the SDK: both are left to the caller. -/
def glm.lib (lookAt : vec3 → vec3 → vec3 → mat4)
    (ovrMatrix4f_Projection : ovrFovPort → ℚ → ℚ → Bool → ovrMatrix4f) : Lib mat4 :=
  { identity := 1
    make_mat4 := glm.make_mat4
    transpose := Matrix.transpose
    inverse := glm.inverse
    mat4_cast := glm.mat4_cast
    translate := glm.translate
    scale := glm.scale
    lookAt := lookAt
    preMultiply := fun m top => m * top
    ovrMatrix4f_Projection := ovrMatrix4f_Projection }

/-- The element `m[c][r]` of a `glm::mat4`: row `r` of column `c`. -/
def glm.element (m : mat4) (c r : Fin 4) : ℚ := m r c

/-- The function `ovr::fromGlm(const mat4 &)`: `memcpy` of the sixteen numbers of
`glm::transpose(m)`, column after column, into `result.M`, so that `result.M[i][j]` is
`transposed[i][j]`. -/
def fromGlmMatrix (m : mat4) : ovrMatrix4f :=
  let transposed : mat4 := Matrix.transpose m
  { M := fun i j => glm.element transposed i j }

/-! ## The capabilities of the headset -/

/-- The operator `~` on a word of 32 bits.  The capability words (`int`, `unsigned int`,
`ovrHmdCaps`) are modelled by their 32 bits, as a number below 2^32; `|` and `&` are the
operators of Lean on these numbers. -/
def bitNot (w : Nat) : Nat := (UINT_RANGE - 1) ^^^ (w % UINT_RANGE)

/-- The function `RiftManagerApp::enableCaps(caps)`: the word it hands to
`ovrHmd_SetEnabledCaps`, `enabled` being the word `ovrHmd_GetEnabledCaps` returns. -/
def RiftManagerApp.enableCaps (enabled caps : Nat) : Nat := enabled ||| caps

/-- The function `RiftManagerApp::disableCaps(caps)`: the word it hands to
`ovrHmd_SetEnabledCaps`. -/
def RiftManagerApp.disableCaps (enabled caps : Nat) : Nat := enabled &&& bitNot caps

/-- The function `RiftManagerApp::isEnabled(cap)`: `cap & getEnabledCaps()` as a `bool`. -/
def RiftManagerApp.isEnabled (enabled cap : Nat) : Bool := (cap &&& enabled) != 0

/-- The function `RiftManagerApp::toggleCap(cap)`: the word it hands to
`ovrHmd_SetEnabledCaps`, through `disableCaps` or `enableCaps`. -/
def RiftManagerApp.toggleCap (enabled cap : Nat) : Nat :=
  if cap &&& enabled ≠ 0 then RiftManagerApp.disableCaps enabled cap
  else RiftManagerApp.enableCaps enabled cap

/-- The keys `HelloRift::onKey` tells apart. -/
inductive Key where
  | GLFW_KEY_V
  | GLFW_KEY_P
  | GLFW_KEY_R
  | other
deriving DecidableEq, Repr

/-- What `HelloRift::onKey` does with a key event. -/
inductive KeyOutcome where
  | ovrHmd_DismissHSWDisplay
  | cameraControl
  | GlfwApp_onKey
  | ovrHmd_SetEnabledCaps (caps : Nat)
  | resetPosition
deriving DecidableEq, Repr

/-- The function `HelloRift::onKey`.  The SDK constants `ovrHmdCap_NoVSync` and
`ovrHmdCap_LowPersistence` are parameters; `Displayed` is the field of the state
`ovrHmd_GetHSWDisplayState` reports (the health and safety warning is on display),
`cameraControl` tells whether `CameraControl::instance().onKey` took the event, `pressed`
whether the action is `GLFW_PRESS`, and `caps` is the word `ovrHmd_GetEnabledCaps`
returns.  On a press while the warning is displayed the function dismisses the warning and
returns. -/
def HelloRift.onKey (ovrHmdCap_NoVSync ovrHmdCap_LowPersistence : Nat)
    (Displayed cameraControl : Bool) (key : Key) (pressed : Bool) (caps : Nat) : KeyOutcome :=
  if pressed && Displayed then .ovrHmd_DismissHSWDisplay
  else if cameraControl then .cameraControl
  else if !pressed then .GlfwApp_onKey
  else
    match key with
    | .GLFW_KEY_V =>
      if caps &&& ovrHmdCap_NoVSync ≠ 0 then
        .ovrHmd_SetEnabledCaps (caps &&& bitNot ovrHmdCap_NoVSync)
      else .ovrHmd_SetEnabledCaps (caps ||| ovrHmdCap_NoVSync)
    | .GLFW_KEY_P =>
      if caps &&& ovrHmdCap_LowPersistence ≠ 0 then
        .ovrHmd_SetEnabledCaps (caps &&& bitNot ovrHmdCap_LowPersistence)
      else .ovrHmd_SetEnabledCaps (caps ||| ovrHmdCap_LowPersistence)
    | .GLFW_KEY_R => .resetPosition
    | .other => .GlfwApp_onKey

/-! ## The cubes of `ColorCubeScene` -/

/-- The member `GRID_SIZE` of `ColorCubeScene`, an `unsigned int`. -/
def ColorCubeScene.GRID_SIZE : Nat := 5

/-- The difference of two `unsigned int`. -/
def usub (a b : Nat) : Nat := (a % UINT_RANGE + UINT_RANGE - b % UINT_RANGE) % UINT_RANGE

/-- The product of two `unsigned int`. -/
def umul (a b : Nat) : Nat := (a * b) % UINT_RANGE

/-- The operator `-` on an `unsigned int`. -/
def uneg (a : Nat) : Nat := (UINT_RANGE - a % UINT_RANGE) % UINT_RANGE

/-- The initialiser `(x - (GRID_SIZE / 2)) * 2` of the `int`s `xpos` and `ypos`: computed
in `unsigned int` and converted. -/
def ColorCubeScene.xpos (x : Nat) : Int :=
  toSigned (umul (usub x (ColorCubeScene.GRID_SIZE / 2)) 2)

/-- The initialiser `-z * 2` of the `int` `zpos`: computed in `unsigned int` and
converted. -/
def ColorCubeScene.zpos (z : Nat) : Int := toSigned (umul (uneg z) 2)

/-- The three nested loops of the constructor of `ColorCubeScene`, `z` outermost and `x`
innermost: the values of `xpos`, `ypos` and `zpos` in the order of the passes. -/
def ColorCubeScene.relativePositions : List (Int × Int × Int) :=
  (List.range ColorCubeScene.GRID_SIZE).flatMap fun z =>
    (List.range ColorCubeScene.GRID_SIZE).flatMap fun y =>
      (List.range ColorCubeScene.GRID_SIZE).map fun x =>
        (ColorCubeScene.xpos x, ColorCubeScene.xpos y, ColorCubeScene.zpos z)

/-- The vector `instance_positions` of the constructor of `ColorCubeScene`: for each pass
`glm::translate(glm::mat4(1.0f), vec3(xpos, ypos, zpos))`. -/
def ColorCubeScene.instance_positions : List mat4 :=
  ColorCubeScene.relativePositions.map fun p =>
    glm.translate 1 { x := (p.1 : ℚ), y := (p.2.1 : ℚ), z := (p.2.2 : ℚ) }

/-- The member `instanceCount`, an `int`: `instance_positions.size()`. -/
def ColorCubeScene.instanceCount : Int := toSigned ColorCubeScene.instance_positions.length

/-! ## Reading traces -/

/-- The two calls that delimit a frame, as they appear in a trace. -/
inductive FrameCall where
  | beginFrame (frameIndex : Nat)
  | endFrame
deriving DecidableEq, Repr

/-- The frame call an external call is, if it is `ovrHmd_BeginFrame` or `ovrHmd_EndFrame`. -/
def Event.frameCall {Mat : Type} : Event Mat → Option FrameCall
  | .ovrHmd_BeginFrame i => some (.beginFrame i)
  | .ovrHmd_EndFrame _ _ => some .endFrame
  | _ => none

/-- The `ovrHmd_BeginFrame` and `ovrHmd_EndFrame` calls of a trace, in order. -/
def frameCalls {Mat : Type} (trace : List (Event Mat)) : List FrameCall :=
  trace.filterMap Event.frameCall

/-- The frame index of a frame call that begins a frame. -/
def FrameCall.index : FrameCall → Option Nat
  | .beginFrame i => some i
  | .endFrame => none

/-- The frame indices passed to `ovrHmd_BeginFrame` in a trace, in order. -/
def beginIndices {Mat : Type} (trace : List (Event Mat)) : List Nat :=
  (frameCalls trace).filterMap FrameCall.index

/-- The messages written to `std::cerr` in a trace, in order. -/
def diagnostics {Mat : Type} (trace : List (Event Mat)) : List String :=
  trace.filterMap fun e =>
    match e with
    | .cerr text => some text
    | _ => none

/-- The poses handed to `ovrHmd_EndFrame` in a trace, frame by frame. -/
def submittedPoses {Mat : Type} (trace : List (Event Mat)) : List (PerEye ovrPosef) :=
  trace.filterMap fun e =>
    match e with
    | .ovrHmd_EndFrame renderPose _ => some renderPose
    | _ => none

/-- The number of times a trace binds the framebuffer `name` for drawing. -/
def bindCount {Mat : Type} (name : Nat) (trace : List (Event Mat)) : Nat :=
  trace.countP fun e =>
    match e with
    | .bindDrawFramebuffer f => f == name
    | _ => false

/-- The number of times a trace calls the scene renderer while the framebuffer `name` is
bound for drawing. -/
def renderCount {Mat : Type} (name : Nat) (trace : List (Event Mat)) : Nat :=
  trace.countP fun e =>
    match e with
    | .renderScene f _ _ => f == name
    | _ => false

/-- The number of `glfwSwapBuffers` calls in a trace. -/
def swapCount {Mat : Type} (trace : List (Event Mat)) : Nat :=
  trace.countP fun e =>
    match e with
    | .glfwSwapBuffers => true
    | _ => false

/-- What a frame has to do for one eye, with the poses `p` of the frame, on a `RiftApp`:
bind the framebuffer of the eye for drawing, set the viewport of the texture of the eye, and
call the scene renderer, while this framebuffer is bound, with the projection of the eye and
the pose of the eye. -/
def RiftApp.eyePass {Mat : Type} [Mul Mat] (L : Lib Mat) (o : Obj (RiftApp Mat))
    (p : PerEye ovrPosef) (eye : ovrEyeType) : List (Event Mat) :=
  [Event.bindDrawFramebuffer (o.self.eyeFbos.get eye).fbo,
   Event.viewport (o.self.eyeTextures.get eye).Header.RenderViewport,
   Event.renderScene (o.self.eyeFbos.get eye).fbo (o.self.projections.get eye)
     (toGlm L (p.get eye))]

/-- Each eye texture names the colour texture that is attached, in the OpenGL context, to
the framebuffer of the same eye. -/
def RiftApp.TargetsAttached {Mat : Type} (o : Obj (RiftApp Mat)) : Prop :=
  ∀ eye, o.self.gl.colorOf (o.self.eyeFbos.get eye).fbo = some (o.self.eyeTextures.get eye).TexId

/-- Every set-up call of the self-contained example succeeds. -/
def SetupSucceeds (env : Env) : Prop :=
  env.ovr_Initialize = true ∧ env.glfwInit = true ∧ env.ovrHmd_ConfigureTracking = true ∧
    env.glfwCreateWindow.isSome = true ∧ env.glewInit = 0

/-- The first `n` iterations of the loop of `GlfwApp::run` from iteration `k` on, each
preceded by a test of the close request that found none. -/
def GlfwApp.iterations {Mat D : Type} (v : LoopVirtuals Mat D) :
    Nat → Nat → Obj D → Obj D × List (LoopStep Mat)
  | 0, _, o => (o, [])
  | n + 1, k, o =>
    let it := GlfwApp.iteration v k o
    let r := GlfwApp.iterations v n (k + 1) it.1
    (r.1, LoopStep.test false :: (it.2 ++ r.2))

/-- The `ExampleApp` object at the start of iteration `k` of the loop, when `initGl` was
called on the object `c`. -/
def ExampleApp.atIteration {Mat : Type} [Mul Mat] (L : Lib Mat) (env : Env)
    (c : Obj (ConstructedApp Mat)) (k : Nat) : Obj (RiftApp Mat) :=
  (GlfwApp.iterations (ExampleApp.loopVirtuals L env) k 0 (ExampleApp.initGl L env c).1).1

/-- The calls `main` makes before the render loop when every set-up call succeeds, `o`
being the object the constructors built and `w` the window. -/
def ExampleApp.setupCalls {Mat : Type} (L : Lib Mat) (env : Env) (o : Obj (ConstructedApp Mat))
    (w : Nat) : List (Event Mat) :=
  [Event.ovr_Initialize true, Event.glfwInit true]
    ++ (@RiftManagerApp.new Mat env).2
    ++ [Event.ovrHmd_ConfigureTracking true]
    ++ (@RiftGlfwApp.createRenderingTarget Mat env o).events
    ++ [Event.glewInit 0]
    ++ (ExampleApp.initGl L env (RiftGlfwApp.withWindow env o w)).2

/-- The close request is first reported at test number `n + 1`. -/
def FirstCloseAt (env : Env) (n : Nat) : Prop :=
  (∀ i, i < n → env.glfwWindowShouldClose i = false) ∧ env.glfwWindowShouldClose n = true

/-! ## Sample inputs -/

/-- A field of view of 45 degrees to each side. -/
def sampleFov : ovrFovPort := { UpTan := 1, DownTan := 1, LeftTan := 1, RightTan := 1 }

/-- A headset of 1920 by 1080 pixels to the right of the main screen, that wants the right
eye rendered first. -/
def sampleHmd : ovrHmdDesc :=
  { Resolution := { w := 1920, h := 1080 },
    WindowsPos := { x := 1920, y := 0 },
    DefaultEyeFov := { left := sampleFov, right := sampleFov },
    MaxEyeFov := { left := sampleFov, right := sampleFov },
    EyeRenderOrder := fun i => if i = 0 then .ovrEye_Right else .ovrEye_Left }

/-- The pose the sample SDK reports in iteration `k`: not rotated, `k` to the right. -/
def samplePose (k : Nat) : ovrPosef :=
  { Orientation := { x := 0, y := 0, z := 0, w := 1 }, Position := { x := k, y := 0, z := 0 } }

/-- A world in which every set-up call succeeds, the window reports the close request
first at test number `n + 1`, and the compositor rejects the frames of the iterations in
`rejected`. -/
def sampleEnv (n : Nat) (rejected : List Nat) : Env :=
  { os := .win32
    ovr_Initialize := true
    glfwInit := true
    ovrHmd_Create := some sampleHmd
    ovrHmd_CreateDebug := sampleHmd
    extendDesktop := true
    ovrHmd_ConfigureTracking := true
    glfwCreateWindow := some 1
    glewInit := 0
    configureRendering := true
    contextAfterConfigureRendering :=
      { GlContext.initial { x := 1920, y := 1080 } with textures := 3, renderbuffers := 7 }
    eyeRenderDescs :=
      { left := { Fov := sampleFov, HmdToEyeViewOffset := { x := 32 / 1000, y := 0, z := 0 } },
        right := { Fov := sampleFov, HmdToEyeViewOffset := { x := -32 / 1000, y := 0, z := 0 } } }
    ovrHmd_GetFovTextureSize := fun _ _ => { w := 1182, h := 1464 }
    indeterminatePoses := { left := samplePose 0, right := samplePose 0 }
    glfwWindowShouldClose := fun k => decide (n ≤ k)
    eyePoses := fun k => { left := samplePose k, right := samplePose (k + 1) }
    endFrameAccepted := fun k => !(rejected.contains k) }

/-- Stand-ins for the matrix functions over the integers (one by one matrices with integer
entry): enough to run the examples, the values carry no geometry. -/
def sampleLib : Lib Int :=
  { identity := 1
    make_mat4 := fun om => (om.M 0 0).num
    transpose := fun m => m
    inverse := fun m => m
    mat4_cast := fun q => q.w.num
    translate := fun m v => m + v.x.num
    scale := fun m v => m * v.x.num
    lookAt := fun _ _ _ => 1
    preMultiply := fun m top => m * top
    ovrMatrix4f_Projection := fun fov _ _ _ => { M := fun _ _ => fov.UpTan } }

/-- The `ExampleApp` object the constructors build in the sample world. -/
def sampleApp : Obj (ConstructedApp Int) :=
  { glfw := { windowSize := { x := 0, y := 0 }, windowPosition := { x := 0, y := 0 },
              window := none, frame := 0 },
    self := { hmd := sampleHmd,
              hmdNativeResolution := { x := 1920, y := 1080 },
              hmdDesktopPosition := { x := 1920, y := 0 },
              eyeTextures :=
                { left := RiftApp.newEyeTexture (sampleEnv 0 []) sampleHmd .ovrEye_Left
                    ovrTexture.zero,
                  right := RiftApp.newEyeTexture (sampleEnv 0 []) sampleHmd .ovrEye_Right
                    ovrTexture.zero },
              modelview := 1,
              ipd := OVR_DEFAULT_IPD } }

/-- The sample `ExampleApp` object as `initGl` leaves it. -/
def sampleRift : Obj (RiftApp Int) :=
  (ExampleApp.initGl sampleLib (sampleEnv 0 [])
    (RiftGlfwApp.withWindow (sampleEnv 0 []) sampleApp 1)).1

/-- Two matrix stacks that hold one matrix each. -/
def sampleStacks : Stacks Int :=
  { projection := { top := 1, below := [] }, modelview := { top := 7, below := [] } }

/-- A sample `HelloRift` object in the middle of a run: frame 41 is behind it. -/
def sampleHello : Obj (HelloRift Int) :=
  { glfw := { windowSize := { x := 1920, y := 1080 }, windowPosition := { x := 1920, y := 0 },
              window := some 1, frame := 41 },
    self := { hmd := sampleHmd,
              perEyeArgs :=
                { left := { projection := 2, viewOffset := 3,
                            framebuffer := { frameBuffer := 1, color := 1,
                                             size := { x := 1182, y := 1464 } } },
                  right := { projection := 5, viewOffset := 11,
                             framebuffer := { frameBuffer := 2, color := 2,
                                              size := { x := 1182, y := 1464 } } } },
              textures :=
                { left := { (RiftApp.newEyeTexture (sampleEnv 0 []) sampleHmd .ovrEye_Left
                              ovrTexture.zero) with TexId := 1 },
                  right := { (RiftApp.newEyeTexture (sampleEnv 0 []) sampleHmd .ovrEye_Right
                               ovrTexture.zero) with TexId := 2 } },
              player := 7,
              frameIndex := 41,
              eyePoses := { left := samplePose 40, right := samplePose 41 },
              eyeOffsets := { left := { x := 0, y := 0, z := 0 }, right := { x := 0, y := 0, z := 0 } },
              glStacks := sampleStacks,
              gl := GlContext.initial { x := 1920, y := 1080 } } }

/-- A sample `ClientSideDistortionExample` object in the middle of a run. -/
def sampleClient : Obj (ClientSideDistortionExample Int) :=
  { glfw := sampleHello.glfw,
    self := { hmd := sampleHmd,
              eyeArgs :=
                { left := { frameBuffer := { frameBuffer := 1, color := 4,
                                             size := { x := 1182, y := 1464 } },
                            projection := 2, viewOffset := 3 },
                  right := { frameBuffer := { frameBuffer := 2, color := 5,
                                              size := { x := 1182, y := 1464 } },
                             projection := 5, viewOffset := 11 } },
              player := 7,
              frameIndex := 41,
              glStacks := sampleStacks,
              gl := GlContext.initial { x := 1920, y := 1080 } } }

/-- The sample `CubeScene_RiftSensors` object as its constructors leave it. -/
def sampleCubeConstructed : Obj (ConstructedCubeScene Int) :=
  { glfw := { windowSize := { x := 1920, y := 1080 }, windowPosition := { x := 1920, y := 0 },
              window := none, frame := 0 },
    self := { hmd := sampleHmd, glStacks := sampleStacks } }

/-- The sample `CubeScene_RiftSensors` object as `initGl` leaves it. -/
def sampleCube : Obj (CubeScene_RiftSensors Int) :=
  (CubeScene_RiftSensors.initGl sampleLib (sampleEnv 0 []) sampleCubeConstructed).1

/-- The sample surroundings with the window closed after two frames, in which
`ovrHmd_ConfigureTracking` reports that it found no sensor. -/
def sampleUntracked : Env := { sampleEnv 2 [] with ovrHmd_ConfigureTracking := false }

/-- A `createRenderingTarget` that creates window 1 and leaves the object as it is. -/
def sampleCreateRenderingTarget (o : Obj (ConstructedCubeScene Int)) :
    Step Int (Obj (ConstructedCubeScene Int) × Option Nat) :=
  { events := [Event.glfwCreateWindow o.glfw.windowSize true], result := Except.ok (o, some 1) }

/-- A `FramebufferWrapper` initialised with 1182 by 1464 pixels in the fresh context of a
window of 1920 by 1080 pixels. -/
def sampleFramebuffer : FramebufferWrapper :=
  (@FramebufferWrapper.init Int FramebufferWrapper.empty { x := 1182, y := 1464 }
    (GlContext.initial { x := 1920, y := 1080 })).1.1

/-- A `RiftFramebufferWrapper` of 1182 by 1464 pixels whose swap texture set holds the
textures 7 and 8, the second being the current one. -/
def sampleSwapFramebuffer : RiftFramebufferWrapper :=
  { size := { x := 1182, y := 1464 }, fbo := 1, depth := 1,
    textureSet :=
      { Textures := [{ ovrTexture.zero with TexId := 7 }, { ovrTexture.zero with TexId := 8 }],
        TextureCount := 2, CurrentIndex := 1 } }

/-- The context of a window of 1920 by 1080 pixels in which one framebuffer, one texture and
one renderbuffer have been generated. -/
def sampleContext : GlContext :=
  { GlContext.initial { x := 1920, y := 1080 } with
    framebuffers := 1, textures := 1, renderbuffers := 1 }

/-- A desktop of three monitors: the primary monitor 1 of 2560 by 1440 pixels at the origin,
monitor 2 of 1280 by 1024 pixels to its right, monitor 3 of 1920 by 1080 pixels to its
left. -/
def sampleMonitors : GlfwMonitors :=
  { glfwGetPrimaryMonitor := 1
    glfwGetMonitors := [1, 2, 3]
    glfwGetVideoMode := fun m =>
      if m = 1 then { width := 2560, height := 1440 }
      else if m = 2 then { width := 1280, height := 1024 }
      else { width := 1920, height := 1080 }
    glfwGetMonitorPos := fun m =>
      if m = 1 then { x := 0, y := 0 }
      else if m = 2 then { x := 2560, y := 0 }
      else { x := -1920, y := 0 } }

/-- A desktop whose secondary monitors are monitor 2 of 1280 by 1024 pixels and, after it,
monitor 3 of 1920 by 1000 pixels: wider and of larger area, but less high. -/
def sampleWideMonitors : GlfwMonitors :=
  { sampleMonitors with
    glfwGetVideoMode := fun m =>
      if m = 1 then { width := 2560, height := 1440 }
      else if m = 2 then { width := 1280, height := 1024 }
      else { width := 1920, height := 1000 } }

/-! # Theorems -/

/-! ## The run loop -/

theorem stepsTrace_nil {Mat : Type} : stepsTrace ([] : List (LoopStep Mat)) = [] := rfl

theorem stepsTrace_cons {Mat : Type} (s : LoopStep Mat) (steps : List (LoopStep Mat)) :
    stepsTrace (s :: steps) = s.events ++ stepsTrace steps := by
  simp [stepsTrace]

theorem stepsTrace_append {Mat : Type} (xs ys : List (LoopStep Mat)) :
    stepsTrace (xs ++ ys) = stepsTrace xs ++ stepsTrace ys := by
  simp [stepsTrace]

theorem flatMap_single_eq_map {α β : Type} (f : α → β) (l : List α) :
    (l.flatMap fun a => [f a]) = l.map f := by
  induction l with
  | nil => rfl
  | cons a l ih => simp [List.flatMap_cons, ih]

theorem frameCalls_append {Mat : Type} (xs ys : List (Event Mat)) :
    frameCalls (xs ++ ys) = frameCalls xs ++ frameCalls ys := by
  simp [frameCalls]

/-- With the close request first reported `n` tests after test `k`, the loop entered at
iteration `k` ends, on any fuel above `n`, after exactly the `n` iterations `k`, ...,
`k + n - 1` and the test that sees the request. -/
theorem GlfwApp.loop_eq_iterations {Mat D : Type} (v : LoopVirtuals Mat D) (env : Env) :
    ∀ (n fuel k : Nat) (o : Obj D),
      (∀ i, i < n → env.glfwWindowShouldClose (k + i) = false) →
      env.glfwWindowShouldClose (k + n) = true → n < fuel →
      GlfwApp.loop v env fuel k o
        = some ((GlfwApp.iterations v n k o).1,
                (GlfwApp.iterations v n k o).2 ++ [LoopStep.test true]) := by
  intro n
  induction n with
  | zero =>
    intro fuel k o _ hclose hfuel
    obtain ⟨f, rfl⟩ : ∃ f, fuel = f + 1 := ⟨fuel - 1, by omega⟩
    simp only [Nat.add_zero] at hclose
    simp [GlfwApp.loop, GlfwApp.iterations, hclose]
  | succ n ih =>
    intro fuel k o hopen hclose hfuel
    obtain ⟨f, rfl⟩ : ∃ f, fuel = f + 1 := ⟨fuel - 1, by omega⟩
    have h0 : env.glfwWindowShouldClose k = false := by simpa using hopen 0 (by omega)
    have ih' := ih f (k + 1) (GlfwApp.iteration v k o).1
      (fun i hi => by simpa [Nat.add_assoc, Nat.add_comm 1 i] using hopen (i + 1) (by omega))
      (by simpa [Nat.add_assoc, Nat.add_comm 1 n] using hclose) (by omega)
    simp [GlfwApp.loop, GlfwApp.iterations, h0, ih']

/-- The steps of `n` iterations: `n` times a test, `glfwPollEvents`, `update`, `draw` and
`finishFrame`. -/
theorem GlfwApp.iterations_kinds {Mat D : Type} (v : LoopVirtuals Mat D) :
    ∀ (n k : Nat) (o : Obj D),
      (GlfwApp.iterations v n k o).2.map LoopStep.kind
        = (List.replicate n [StepKind.test false, StepKind.pollEvents, StepKind.update,
            StepKind.draw, StepKind.finishFrame]).flatten := by
  intro n
  induction n with
  | zero => intro k o; simp [GlfwApp.iterations]
  | succ n ih =>
    intro k o
    simp [GlfwApp.iterations, GlfwApp.iteration, List.replicate_succ, ih, LoopStep.kind]

theorem sampleEnv_firstCloseAt (n : Nat) (rejected : List Nat) :
    FirstCloseAt (sampleEnv n rejected) n := by
  constructor
  · intro i hi
    simp [sampleEnv]
    omega
  · simp [sampleEnv]

/-- A run whose window is created and whose GLEW initialises, in a world that reports the
close request first at test number `n + 1`: on any fuel above `n`, `run` returns 0 after
the set-up and `n` iterations of the loop on the object `initGl` made. -/
theorem GlfwApp.run_eq_of_window {Mat C D : Type} (v : Virtuals Mat C D) (env : Env)
    (n fuel : Nat) (o o1 : Obj C) (w : Nat)
    (hcreate : (v.createRenderingTarget o).result = Except.ok (o1, some w))
    (hglew : env.glewInit = 0) (hclose : FirstCloseAt env n) (hfuel : n < fuel) :
    GlfwApp.run v env fuel o
      = some { setup := (v.createRenderingTarget o).events ++ [Event.glewInit 0]
                 ++ (v.initGl { o1 with glfw := { o1.glfw with window := some w } }).2,
               steps := (GlfwApp.iterations v.toLoopVirtuals n 0
                   (v.initGl { o1 with glfw := { o1.glfw with window := some w } }).1).2
                 ++ [LoopStep.test true],
               completion := Completion.returned 0 } := by
  have hloop := fun o' => GlfwApp.loop_eq_iterations v.toLoopVirtuals env n fuel 0 o'
    (fun i hi => by simpa using hclose.1 i hi) (by simpa using hclose.2) hfuel
  simp [GlfwApp.run, hcreate, GlfwApp.postCreate, hglew, hloop]

/-- C7: `GlfwApp::run` tests the close request once per iteration, before the work of the
iteration.  When the window was created and GLEW initialised, and the request is first
seen at test number `n + 1`, then on any fuel above `n` the function returns 0 and its loop
did exactly: `n` times a test that saw no request followed by `glfwPollEvents`, `update`,
`draw`, `finishFrame`, in this order, and then the one test that saw the request.  No
iteration is left part-way. -/
theorem GlfwApp.run_tests_close_once_per_iteration {Mat C D : Type} (v : Virtuals Mat C D)
    (env : Env) (n fuel : Nat) (o o1 : Obj C) (w : Nat)
    (hcreate : (v.createRenderingTarget o).result = Except.ok (o1, some w))
    (hglew : env.glewInit = 0) (hclose : FirstCloseAt env n) (hfuel : n < fuel) :
    ∃ x, GlfwApp.run v env fuel o = some x ∧ x.completion = Completion.returned 0 ∧
      x.steps.map LoopStep.kind
        = (List.replicate n [StepKind.test false, StepKind.pollEvents, StepKind.update,
            StepKind.draw, StepKind.finishFrame]).flatten ++ [StepKind.test true] := by
  have hloop := fun o' => GlfwApp.loop_eq_iterations v.toLoopVirtuals env n fuel 0 o'
    (fun i hi => by simpa using hclose.1 i hi) (by simpa using hclose.2) hfuel
  simp [GlfwApp.run, hcreate, GlfwApp.postCreate, hglew, hloop, GlfwApp.iterations_kinds,
    LoopStep.kind]

theorem GlfwApp.run_tests_close_once_per_iteration_witness :
    ∃ x, GlfwApp.run (ExampleApp.virtuals sampleLib (sampleEnv 2 [])) (sampleEnv 2 []) 3
        sampleApp = some x ∧ x.completion = Completion.returned 0 ∧
      x.steps.map LoopStep.kind
        = [StepKind.test false, StepKind.pollEvents, StepKind.update, StepKind.draw,
           StepKind.finishFrame,
           StepKind.test false, StepKind.pollEvents, StepKind.update, StepKind.draw,
           StepKind.finishFrame,
           StepKind.test true] :=
  GlfwApp.run_tests_close_once_per_iteration (ExampleApp.virtuals sampleLib (sampleEnv 2 []))
    (sampleEnv 2 []) 2 3 sampleApp _ 1 rfl rfl (by unfold FirstCloseAt; decide) (by decide)

theorem sampleApp_constructed (n : Nat) (rejected : List Nat) :
    (ExampleApp.new sampleLib (sampleEnv n rejected)).result = Except.ok sampleApp := rfl

/-! ## Frames of `RiftApp` -/

theorem RiftApp.draw_glfw {Mat : Type} [Mul Mat] (L : Lib Mat) (sdkPoses : PerEye ovrPosef)
    (o : Obj (RiftApp Mat)) : (RiftApp.draw L sdkPoses o).1.glfw = o.glfw := rfl

theorem RiftApp.draw_frameCalls {Mat : Type} [Mul Mat] (L : Lib Mat)
    (sdkPoses : PerEye ovrPosef) (o : Obj (RiftApp Mat)) :
    frameCalls (RiftApp.draw L sdkPoses o).2
      = [FrameCall.beginFrame o.glfw.frame, FrameCall.endFrame] := by
  simp [RiftApp.draw, RiftApp.renderEye, frameCalls, Event.frameCall]

theorem GlfwApp.iterations_succ {Mat D : Type} (v : LoopVirtuals Mat D) (n k : Nat)
    (o : Obj D) :
    (GlfwApp.iterations v (n + 1) k o).2
      = LoopStep.test false ::
          ((GlfwApp.iteration v k o).2
            ++ (GlfwApp.iterations v n (k + 1) (GlfwApp.iteration v k o).1).2) := rfl

theorem ExampleApp.iteration_frame {Mat : Type} [Mul Mat] (L : Lib Mat) (env : Env) (k : Nat)
    (o : Obj (RiftApp Mat)) :
    (GlfwApp.iteration (ExampleApp.loopVirtuals L env) k o).1.glfw.frame
      = (o.glfw.frame + 1) % UINT_RANGE := rfl

theorem ExampleApp.iteration_frameCalls {Mat : Type} [Mul Mat] (L : Lib Mat) (env : Env)
    (k : Nat) (o : Obj (RiftApp Mat)) :
    frameCalls (stepsTrace (GlfwApp.iteration (ExampleApp.loopVirtuals L env) k o).2)
      = [FrameCall.beginFrame ((o.glfw.frame + 1) % UINT_RANGE), FrameCall.endFrame] := by
  simp [GlfwApp.iteration, ExampleApp.loopVirtuals, GlfwApp.update, RiftApp.finishFrame,
    RiftApp.draw, RiftApp.renderEye, stepsTrace, LoopStep.events, frameCalls, Event.frameCall]

/-- The frame calls of `n` iterations of the loop of an `ExampleApp` that starts with the
counter `frame` at `f`: begin and end alternate, the index of the frame of iteration `i`
is `f + i + 1` reduced modulo the range of `unsigned int`. -/
theorem ExampleApp.iterations_frameCalls {Mat : Type} [Mul Mat] (L : Lib Mat) (env : Env) :
    ∀ (n k : Nat) (o : Obj (RiftApp Mat)),
      frameCalls (stepsTrace (GlfwApp.iterations (ExampleApp.loopVirtuals L env) n k o).2)
        = (List.range n).flatMap fun i =>
            [FrameCall.beginFrame ((o.glfw.frame + i + 1) % UINT_RANGE), FrameCall.endFrame] := by
  intro n
  induction n with
  | zero => intro k o; simp [GlfwApp.iterations, stepsTrace, frameCalls]
  | succ n ih =>
    intro k o
    rw [GlfwApp.iterations_succ, stepsTrace_cons, stepsTrace_append, frameCalls_append,
      frameCalls_append, ih, ExampleApp.iteration_frameCalls, ExampleApp.iteration_frame,
      List.range_succ_eq_map, List.flatMap_cons, List.flatMap_map]
    have hmod : ∀ i : Nat, ((o.glfw.frame + 1) % UINT_RANGE + i + 1) % UINT_RANGE
        = (o.glfw.frame + Nat.succ i + 1) % UINT_RANGE := by
      intro i
      simp only [UINT_RANGE, Nat.succ_eq_add_one]
      omega
    simp [frameCalls, LoopStep.events, Event.frameCall, hmod]

theorem RiftGlfwApp.createRenderingTarget_ok {Mat : Type} (env : Env)
    (o : Obj (ConstructedApp Mat)) (w : Nat) (hwindow : env.glfwCreateWindow = some w) :
    @RiftGlfwApp.createRenderingTarget Mat env o
      = { events := Event.glfwCreateWindow (RiftGlfwApp.sized env o).glfw.windowSize true ::
            (if RiftGlfwApp.directHmdMode env then [Event.ovrHmd_AttachToWindow] else []),
          result := Except.ok (RiftGlfwApp.sized env o, some w) } := by
  by_cases hd : RiftGlfwApp.directHmdMode env = true <;>
    simp [RiftGlfwApp.createRenderingTarget, glfw.createWindow, glfw.createSecondaryScreenWindow,
      hwindow, hd]

theorem ExampleApp.initGl_frame {Mat : Type} (L : Lib Mat) (env : Env)
    (o : Obj (ConstructedApp Mat)) : (ExampleApp.initGl L env o).1.glfw.frame = o.glfw.frame :=
  rfl

theorem ExampleApp.initGl_frameCalls {Mat : Type} (L : Lib Mat) (env : Env)
    (o : Obj (ConstructedApp Mat)) : frameCalls (ExampleApp.initGl L env o).2 = [] := by
  simp [ExampleApp.initGl, RiftApp.initGl, RiftApp.initEye, FboWrapper.init, frameCalls,
    Event.frameCall]

/-- An `ExampleApp` whose window is created and whose GLEW initialises, in a world that
reports the close request first at test number `n + 1`: `run` returns 0 after the set-up
and `n` iterations of the loop. -/
theorem ExampleApp.run_eq {Mat : Type} [Mul Mat] (L : Lib Mat) (env : Env) (n fuel w : Nat)
    (o : Obj (ConstructedApp Mat)) (hwindow : env.glfwCreateWindow = some w)
    (hglew : env.glewInit = 0) (hclose : FirstCloseAt env n) (hfuel : n < fuel) :
    GlfwApp.run (ExampleApp.virtuals L env) env fuel o
      = some { setup := (@RiftGlfwApp.createRenderingTarget Mat env o).events
                 ++ [Event.glewInit 0]
                 ++ (ExampleApp.initGl L env (RiftGlfwApp.withWindow env o w)).2,
               steps := (GlfwApp.iterations (ExampleApp.loopVirtuals L env) n 0
                           (ExampleApp.initGl L env (RiftGlfwApp.withWindow env o w)).1).2
                          ++ [LoopStep.test true],
               completion := Completion.returned 0 } := by
  have hloop := fun o' => GlfwApp.loop_eq_iterations (ExampleApp.loopVirtuals L env) env n fuel 0 o'
    (fun i hi => by simpa using hclose.1 i hi) (by simpa using hclose.2) hfuel
  have hv : (ExampleApp.virtuals L env).createRenderingTarget o
      = RiftGlfwApp.createRenderingTarget env o := rfl
  have hi : (ExampleApp.virtuals L env).initGl = ExampleApp.initGl L env := rfl
  have hl : (ExampleApp.virtuals L env).toLoopVirtuals = ExampleApp.loopVirtuals L env := rfl
  simp only [GlfwApp.run, hv, hi, hl, RiftGlfwApp.createRenderingTarget_ok env o w hwindow,
    GlfwApp.postCreate, hglew, hloop, ne_eq, not_true_eq_false, if_false]
  rfl

theorem RiftGlfwApp.createRenderingTarget_frameCalls {Mat : Type} (env : Env)
    (o : Obj (ConstructedApp Mat)) :
    frameCalls (@RiftGlfwApp.createRenderingTarget Mat env o).events = [] := by
  cases hw : env.glfwCreateWindow <;>
    by_cases hd : RiftGlfwApp.directHmdMode env = true <;>
    simp [RiftGlfwApp.createRenderingTarget, glfw.createWindow,
      glfw.createSecondaryScreenWindow, FAIL, hw, hd, frameCalls, Event.frameCall]

/-- The frame calls of a whole run of an `ExampleApp`, for any number of iterations: the
index of the frame of iteration `i` is `frame + i + 1` modulo the range of `unsigned int`. -/
theorem ExampleApp.run_frameCalls_mod {Mat : Type} [Mul Mat] (L : Lib Mat) (env : Env)
    (n fuel w : Nat) (o : Obj (ConstructedApp Mat)) (hwindow : env.glfwCreateWindow = some w)
    (hglew : env.glewInit = 0) (hclose : FirstCloseAt env n) (hfuel : n < fuel) :
    ∃ x, GlfwApp.run (ExampleApp.virtuals L env) env fuel o = some x ∧
      x.completion = Completion.returned 0 ∧
      frameCalls x.trace = (List.range n).flatMap fun i =>
        [FrameCall.beginFrame ((o.glfw.frame + i + 1) % UINT_RANGE), FrameCall.endFrame] := by
  refine ⟨_, ExampleApp.run_eq L env n fuel w o hwindow hglew hclose hfuel, rfl, ?_⟩
  simp only [Exec.trace, frameCalls_append, stepsTrace_append,
    RiftGlfwApp.createRenderingTarget_frameCalls, ExampleApp.initGl_frameCalls,
    ExampleApp.iterations_frameCalls, ExampleApp.initGl_frame]
  simp [frameCalls, stepsTrace, LoopStep.events, Event.frameCall, RiftGlfwApp.withWindow,
    RiftGlfwApp.sized]

/-- C1, amended: for every `n` below 2^32, a run of `GlfwApp::run` with `RiftApp::draw` in
which the window reports the close request first at test number `n + 1` returns, and makes
exactly `n` calls of `ovrHmd_BeginFrame` and `n` calls of `ovrHmd_EndFrame`, alternating
and starting with `ovrHmd_BeginFrame`, with the frame indices 1, 2, ..., `n`. -/
theorem ExampleApp.run_frames_paired {Mat : Type} [Mul Mat] (L : Lib Mat) (env : Env)
    (n fuel w : Nat) (o : Obj (ConstructedApp Mat)) (hframe : o.glfw.frame = 0)
    (hwindow : env.glfwCreateWindow = some w) (hglew : env.glewInit = 0)
    (hclose : FirstCloseAt env n) (hfuel : n < fuel) (hn : n < UINT_RANGE) :
    ∃ x, GlfwApp.run (ExampleApp.virtuals L env) env fuel o = some x ∧
      x.completion = Completion.returned 0 ∧
      frameCalls x.trace = (List.range n).flatMap fun i =>
        [FrameCall.beginFrame (i + 1), FrameCall.endFrame] := by
  obtain ⟨x, hx, hret, hcalls⟩ :=
    ExampleApp.run_frameCalls_mod L env n fuel w o hwindow hglew hclose hfuel
  refine ⟨x, hx, hret, ?_⟩
  rw [hcalls, hframe]
  apply List.flatMap_congr
  intro i hi
  have hlt : i < n := List.mem_range.mp hi
  rw [Nat.zero_add, Nat.mod_eq_of_lt (by omega)]

theorem ExampleApp.run_frames_paired_witness :
    ∃ x, GlfwApp.run (ExampleApp.virtuals sampleLib (sampleEnv 3 [])) (sampleEnv 3 []) 4
        sampleApp = some x ∧
      x.completion = Completion.returned 0 ∧
      frameCalls x.trace = (List.range 3).flatMap fun i =>
        [FrameCall.beginFrame (i + 1), FrameCall.endFrame] :=
  ExampleApp.run_frames_paired sampleLib (sampleEnv 3 []) 3 4 1 sampleApp rfl rfl rfl
    (by unfold FirstCloseAt; decide) (by decide) (by decide)

/-- C1 as stated fails at N = 2^32: in the run of the sample world whose window reports the
close request first at test number 2^32 + 1, the frame of iteration 2^32 is begun with the
index 0, to which the 32-bit counter `frame` has wrapped, so the indices are not 1, ...,
2^32 and not increasing. -/
theorem ExampleApp.run_frame_index_wraps :
    ∃ x, GlfwApp.run (ExampleApp.virtuals sampleLib (sampleEnv (2 ^ 32) []))
        (sampleEnv (2 ^ 32) []) (2 ^ 32 + 1) sampleApp = some x ∧
      FrameCall.beginFrame 0 ∈ frameCalls x.trace ∧
      frameCalls x.trace ≠ ((List.range (2 ^ 32)).flatMap fun i =>
        [FrameCall.beginFrame (i + 1), FrameCall.endFrame]) ∧
      ¬ (beginIndices x.trace).Pairwise (· < ·) := by
  obtain ⟨x, hx, -, hcalls⟩ :=
    ExampleApp.run_frameCalls_mod sampleLib (sampleEnv (2 ^ 32) []) (2 ^ 32) (2 ^ 32 + 1) 1
      sampleApp rfl rfl (sampleEnv_firstCloseAt _ _) (Nat.lt_succ_self _)
  have hzero : FrameCall.beginFrame 0 ∈ frameCalls x.trace := by
    rw [hcalls, List.mem_flatMap]
    refine ⟨2 ^ 32 - 1, List.mem_range.mpr (by norm_num), ?_⟩
    have h0 : (sampleApp.glfw.frame + (2 ^ 32 - 1) + 1) % UINT_RANGE = 0 := by
      simp [sampleApp, UINT_RANGE]
    rw [h0]
    exact List.mem_cons_self _ _
  refine ⟨x, hx, hzero, ?_, ?_⟩
  · intro heq
    rw [heq, List.mem_flatMap] at hzero
    obtain ⟨i, -, hi⟩ := hzero
    simp at hi
  · have hidx : beginIndices x.trace
        = (List.range (2 ^ 32)).map fun i => (sampleApp.glfw.frame + i + 1) % UINT_RANGE := by
      rw [beginIndices, hcalls, List.filterMap_flatMap]
      simp only [List.filterMap_cons, List.filterMap_nil, FrameCall.index]
      exact flatMap_single_eq_map _ _
    rw [hidx, List.pairwise_iff_getElem]
    intro h
    have h' := h 0 (2 ^ 32 - 1) (by simp) (by simp) (by norm_num)
    simp [sampleApp, UINT_RANGE] at h'

/-! ## Who swaps the buffers of the window -/

theorem swapCount_append {Mat : Type} (xs ys : List (Event Mat)) :
    swapCount (xs ++ ys) = swapCount xs + swapCount ys := by
  simp [swapCount]

/-- The swaps of `n` iterations of a loop whose `update` and `draw` make none and whose
`finishFrame` makes `c`. -/
theorem GlfwApp.iterations_swapCount {Mat D : Type} (v : LoopVirtuals Mat D) (c : Nat)
    (hu : ∀ o, swapCount (v.update o).2 = 0) (hd : ∀ k o, swapCount (v.draw k o).2 = 0)
    (hf : ∀ o, swapCount (v.finishFrame o).2 = c) :
    ∀ (n k : Nat) (o : Obj D), swapCount (stepsTrace (GlfwApp.iterations v n k o).2) = n * c := by
  intro n
  induction n with
  | zero => intro k o; simp [GlfwApp.iterations, stepsTrace, swapCount]
  | succ n ih =>
    intro k o
    rw [GlfwApp.iterations_succ, stepsTrace_cons, stepsTrace_append, swapCount_append,
      swapCount_append, ih]
    simp only [GlfwApp.iteration, stepsTrace_cons, stepsTrace_nil, LoopStep.events,
      swapCount_append, hu, hd, hf]
    simp only [swapCount, List.countP_cons, List.countP_nil]
    simp only [Bool.false_eq_true, if_false]
    ring

/-- The swaps of a loop that ends with the close request at test number `n + 1`. -/
theorem GlfwApp.loop_swapCount {Mat D : Type} (v : LoopVirtuals Mat D) (c : Nat) (env : Env)
    (n fuel : Nat) (o : Obj D) (hclose : FirstCloseAt env n) (hfuel : n < fuel)
    (hu : ∀ o, swapCount (v.update o).2 = 0) (hd : ∀ k o, swapCount (v.draw k o).2 = 0)
    (hf : ∀ o, swapCount (v.finishFrame o).2 = c) :
    ∃ r, GlfwApp.loop v env fuel 0 o = some r ∧ swapCount (stepsTrace r.2) = n * c := by
  refine ⟨_, GlfwApp.loop_eq_iterations v env n fuel 0 o
    (fun i hi => by simpa using hclose.1 i hi) (by simpa using hclose.2) hfuel, ?_⟩
  rw [stepsTrace_append, swapCount_append, GlfwApp.iterations_swapCount v c hu hd hf]
  simp [stepsTrace, LoopStep.events, swapCount]

theorem RiftApp.draw_swapCount {Mat : Type} [Mul Mat] (L : Lib Mat) (p : PerEye ovrPosef)
    (o : Obj (RiftApp Mat)) : swapCount (RiftApp.draw L p o).2 = 0 := by
  simp [RiftApp.draw, RiftApp.renderEye, swapCount]

theorem HelloRift.helloDraw_swapCount {Mat : Type} [Mul Mat] (L : Lib Mat) (fromOvr : ovrPosef → Mat)
    (p : PerEye ovrPosef) (o : Obj (HelloRift Mat)) :
    swapCount (HelloRift.draw L fromOvr p o).2 = 0 := by
  simp [HelloRift.draw, HelloRift.renderEye, GlFrameBufferWrapper.activate,
    GlFrameBufferWrapper.deactivate, swapCount]

theorem CubeScene_RiftSensors.cubeDraw_swapCount {Mat : Type} [Mul Mat] (L : Lib Mat)
    (p : PerEye ovrPosef) (o : Obj (CubeScene_RiftSensors Mat)) :
    swapCount (CubeScene_RiftSensors.draw L p o).2 = 0 := by
  simp [CubeScene_RiftSensors.draw, CubeScene_RiftSensors.renderEye, swapCount]

/-- C2: in `RiftApp`, `HelloRift` and `CubeScene_RiftSensors` the overriding `finishFrame`
does nothing, and a loop of `GlfwApp::run` that ends with the close request at test number
`n + 1` makes no call of `glfwSwapBuffers` at all; with the `finishFrame` of the base class
`GlfwApp` in their place, the same loop makes exactly `n` calls, one per iteration. -/
theorem finishFrame_overrides_make_no_swap {Mat : Type} [Mul Mat] (L : Lib Mat)
    (fromOvr : ovrPosef → Mat) (env : Env) (n fuel : Nat) (a : Obj (RiftApp Mat))
    (h : Obj (HelloRift Mat)) (c : Obj (CubeScene_RiftSensors Mat))
    (hclose : FirstCloseAt env n) (hfuel : n < fuel) :
    (RiftApp.finishFrame a = (a, ([] : List (Event Mat))) ∧
      HelloRift.finishFrame h = (h, ([] : List (Event Mat))) ∧
      CubeScene_RiftSensors.finishFrame c = (c, ([] : List (Event Mat)))) ∧
    ((∃ r, GlfwApp.loop (ExampleApp.loopVirtuals L env) env fuel 0 a = some r ∧
        swapCount (stepsTrace r.2) = 0) ∧
      (∃ r, GlfwApp.loop (HelloRift.loopVirtuals L fromOvr env) env fuel 0 h = some r ∧
        swapCount (stepsTrace r.2) = 0) ∧
      (∃ r, GlfwApp.loop (CubeScene_RiftSensors.loopVirtuals L env) env fuel 0 c = some r ∧
        swapCount (stepsTrace r.2) = 0)) ∧
    ((∃ r, GlfwApp.loop (ExampleApp.loopVirtuals L env).withBaseFinishFrame env fuel 0 a
          = some r ∧ swapCount (stepsTrace r.2) = n) ∧
      (∃ r, GlfwApp.loop (HelloRift.loopVirtuals L fromOvr env).withBaseFinishFrame env fuel 0 h
          = some r ∧ swapCount (stepsTrace r.2) = n) ∧
      (∃ r, GlfwApp.loop (CubeScene_RiftSensors.loopVirtuals L env).withBaseFinishFrame env fuel
          0 c = some r ∧ swapCount (stepsTrace r.2) = n)) := by
  refine ⟨⟨rfl, rfl, rfl⟩, ⟨?_, ?_, ?_⟩, ⟨?_, ?_, ?_⟩⟩
  · simpa using GlfwApp.loop_swapCount (ExampleApp.loopVirtuals L env) 0 env n fuel a hclose
      hfuel (fun _ => rfl) (fun k o => RiftApp.draw_swapCount L _ o) (fun _ => rfl)
  · simpa using GlfwApp.loop_swapCount (HelloRift.loopVirtuals L fromOvr env) 0 env n fuel h
      hclose hfuel (fun _ => rfl) (fun k o => HelloRift.helloDraw_swapCount L fromOvr _ o)
      (fun _ => rfl)
  · simpa using GlfwApp.loop_swapCount (CubeScene_RiftSensors.loopVirtuals L env) 0 env n fuel c
      hclose hfuel (fun _ => rfl) (fun k o => CubeScene_RiftSensors.cubeDraw_swapCount L _ o)
      (fun _ => rfl)
  · simpa using GlfwApp.loop_swapCount (ExampleApp.loopVirtuals L env).withBaseFinishFrame 1 env
      n fuel a hclose hfuel (fun _ => rfl) (fun k o => RiftApp.draw_swapCount L _ o)
      (fun _ => rfl)
  · simpa using GlfwApp.loop_swapCount (HelloRift.loopVirtuals L fromOvr env).withBaseFinishFrame
      1 env n fuel h hclose hfuel (fun _ => rfl)
      (fun k o => HelloRift.helloDraw_swapCount L fromOvr _ o) (fun _ => rfl)
  · simpa using GlfwApp.loop_swapCount
      (CubeScene_RiftSensors.loopVirtuals L env).withBaseFinishFrame 1 env n fuel c hclose hfuel
      (fun _ => rfl) (fun k o => CubeScene_RiftSensors.cubeDraw_swapCount L _ o) (fun _ => rfl)

theorem finishFrame_overrides_make_no_swap_witness :
    (RiftApp.finishFrame sampleRift = (sampleRift, ([] : List (Event Int))) ∧
      HelloRift.finishFrame sampleHello = (sampleHello, ([] : List (Event Int))) ∧
      CubeScene_RiftSensors.finishFrame sampleCube = (sampleCube, ([] : List (Event Int)))) ∧
    ((∃ r, GlfwApp.loop (ExampleApp.loopVirtuals sampleLib (sampleEnv 2 [])) (sampleEnv 2 []) 3 0
          sampleRift = some r ∧ swapCount (stepsTrace r.2) = 0) ∧
      (∃ r, GlfwApp.loop (HelloRift.loopVirtuals sampleLib (toGlm sampleLib) (sampleEnv 2 []))
          (sampleEnv 2 []) 3 0 sampleHello = some r ∧ swapCount (stepsTrace r.2) = 0) ∧
      (∃ r, GlfwApp.loop (CubeScene_RiftSensors.loopVirtuals sampleLib (sampleEnv 2 []))
          (sampleEnv 2 []) 3 0 sampleCube = some r ∧ swapCount (stepsTrace r.2) = 0)) ∧
    ((∃ r, GlfwApp.loop (ExampleApp.loopVirtuals sampleLib (sampleEnv 2 [])).withBaseFinishFrame
          (sampleEnv 2 []) 3 0 sampleRift = some r ∧ swapCount (stepsTrace r.2) = 2) ∧
      (∃ r, GlfwApp.loop
          (HelloRift.loopVirtuals sampleLib (toGlm sampleLib) (sampleEnv 2 [])).withBaseFinishFrame
          (sampleEnv 2 []) 3 0 sampleHello = some r ∧ swapCount (stepsTrace r.2) = 2) ∧
      (∃ r, GlfwApp.loop
          (CubeScene_RiftSensors.loopVirtuals sampleLib (sampleEnv 2 [])).withBaseFinishFrame
          (sampleEnv 2 []) 3 0 sampleCube = some r ∧ swapCount (stepsTrace r.2) = 2)) :=
  finishFrame_overrides_make_no_swap sampleLib (toGlm sampleLib) (sampleEnv 2 []) 2 3 sampleRift
    sampleHello sampleCube (by unfold FirstCloseAt; decide) (by decide)

/-! ## What `draw` does in one frame -/

/-- The calls of `RiftApp::draw`: the query of the poses and the begin of the frame with
the counter `frame`, a pass for each of the two eyes in the order of the headset, the bind
of the default framebuffer, and the end of the frame with the queried poses and the eye
textures. -/
theorem RiftApp.draw_trace {Mat : Type} [Mul Mat] (L : Lib Mat) (p : PerEye ovrPosef)
    (o : Obj (RiftApp Mat)) :
    (RiftApp.draw L p o).2
      = [Event.ovrHmd_GetEyePoses o.glfw.frame o.self.eyeOffsets p,
         Event.ovrHmd_BeginFrame o.glfw.frame]
        ++ RiftApp.eyePass L o p (o.self.hmd.EyeRenderOrder 0)
        ++ RiftApp.eyePass L o p (o.self.hmd.EyeRenderOrder 1)
        ++ [Event.bindDrawFramebuffer 0, Event.ovrHmd_EndFrame p o.self.eyeTextures] := by
  simp [RiftApp.draw, RiftApp.renderEye, RiftApp.eyePass]

/-- C3: in `HelloRift::draw` and in `ClientSideDistortionExample::draw`, for each of the two
eyes in the order of the headset, the scene renderer runs between the `activate()` and the
`deactivate()` of the framebuffer of the eye (which is the one bound for drawing), with the
stored projection of the eye on top of the projection stack, and on top of the modelview
stack the product of `viewOffset[eye]`, `inverse(pose[eye])` and `base`, in this order,
where `base` is the top of the modelview stack on entry to `draw` and `pose[eye]` the pose
the SDK gave for the eye in this frame.  `HelloRift::draw` computes it as written,
`(viewOffset * inverse(pose)) * base`; `ClientSideDistortionExample::draw` computes it by
`preMultiply(inverse(pose))` followed by `preMultiply(viewOffset)`, which, `preMultiply(m)`
multiplying the top by `m` from the left, is `viewOffset * (inverse(pose) * base)`.  No law
of the product of matrices is used. -/
theorem draw_view_is_offset_inverse_pose_base {Mat : Type} [Mul Mat] (L : Lib Mat)
    (fromOvr : ovrPosef → Mat) (p : PerEye ovrPosef) (q : Fin 2 → ovrPosef)
    (h : Obj (HelloRift Mat)) (c : Obj (ClientSideDistortionExample Mat))
    (hpre : ∀ m top : Mat, L.preMultiply m top = m * top) :
    (HelloRift.draw L fromOvr p h).2
      = [Event.ovrHmd_GetEyePoses (toUnsigned (h.self.frameIndex + 1))
           { left := { x := 0, y := 0, z := 0 }, right := { x := 0, y := 0, z := 0 } } p,
         Event.ovrHmd_BeginFrame (toUnsigned (h.self.frameIndex + 1))]
        ++ ([h.self.hmd.EyeRenderOrder 0, h.self.hmd.EyeRenderOrder 1].flatMap fun eye =>
            [Event.activate (h.self.perEyeArgs.get eye).framebuffer.frameBuffer,
             Event.renderScene (h.self.perEyeArgs.get eye).framebuffer.frameBuffer
               (h.self.perEyeArgs.get eye).projection
               (((h.self.perEyeArgs.get eye).viewOffset * L.inverse (fromOvr (p.get eye)))
                 * h.self.glStacks.modelview.top),
             Event.deactivate (h.self.perEyeArgs.get eye).framebuffer.frameBuffer])
        ++ [Event.ovrHmd_EndFrame p h.self.textures] ∧
    (ClientSideDistortionExample.draw L fromOvr q c).2
      = [Event.ovrHmd_BeginFrameTiming (toUnsigned c.self.frameIndex)]
        ++ ([(0 : Fin 2), 1].flatMap fun i =>
            [Event.ovrHmd_GetHmdPosePerEye (c.self.hmd.EyeRenderOrder i) (q i),
             Event.activate
               (c.self.eyeArgs.get (c.self.hmd.EyeRenderOrder i)).frameBuffer.frameBuffer,
             Event.renderScene
               (c.self.eyeArgs.get (c.self.hmd.EyeRenderOrder i)).frameBuffer.frameBuffer
               (c.self.eyeArgs.get (c.self.hmd.EyeRenderOrder i)).projection
               ((c.self.eyeArgs.get (c.self.hmd.EyeRenderOrder i)).viewOffset
                 * (L.inverse (fromOvr (q i)) * c.self.glStacks.modelview.top)),
             Event.deactivate
               (c.self.eyeArgs.get (c.self.hmd.EyeRenderOrder i)).frameBuffer.frameBuffer])
        ++ [Event.drawDistortionMesh .ovrEye_Left
              (c.self.eyeArgs.get .ovrEye_Left).frameBuffer.color,
            Event.drawDistortionMesh .ovrEye_Right
              (c.self.eyeArgs.get .ovrEye_Right).frameBuffer.color,
            Event.ovrHmd_EndFrameTiming] := by
  constructor
  · simp [HelloRift.draw, HelloRift.renderEye, GlFrameBufferWrapper.activate,
      GlFrameBufferWrapper.deactivate, MatrixStack.push, MatrixStack.pop]
  · simp [ClientSideDistortionExample.draw, ClientSideDistortionExample.renderEye,
      GlFrameBufferWrapper.activate, GlFrameBufferWrapper.deactivate, MatrixStack.push,
      MatrixStack.pop, MatrixStack.preMultiply, hpre]

theorem draw_view_is_offset_inverse_pose_base_witness :
    (∀ m top : Int, sampleLib.preMultiply m top = m * top) ∧
    ((HelloRift.draw sampleLib (toGlm sampleLib) ({ left := samplePose 4, right := samplePose 5 } : PerEye ovrPosef) sampleHello).2
        = [Event.ovrHmd_GetEyePoses (toUnsigned (sampleHello.self.frameIndex + 1))
             { left := { x := 0, y := 0, z := 0 }, right := { x := 0, y := 0, z := 0 } } ({ left := samplePose 4, right := samplePose 5 } : PerEye ovrPosef),
           Event.ovrHmd_BeginFrame (toUnsigned (sampleHello.self.frameIndex + 1))]
          ++ ([sampleHello.self.hmd.EyeRenderOrder 0, sampleHello.self.hmd.EyeRenderOrder 1].flatMap fun eye =>
              [Event.activate (sampleHello.self.perEyeArgs.get eye).framebuffer.frameBuffer,
               Event.renderScene (sampleHello.self.perEyeArgs.get eye).framebuffer.frameBuffer
                 (sampleHello.self.perEyeArgs.get eye).projection
                 (((sampleHello.self.perEyeArgs.get eye).viewOffset * sampleLib.inverse ((toGlm sampleLib) (({ left := samplePose 4, right := samplePose 5 } : PerEye ovrPosef).get eye)))
                   * sampleHello.self.glStacks.modelview.top),
               Event.deactivate (sampleHello.self.perEyeArgs.get eye).framebuffer.frameBuffer])
          ++ [Event.ovrHmd_EndFrame ({ left := samplePose 4, right := samplePose 5 } : PerEye ovrPosef) sampleHello.self.textures] ∧
      (ClientSideDistortionExample.draw sampleLib (toGlm sampleLib) (fun i : Fin 2 => samplePose i.val) sampleClient).2
        = [Event.ovrHmd_BeginFrameTiming (toUnsigned sampleClient.self.frameIndex)]
          ++ ([(0 : Fin 2), 1].flatMap fun i =>
              [Event.ovrHmd_GetHmdPosePerEye (sampleClient.self.hmd.EyeRenderOrder i) ((fun i : Fin 2 => samplePose i.val) i),
               Event.activate
                 (sampleClient.self.eyeArgs.get (sampleClient.self.hmd.EyeRenderOrder i)).frameBuffer.frameBuffer,
               Event.renderScene
                 (sampleClient.self.eyeArgs.get (sampleClient.self.hmd.EyeRenderOrder i)).frameBuffer.frameBuffer
                 (sampleClient.self.eyeArgs.get (sampleClient.self.hmd.EyeRenderOrder i)).projection
                 ((sampleClient.self.eyeArgs.get (sampleClient.self.hmd.EyeRenderOrder i)).viewOffset
                   * (sampleLib.inverse ((toGlm sampleLib) ((fun i : Fin 2 => samplePose i.val) i)) * sampleClient.self.glStacks.modelview.top)),
               Event.deactivate
                 (sampleClient.self.eyeArgs.get (sampleClient.self.hmd.EyeRenderOrder i)).frameBuffer.frameBuffer])
          ++ [Event.drawDistortionMesh .ovrEye_Left
                (sampleClient.self.eyeArgs.get .ovrEye_Left).frameBuffer.color,
              Event.drawDistortionMesh .ovrEye_Right
                (sampleClient.self.eyeArgs.get .ovrEye_Right).frameBuffer.color,
              Event.ovrHmd_EndFrameTiming]) :=
  ⟨fun _ _ => rfl,
    draw_view_is_offset_inverse_pose_base sampleLib (toGlm sampleLib)
      { left := samplePose 4, right := samplePose 5 } (fun i => samplePose i.val) sampleHello
      sampleClient (fun _ _ => rfl)⟩

/-- C4: every call of `draw` of `RiftApp`, `HelloRift` and `CubeScene_RiftSensors` first
queries the poses with `ovrHmd_GetEyePoses`, then begins the frame with the same frame
index, then renders the two eyes, then ends the frame; the poses used for rendering and
handed to `ovrHmd_EndFrame` are the ones `p` that this query returned, whatever poses the
object held before (in `RiftApp` and `HelloRift` the stored poses are then `p`). -/
theorem draw_queries_poses_afresh {Mat : Type} [Mul Mat] (L : Lib Mat)
    (fromOvr : ovrPosef → Mat) (p : PerEye ovrPosef) (a : Obj (RiftApp Mat))
    (h : Obj (HelloRift Mat)) (c : Obj (CubeScene_RiftSensors Mat)) :
    ((RiftApp.draw L p a).2
        = [Event.ovrHmd_GetEyePoses a.glfw.frame a.self.eyeOffsets p,
           Event.ovrHmd_BeginFrame a.glfw.frame]
          ++ ([a.self.hmd.EyeRenderOrder 0, a.self.hmd.EyeRenderOrder 1].flatMap fun eye =>
              [Event.bindDrawFramebuffer (a.self.eyeFbos.get eye).fbo,
               Event.viewport (a.self.eyeTextures.get eye).Header.RenderViewport,
               Event.renderScene (a.self.eyeFbos.get eye).fbo (a.self.projections.get eye)
                 (toGlm L (p.get eye))])
          ++ [Event.bindDrawFramebuffer 0, Event.ovrHmd_EndFrame p a.self.eyeTextures] ∧
      (RiftApp.draw L p a).1.self.eyePoses = p) ∧
    ((HelloRift.draw L fromOvr p h).2
        = [Event.ovrHmd_GetEyePoses (toUnsigned (h.self.frameIndex + 1))
             { left := { x := 0, y := 0, z := 0 }, right := { x := 0, y := 0, z := 0 } } p,
           Event.ovrHmd_BeginFrame (toUnsigned (h.self.frameIndex + 1))]
          ++ ([h.self.hmd.EyeRenderOrder 0, h.self.hmd.EyeRenderOrder 1].flatMap fun eye =>
              [Event.activate (h.self.perEyeArgs.get eye).framebuffer.frameBuffer,
               Event.renderScene (h.self.perEyeArgs.get eye).framebuffer.frameBuffer
                 (h.self.perEyeArgs.get eye).projection
                 ((h.self.perEyeArgs.get eye).viewOffset * L.inverse (fromOvr (p.get eye))
                   * h.self.glStacks.modelview.top),
               Event.deactivate (h.self.perEyeArgs.get eye).framebuffer.frameBuffer])
          ++ [Event.ovrHmd_EndFrame p h.self.textures] ∧
      (HelloRift.draw L fromOvr p h).1.self.eyePoses = p) ∧
    (CubeScene_RiftSensors.draw L p c).2
      = [Event.ovrHmd_GetEyePoses (toUnsigned (c.self.frameIndex + 1)) c.self.eyeOffsets p,
         Event.ovrHmd_BeginFrame (toUnsigned (c.self.frameIndex + 1))]
        ++ ([c.self.hmd.EyeRenderOrder 0, c.self.hmd.EyeRenderOrder 1].flatMap fun eye =>
            [Event.bindDrawFramebuffer (c.self.eyeFramebuffers.get eye).fbo,
             Event.viewport (c.self.eyeTextures.get eye).Header.RenderViewport,
             Event.renderScene (c.self.eyeFramebuffers.get eye).fbo
               (c.self.eyeProjections.get eye)
               (L.preMultiply (L.inverse (toGlm L (p.get eye)))
                 c.self.glStacks.modelview.top)])
        ++ [Event.bindDrawFramebuffer 0, Event.ovrHmd_EndFrame p c.self.eyeTextures] := by
  refine ⟨⟨?_, rfl⟩, ⟨?_, rfl⟩, ?_⟩
  · simp [RiftApp.draw, RiftApp.renderEye]
  · simp [HelloRift.draw, HelloRift.renderEye, GlFrameBufferWrapper.activate,
      GlFrameBufferWrapper.deactivate, MatrixStack.push, MatrixStack.pop]
  · simp [CubeScene_RiftSensors.draw, CubeScene_RiftSensors.renderEye, MatrixStack.push,
      MatrixStack.pop, MatrixStack.preMultiply]

/-- C5: `RiftApp::draw` renders the eyes in the order `hmd->EyeRenderOrder[0]`,
`hmd->EyeRenderOrder[1]`: between `ovrHmd_BeginFrame` and `ovrHmd_EndFrame` it makes one pass
for the first and then one for the second, each binding the framebuffer of its eye and
calling `renderScene` with the projection and the pose of that eye.  When the order is a
permutation of the two eyes (and the two framebuffers are two framebuffer objects), each
eye is among the two passes exactly once: its framebuffer is bound exactly once and
`renderScene` is called exactly once while it is bound. -/
theorem RiftApp.draw_renders_each_eye_once {Mat : Type} [Mul Mat] (L : Lib Mat)
    (p : PerEye ovrPosef) (o : Obj (RiftApp Mat))
    (hperm : o.self.hmd.EyeRenderOrder 0 ≠ o.self.hmd.EyeRenderOrder 1)
    (hfbos : o.self.eyeFbos.left.fbo ≠ o.self.eyeFbos.right.fbo ∧ o.self.eyeFbos.left.fbo ≠ 0 ∧
      o.self.eyeFbos.right.fbo ≠ 0) :
    (RiftApp.draw L p o).2
      = [Event.ovrHmd_GetEyePoses o.glfw.frame o.self.eyeOffsets p,
         Event.ovrHmd_BeginFrame o.glfw.frame]
        ++ ([o.self.hmd.EyeRenderOrder 0, o.self.hmd.EyeRenderOrder 1].flatMap
              (RiftApp.eyePass L o p))
        ++ [Event.bindDrawFramebuffer 0, Event.ovrHmd_EndFrame p o.self.eyeTextures] ∧
    ∀ eye, [o.self.hmd.EyeRenderOrder 0, o.self.hmd.EyeRenderOrder 1].count eye = 1 ∧
      bindCount (o.self.eyeFbos.get eye).fbo (RiftApp.draw L p o).2 = 1 ∧
      renderCount (o.self.eyeFbos.get eye).fbo (RiftApp.draw L p o).2 = 1 := by
  constructor
  · simp [RiftApp.draw_trace]
  · intro eye
    obtain ⟨hlr, hl, hr⟩ := hfbos
    have hrl : o.self.eyeFbos.right.fbo ≠ o.self.eyeFbos.left.fbo := fun h => hlr h.symm
    have hl' : (0 : Nat) ≠ o.self.eyeFbos.left.fbo := fun h => hl h.symm
    have hr' : (0 : Nat) ≠ o.self.eyeFbos.right.fbo := fun h => hr h.symm
    rw [RiftApp.draw_trace]
    generalize o.self.hmd.EyeRenderOrder 0 = e0 at hperm ⊢
    generalize o.self.hmd.EyeRenderOrder 1 = e1 at hperm ⊢
    cases e0 <;> cases e1 <;> cases eye <;>
      simp_all [RiftApp.eyePass, bindCount, renderCount, PerEye.get, List.countP_cons]

theorem RiftApp.draw_renders_each_eye_once_witness :
    (RiftApp.draw sampleLib { left := samplePose 4, right := samplePose 5 } sampleRift).2
      = [Event.ovrHmd_GetEyePoses 0 sampleRift.self.eyeOffsets
           { left := samplePose 4, right := samplePose 5 },
         Event.ovrHmd_BeginFrame 0]
        ++ ([ovrEyeType.ovrEye_Right, ovrEyeType.ovrEye_Left].flatMap
              (RiftApp.eyePass sampleLib sampleRift { left := samplePose 4, right := samplePose 5 }))
        ++ [Event.bindDrawFramebuffer 0,
            Event.ovrHmd_EndFrame { left := samplePose 4, right := samplePose 5 }
              sampleRift.self.eyeTextures] ∧
    ∀ eye, [ovrEyeType.ovrEye_Right, ovrEyeType.ovrEye_Left].count eye = 1 ∧
      bindCount (sampleRift.self.eyeFbos.get eye).fbo
        (RiftApp.draw sampleLib { left := samplePose 4, right := samplePose 5 } sampleRift).2 = 1 ∧
      renderCount (sampleRift.self.eyeFbos.get eye).fbo
        (RiftApp.draw sampleLib { left := samplePose 4, right := samplePose 5 } sampleRift).2 = 1 :=
  RiftApp.draw_renders_each_eye_once sampleLib { left := samplePose 4, right := samplePose 5 }
    sampleRift (by decide) (by decide)

/-! ## The render targets of `RiftApp` -/

theorem GlfwApp.iterations_invariant {Mat D : Type} (v : LoopVirtuals Mat D)
    (P : Obj D → Prop) (hP : ∀ k o, P o → P (GlfwApp.iteration v k o).1) :
    ∀ (n k : Nat) (o : Obj D), P o → P (GlfwApp.iterations v n k o).1 := by
  intro n
  induction n with
  | zero => intro k o h; exact h
  | succ n ih => intro k o h; exact ih (k + 1) _ (hP k o h)

/-- A name is not the name generated after it. -/
theorem beq_succ_self (n : Nat) : (n == n + 1) = false := by
  simp

/-- After `initGl` each eye texture carries the name of the colour texture of the
`FboWrapper` of its eye, and this texture is attached to the framebuffer of the wrapper. -/
theorem RiftApp.initGl_targets {Mat : Type} (L : Lib Mat) (env : Env)
    (c : Obj (ConstructedApp Mat)) :
    RiftApp.TargetsAttached (RiftApp.initGl L env c).1 ∧
      ∀ eye, (((RiftApp.initGl L env c).1.self.eyeTextures).get eye).TexId
        = (((RiftApp.initGl L env c).1.self.eyeFbos).get eye).color := by
  constructor
  · intro eye
    cases eye <;>
      simp [RiftApp.initGl, RiftApp.initEye, FboWrapper.new, FboWrapper.init,
        GlContext.colorOf, PerEye.get, List.lookup, beq_succ_self]
  · intro eye
    cases eye <;> simp [RiftApp.initGl, RiftApp.initEye, PerEye.get]

/-- An iteration of the loop of an `ExampleApp` changes neither the eye textures, nor the
`FboWrapper`s, nor the attachments of the OpenGL context. -/
theorem ExampleApp.iteration_targets {Mat : Type} [Mul Mat] (L : Lib Mat) (env : Env) (k : Nat)
    (o : Obj (RiftApp Mat))
    (h : RiftApp.TargetsAttached o ∧
      ∀ eye, (o.self.eyeTextures.get eye).TexId = (o.self.eyeFbos.get eye).color) :
    RiftApp.TargetsAttached (GlfwApp.iteration (ExampleApp.loopVirtuals L env) k o).1 ∧
      ∀ eye, (((GlfwApp.iteration (ExampleApp.loopVirtuals L env) k o).1.self.eyeTextures).get
          eye).TexId
        = (((GlfwApp.iteration (ExampleApp.loopVirtuals L env) k o).1.self.eyeFbos).get eye).color :=
  h

/-- C6: in every iteration `k` of the loop of an `ExampleApp`, for each eye the OpenGL
texture name stored in `eyeTextures[eye]` is the name of the colour texture of
`eyeFbos[eye]`, which is attached to the framebuffer of `eyeFbos[eye]`; `draw` calls the
scene renderer for the eye while this framebuffer is the one bound for drawing, and hands
`eyeTextures` to `ovrHmd_EndFrame`: the targets submitted are the targets rendered into. -/
theorem RiftApp.submits_the_targets_it_renders_into {Mat : Type} [Mul Mat] (L : Lib Mat)
    (env : Env) (c : Obj (ConstructedApp Mat)) (k : Nat) :
    (∀ eye,
      ((ExampleApp.atIteration L env c k).self.eyeTextures.get eye).TexId
        = ((ExampleApp.atIteration L env c k).self.eyeFbos.get eye).color ∧
      (ExampleApp.atIteration L env c k).self.gl.colorOf
          ((ExampleApp.atIteration L env c k).self.eyeFbos.get eye).fbo
        = some ((ExampleApp.atIteration L env c k).self.eyeTextures.get eye).TexId) ∧
    (GlfwApp.iteration (ExampleApp.loopVirtuals L env) k (ExampleApp.atIteration L env c k)).2
      = [LoopStep.pollEvents,
         LoopStep.update [],
         LoopStep.draw
           ([Event.ovrHmd_GetEyePoses
               (((ExampleApp.atIteration L env c k).glfw.frame + 1) % UINT_RANGE)
               (ExampleApp.atIteration L env c k).self.eyeOffsets (env.eyePoses k),
             Event.ovrHmd_BeginFrame
               (((ExampleApp.atIteration L env c k).glfw.frame + 1) % UINT_RANGE)]
            ++ ([(ExampleApp.atIteration L env c k).self.hmd.EyeRenderOrder 0,
                 (ExampleApp.atIteration L env c k).self.hmd.EyeRenderOrder 1].flatMap fun eye =>
                [Event.bindDrawFramebuffer
                   ((ExampleApp.atIteration L env c k).self.eyeFbos.get eye).fbo,
                 Event.viewport
                   ((ExampleApp.atIteration L env c k).self.eyeTextures.get eye).Header.RenderViewport,
                 Event.renderScene ((ExampleApp.atIteration L env c k).self.eyeFbos.get eye).fbo
                   ((ExampleApp.atIteration L env c k).self.projections.get eye)
                   (toGlm L ((env.eyePoses k).get eye))])
            ++ [Event.bindDrawFramebuffer 0,
                Event.ovrHmd_EndFrame (env.eyePoses k)
                  (ExampleApp.atIteration L env c k).self.eyeTextures]),
         LoopStep.finishFrame []] := by
  have hinv := GlfwApp.iterations_invariant (ExampleApp.loopVirtuals L env)
    (fun o => RiftApp.TargetsAttached o ∧
      ∀ eye, (o.self.eyeTextures.get eye).TexId = (o.self.eyeFbos.get eye).color)
    (fun k o h => ExampleApp.iteration_targets L env k o h) k 0 (ExampleApp.initGl L env c).1
    (RiftApp.initGl_targets L env c)
  constructor
  · intro eye
    exact ⟨hinv.2 eye, hinv.1 eye⟩
  · simp [GlfwApp.iteration, ExampleApp.loopVirtuals, GlfwApp.update, RiftApp.finishFrame,
      RiftApp.draw, RiftApp.renderEye]

/-! ## `main` -/

/-- A loop that ends has seen the close request, at a test that the fuel covers. -/
theorem GlfwApp.loop_some {Mat D : Type} (v : LoopVirtuals Mat D) (env : Env) :
    ∀ (fuel k : Nat) (o : Obj D) (r : Obj D × List (LoopStep Mat)),
      GlfwApp.loop v env fuel k o = some r →
      ∃ n, n < fuel ∧ (∀ i, i < n → env.glfwWindowShouldClose (k + i) = false) ∧
        env.glfwWindowShouldClose (k + n) = true := by
  intro fuel
  induction fuel with
  | zero => intro k o r h; simp [GlfwApp.loop] at h
  | succ fuel ih =>
    intro k o r h
    by_cases hc : env.glfwWindowShouldClose k = true
    · exact ⟨0, by omega, fun i hi => by omega, by simpa using hc⟩
    · simp only [GlfwApp.loop, hc, Bool.false_eq_true, if_false] at h
      cases hl : GlfwApp.loop v env fuel (k + 1) (GlfwApp.iteration v k o).1 with
      | none => simp [hl] at h
      | some r' =>
        obtain ⟨n, hn, hopen, hclose⟩ := ih (k + 1) _ r' hl
        refine ⟨n + 1, by omega, ?_, ?_⟩
        · intro i hi
          cases i with
          | zero => simpa using hc
          | succ i =>
            have := hopen i (by omega)
            simpa [Nat.add_assoc, Nat.add_comm 1 i] using this
        · simpa [Nat.add_assoc, Nat.add_comm 1 n] using hclose

theorem main_eq_of_initialize_fails {Mat : Type} [Mul Mat] (L : Lib Mat) (env : Env)
    (fuel : Nat) (h : env.ovr_Initialize = false) :
    main L env fuel
      = some (-1, [Event.ovr_Initialize false,
                   Event.cerr ("Failed to initialize the Oculus SDK"), Event.ovr_Shutdown]) := by
  simp [main, h]

theorem main_eq_of_glfwInit_fails {Mat : Type} [Mul Mat] (L : Lib Mat) (env : Env)
    (fuel : Nat) (h0 : env.ovr_Initialize = true) (h : env.glfwInit = false) :
    main L env fuel
      = some (-1, [Event.ovr_Initialize true, Event.glfwInit false,
                   Event.cerr ("Failed to initialize GLFW"), Event.ovr_Shutdown]) := by
  simp [main, ExampleApp.new, GlfwApp.new, FAIL, h0, h]

theorem main_eq_of_tracking_fails {Mat : Type} [Mul Mat] (L : Lib Mat) (env : Env)
    (fuel : Nat) (h0 : env.ovr_Initialize = true) (h1 : env.glfwInit = true)
    (h : env.ovrHmd_ConfigureTracking = false) :
    main L env fuel
      = some (-1, [Event.ovr_Initialize true, Event.glfwInit true]
                  ++ (@RiftManagerApp.new Mat env).2
                  ++ [Event.ovrHmd_ConfigureTracking false]
                  ++ [Event.cerr ("Could not attach to sensor device"), Event.ovr_Shutdown]) := by
  simp [main, ExampleApp.new, GlfwApp.new, RiftApp.new, FAIL, h0, h1, h]

theorem ExampleApp.new_ok {Mat : Type} (L : Lib Mat) (env : Env) (h1 : env.glfwInit = true)
    (h2 : env.ovrHmd_ConfigureTracking = true) :
    ∃ o : Obj (ConstructedApp Mat),
      ExampleApp.new L env
        = { events := Event.glfwInit true ::
              ((@RiftManagerApp.new Mat env).2 ++ [Event.ovrHmd_ConfigureTracking true]),
            result := Except.ok o } ∧ o.glfw.frame = 0 := by
  simp [ExampleApp.new, GlfwApp.new, RiftApp.new, h1, h2]

theorem main_eq_of_window_fails {Mat : Type} [Mul Mat] (L : Lib Mat) (env : Env)
    (fuel : Nat) (h0 : env.ovr_Initialize = true) (h1 : env.glfwInit = true)
    (h2 : env.ovrHmd_ConfigureTracking = true) (h : env.glfwCreateWindow = none) :
    ∃ size,
      main L env fuel
        = some (-1, [Event.ovr_Initialize true, Event.glfwInit true]
                    ++ (@RiftManagerApp.new Mat env).2
                    ++ [Event.ovrHmd_ConfigureTracking true, Event.glfwCreateWindow size false]
                    ++ [Event.cerr ("Unable to create rendering window"),
                        Event.ovr_Shutdown]) := by
  obtain ⟨o, ho, -⟩ := ExampleApp.new_ok L env h1 h2
  refine ⟨(RiftGlfwApp.sized env o).glfw.windowSize, ?_⟩
  by_cases hd : RiftGlfwApp.directHmdMode env = true <;>
    simp [main, ho, h0, GlfwApp.run, ExampleApp.virtuals, RiftGlfwApp.createRenderingTarget,
      glfw.createWindow, glfw.createSecondaryScreenWindow, FAIL, h, hd, Exec.trace, stepsTrace]

theorem main_eq_of_glew_fails {Mat : Type} [Mul Mat] (L : Lib Mat) (env : Env)
    (fuel w : Nat) (h0 : env.ovr_Initialize = true) (h1 : env.glfwInit = true)
    (h2 : env.ovrHmd_ConfigureTracking = true) (h3 : env.glfwCreateWindow = some w)
    (h : env.glewInit ≠ 0) :
    ∃ size,
      main L env fuel
        = some (-1, [Event.ovr_Initialize true, Event.glfwInit true]
                    ++ (@RiftManagerApp.new Mat env).2
                    ++ [Event.ovrHmd_ConfigureTracking true, Event.glfwCreateWindow size true]
                    ++ (if RiftGlfwApp.directHmdMode env then [Event.ovrHmd_AttachToWindow]
                        else [])
                    ++ [Event.glewInit env.glewInit]
                    ++ [Event.cerr ("Failed to initialize GLEW"), Event.ovr_Shutdown]) := by
  obtain ⟨o, ho, -⟩ := ExampleApp.new_ok L env h1 h2
  refine ⟨(RiftGlfwApp.sized env o).glfw.windowSize, ?_⟩
  have hv : (ExampleApp.virtuals L env).createRenderingTarget o
      = RiftGlfwApp.createRenderingTarget env o := rfl
  simp only [main, ho, h0, GlfwApp.run, hv, RiftGlfwApp.createRenderingTarget_ok env o w h3,
    GlfwApp.postCreate, FAIL]
  simp [Exec.trace, stepsTrace, h]

/-- When every set-up call succeeds, `main` runs the loop on the object `initGl` made, and
returns 0 when the loop ends. -/
theorem main_eq_of_setup_ok {Mat : Type} [Mul Mat] (L : Lib Mat) (env : Env) (fuel w : Nat)
    (h0 : env.ovr_Initialize = true) (h1 : env.glfwInit = true)
    (h2 : env.ovrHmd_ConfigureTracking = true) (h3 : env.glfwCreateWindow = some w)
    (h4 : env.glewInit = 0) :
    ∃ o : Obj (ConstructedApp Mat), o.glfw.frame = 0 ∧
      main L env fuel
        = (GlfwApp.loop (ExampleApp.loopVirtuals L env) env fuel 0
            (ExampleApp.initGl L env (RiftGlfwApp.withWindow env o w)).1).map fun r =>
              ((0 : Int), ExampleApp.setupCalls L env o w ++ stepsTrace r.2
                ++ [Event.ovr_Shutdown]) := by
  obtain ⟨o, ho, hframe⟩ := ExampleApp.new_ok L env h1 h2
  refine ⟨o, hframe, ?_⟩
  have hv : (ExampleApp.virtuals L env).createRenderingTarget o
      = RiftGlfwApp.createRenderingTarget env o := rfl
  have hi : (ExampleApp.virtuals L env).initGl = ExampleApp.initGl L env := rfl
  have hl : (ExampleApp.virtuals L env).toLoopVirtuals = ExampleApp.loopVirtuals L env := rfl
  have hw : ({ (RiftGlfwApp.sized env o) with
      glfw := { (RiftGlfwApp.sized env o).glfw with window := some w } }
        : Obj (ConstructedApp Mat)) = RiftGlfwApp.withWindow env o w := rfl
  simp only [main, ho, h0, GlfwApp.run, hv, hi, hl,
    RiftGlfwApp.createRenderingTarget_ok env o w h3, GlfwApp.postCreate, h4, hw]
  cases GlfwApp.loop (ExampleApp.loopVirtuals L env) env fuel 0
      (ExampleApp.initGl L env (RiftGlfwApp.withWindow env o w)).1 with
  | none => simp
  | some r =>
    simp [Exec.trace, ExampleApp.setupCalls, RiftGlfwApp.createRenderingTarget_ok env o w h3]

theorem RiftManagerApp.new_frameCalls {Mat : Type} (env : Env) :
    frameCalls (@RiftManagerApp.new Mat env).2 = [] := by
  cases h : env.ovrHmd_Create <;> simp [RiftManagerApp.new, h, frameCalls, Event.frameCall]

theorem frameCalls_attachToWindow {Mat : Type} (b : Bool) :
    frameCalls (if b = true then [(Event.ovrHmd_AttachToWindow : Event Mat)] else []) = [] := by
  cases b <;> rfl

/-- C8: when `ovr_Initialize` returns false, or `glfwInit` fails, or the window cannot be
created, or `glewInit` fails, `main` writes the message of the error to `std::cerr`, shuts
the SDK down and returns -1, and no frame call was made before; and `main` returns 0 only
when every set-up call succeeded, the render loop was entered, and it ended with a test
that saw the close request. -/
theorem main_fails_on_setup_error {Mat : Type} [Mul Mat] (L : Lib Mat) (env : Env)
    (fuel : Nat) :
    ((env.ovr_Initialize = false ∨ env.glfwInit = false ∨ env.glfwCreateWindow = none ∨
        env.glewInit ≠ 0) →
      ∃ calls what,
        main L env fuel = some (-1, calls ++ [Event.cerr what, Event.ovr_Shutdown]) ∧
        frameCalls calls = []) ∧
    (∀ tr, main L env fuel = some (0, tr) →
      SetupSucceeds env ∧
      ∃ n calls, n < fuel ∧ FirstCloseAt env n ∧
        tr = calls ++ [Event.glfwWindowShouldClose true, Event.ovr_Shutdown]) := by
  by_cases h0 : env.ovr_Initialize = true
  swap
  · have h0' : env.ovr_Initialize = false := by simpa using h0
    rw [main_eq_of_initialize_fails L env fuel h0']
    exact ⟨fun _ => ⟨[Event.ovr_Initialize false], _, rfl, rfl⟩, fun tr h => by simp at h⟩
  by_cases h1 : env.glfwInit = true
  swap
  · have h1' : env.glfwInit = false := by simpa using h1
    rw [main_eq_of_glfwInit_fails L env fuel h0 h1']
    exact ⟨fun _ => ⟨[Event.ovr_Initialize true, Event.glfwInit false], _, rfl, rfl⟩,
      fun tr h => by simp at h⟩
  by_cases h2 : env.ovrHmd_ConfigureTracking = true
  swap
  · have h2' : env.ovrHmd_ConfigureTracking = false := by simpa using h2
    rw [main_eq_of_tracking_fails L env fuel h0 h1 h2']
    refine ⟨fun _ => ⟨_, _, rfl, ?_⟩, fun tr h => by simp at h⟩
    simp only [frameCalls_append, RiftManagerApp.new_frameCalls]
    rfl
  cases h3 : env.glfwCreateWindow with
  | none =>
    obtain ⟨size, hm⟩ := main_eq_of_window_fails L env fuel h0 h1 h2 h3
    rw [hm]
    refine ⟨fun _ => ⟨_, _, rfl, ?_⟩, fun tr h => by simp at h⟩
    simp only [frameCalls_append, RiftManagerApp.new_frameCalls]
    rfl
  | some w =>
    by_cases h4 : env.glewInit = 0
    swap
    · obtain ⟨size, hm⟩ := main_eq_of_glew_fails L env fuel w h0 h1 h2 h3 h4
      rw [hm]
      refine ⟨fun _ => ⟨_, _, rfl, ?_⟩, fun tr h => by simp at h⟩
      simp only [frameCalls_append, RiftManagerApp.new_frameCalls, frameCalls_attachToWindow]
      rfl
    constructor
    · intro hfail
      rcases hfail with h | h | h | h
      · simp [h0] at h
      · simp [h1] at h
      · simp [h3] at h
      · exact absurd h4 h
    · intro tr htr
      refine ⟨⟨h0, h1, h2, by simp [h3], h4⟩, ?_⟩
      obtain ⟨o, -, hm⟩ := main_eq_of_setup_ok L env fuel w h0 h1 h2 h3 h4
      rw [hm] at htr
      cases hl : GlfwApp.loop (ExampleApp.loopVirtuals L env) env fuel 0
          (ExampleApp.initGl L env (RiftGlfwApp.withWindow env o w)).1 with
      | none => simp [hl] at htr
      | some r =>
        obtain ⟨n, hn, hopen, hclose⟩ := GlfwApp.loop_some _ env fuel 0 _ r hl
        have hloop := GlfwApp.loop_eq_iterations (ExampleApp.loopVirtuals L env) env n fuel 0
          (ExampleApp.initGl L env (RiftGlfwApp.withWindow env o w)).1 hopen hclose hn
        rw [hl] at hloop
        have hr : r.2 = (GlfwApp.iterations (ExampleApp.loopVirtuals L env) n 0
            (ExampleApp.initGl L env (RiftGlfwApp.withWindow env o w)).1).2
              ++ [LoopStep.test true] := by
          simpa using congrArg (fun x => x.2) (Option.some.inj hloop)
        refine ⟨n, ExampleApp.setupCalls L env o w ++ stepsTrace
          (GlfwApp.iterations (ExampleApp.loopVirtuals L env) n 0
            (ExampleApp.initGl L env (RiftGlfwApp.withWindow env o w)).1).2, hn,
          ⟨fun i hi => by simpa using hopen i hi, by simpa using hclose⟩, ?_⟩
        simp only [hl, Option.map_some', Option.some.injEq, Prod.mk.injEq, true_and] at htr
        rw [← htr, hr, stepsTrace_append]
        simp [stepsTrace, LoopStep.events]

theorem main_fails_on_setup_error_witness :
    ∃ calls what,
      main sampleLib { sampleEnv 3 [] with glewInit := 1 } 4
        = some (-1, calls ++ [Event.cerr what, Event.ovr_Shutdown]) ∧
      frameCalls calls = [] :=
  (main_fails_on_setup_error sampleLib { sampleEnv 3 [] with glewInit := 1 } 4).1
    (Or.inr (Or.inr (Or.inr (by decide))))

/-! ## A frame the compositor rejects -/

theorem diagnostics_append {Mat : Type} (xs ys : List (Event Mat)) :
    diagnostics (xs ++ ys) = diagnostics xs ++ diagnostics ys := by
  simp [diagnostics]

theorem ExampleApp.iterations_diagnostics {Mat : Type} [Mul Mat] (L : Lib Mat) (env : Env) :
    ∀ (n k : Nat) (o : Obj (RiftApp Mat)),
      diagnostics (stepsTrace (GlfwApp.iterations (ExampleApp.loopVirtuals L env) n k o).2)
        = [] := by
  intro n
  induction n with
  | zero => intro k o; rfl
  | succ n ih =>
    intro k o
    rw [GlfwApp.iterations_succ, stepsTrace_cons, stepsTrace_append, diagnostics_append,
      diagnostics_append, ih]
    simp [GlfwApp.iteration, ExampleApp.loopVirtuals, GlfwApp.update, RiftApp.finishFrame,
      RiftApp.draw, RiftApp.renderEye, stepsTrace, LoopStep.events, diagnostics]

theorem ExampleApp.setupCalls_frameCalls {Mat : Type} (L : Lib Mat) (env : Env)
    (o : Obj (ConstructedApp Mat)) (w : Nat) :
    frameCalls (ExampleApp.setupCalls L env o w) = [] := by
  simp only [ExampleApp.setupCalls, frameCalls_append, RiftManagerApp.new_frameCalls,
    RiftGlfwApp.createRenderingTarget_frameCalls, ExampleApp.initGl_frameCalls]
  rfl

theorem ExampleApp.setupCalls_diagnostics {Mat : Type} (L : Lib Mat) (env : Env)
    (o : Obj (ConstructedApp Mat)) (w : Nat) (h3 : env.glfwCreateWindow = some w) :
    diagnostics (ExampleApp.setupCalls L env o w) = [] := by
  cases hc : env.ovrHmd_Create <;>
    by_cases hd : RiftGlfwApp.directHmdMode env = true <;>
    simp [ExampleApp.setupCalls, RiftGlfwApp.createRenderingTarget_ok env o w h3,
      RiftManagerApp.new, ExampleApp.initGl, RiftApp.initGl, RiftApp.initEye, FboWrapper.init,
      diagnostics, hc, hd]

/-- When every set-up call succeeds and the window reports the close request first at test
number `n + 1`, with `n` below 2^32, `main` returns 0 on any fuel above `n`; its frame calls
are the `n` pairs with the indices 1, ..., `n`, and it writes nothing to `std::cerr`. -/
theorem main_frames_of_setup_ok {Mat : Type} [Mul Mat] (L : Lib Mat) (env : Env)
    (n fuel : Nat) (hsetup : SetupSucceeds env) (hclose : FirstCloseAt env n) (hfuel : n < fuel)
    (hn : n < UINT_RANGE) :
    ∃ tr, main L env fuel = some (0, tr) ∧
      frameCalls tr = ((List.range n).flatMap fun i =>
        [FrameCall.beginFrame (i + 1), FrameCall.endFrame]) ∧
      diagnostics tr = [] := by
  obtain ⟨h0, h1, h2, h3, h4⟩ := hsetup
  obtain ⟨w, h3⟩ := Option.isSome_iff_exists.mp h3
  obtain ⟨o, hframe, hm⟩ := main_eq_of_setup_ok L env fuel w h0 h1 h2 h3 h4
  have hloop := GlfwApp.loop_eq_iterations (ExampleApp.loopVirtuals L env) env n fuel 0
    (ExampleApp.initGl L env (RiftGlfwApp.withWindow env o w)).1
    (fun i hi => by simpa using hclose.1 i hi) (by simpa using hclose.2) hfuel
  rw [hloop] at hm
  refine ⟨_, hm, ?_, ?_⟩
  · simp only [frameCalls_append, stepsTrace_append, ExampleApp.setupCalls_frameCalls,
      ExampleApp.iterations_frameCalls, ExampleApp.initGl_frame]
    have hf : (RiftGlfwApp.withWindow env o w).glfw.frame = 0 := hframe
    rw [hf]
    have hlist : ((List.range n).flatMap fun i =>
        [FrameCall.beginFrame ((0 + i + 1) % UINT_RANGE), FrameCall.endFrame])
          = (List.range n).flatMap fun i => [FrameCall.beginFrame (i + 1), FrameCall.endFrame] := by
      apply List.flatMap_congr
      intro i hi
      have hlt : i < n := List.mem_range.mp hi
      rw [Nat.zero_add, Nat.mod_eq_of_lt (by omega)]
    rw [hlist]
    simp [frameCalls, stepsTrace, LoopStep.events, Event.frameCall]
  · simp only [diagnostics_append, stepsTrace_append, ExampleApp.setupCalls_diagnostics L env o w h3,
      ExampleApp.iterations_diagnostics]
    simp [diagnostics, stepsTrace, LoopStep.events]

theorem beginIndices_of_frameCalls {Mat : Type} (tr : List (Event Mat)) (n : Nat)
    (h : frameCalls tr = ((List.range n).flatMap fun i =>
      [FrameCall.beginFrame (i + 1), FrameCall.endFrame])) :
    beginIndices tr = (List.range n).map (· + 1) := by
  rw [beginIndices, h, List.filterMap_flatMap]
  simp only [List.filterMap_cons, List.filterMap_nil, FrameCall.index]
  exact flatMap_single_eq_map _ _

theorem GlfwApp.loop_congr_env {Mat D : Type} (v : LoopVirtuals Mat D) (env env' : Env)
    (h : env'.glfwWindowShouldClose = env.glfwWindowShouldClose) :
    ∀ (fuel k : Nat) (o : Obj D), GlfwApp.loop v env' fuel k o = GlfwApp.loop v env fuel k o := by
  intro fuel
  induction fuel with
  | zero => intro k o; rfl
  | succ fuel ih => intro k o; simp only [GlfwApp.loop, h, ih]

/-- The status `main` returns and the calls it makes are the same whatever the compositor
answers to the frames it is handed. -/
theorem main_congr_endFrameAccepted {Mat : Type} [Mul Mat] (L : Lib Mat) (env : Env)
    (fuel : Nat) (accepted : Nat → Bool) :
    main L { env with endFrameAccepted := accepted } fuel = main L env fuel := by
  have hloop := GlfwApp.loop_congr_env (ExampleApp.loopVirtuals L env) env
    { env with endFrameAccepted := accepted } rfl fuel 0
  have hrun : ∀ o, GlfwApp.run (ExampleApp.virtuals L { env with endFrameAccepted := accepted })
      { env with endFrameAccepted := accepted } fuel o
        = GlfwApp.run (ExampleApp.virtuals L env) env fuel o := by
    intro o
    unfold GlfwApp.run
    have hl : (ExampleApp.virtuals L { env with endFrameAccepted := accepted }).toLoopVirtuals
      = ExampleApp.loopVirtuals L env := rfl
    have hl' : (ExampleApp.virtuals L env).toLoopVirtuals = ExampleApp.loopVirtuals L env := rfl
    simp only [hl, hl', hloop]
    rfl
  unfold main
  simp only [hrun]
  rfl

/-- C9, amended: `RiftApp::draw` and `RiftApp::initGl` look at no result of the compositor.
When the compositor rejects the frame of iteration `k` (frame `k + 1`) or the rendering
configuration, in a run whose set-up calls succeed and whose window reports the close
request first at test number `n + 1`, with `k < n < 2^32`, the loop is not aborted: every
frame 1, ..., `n` is begun, those after the rejected one included, nothing is written to
`std::cerr`, and `main` returns 0.  The run is the same, call for call, whatever the
compositor answers to the frames it is handed. -/
theorem main_ignores_compositor_rejection {Mat : Type} [Mul Mat] (L : Lib Mat) (env : Env)
    (n fuel k : Nat) (hsetup : SetupSucceeds env) (hclose : FirstCloseAt env n)
    (hfuel : n < fuel) (hn : n < UINT_RANGE) (_hk : k < n)
    (_hreject : env.endFrameAccepted k = false ∨ env.configureRendering = false) :
    (∃ tr, main L env fuel = some (0, tr) ∧
      beginIndices tr = (List.range n).map (· + 1) ∧ diagnostics tr = []) ∧
    ∀ accepted, main L { env with endFrameAccepted := accepted } fuel = main L env fuel := by
  obtain ⟨tr, hm, hcalls, hdiag⟩ := main_frames_of_setup_ok L env n fuel hsetup hclose hfuel hn
  exact ⟨⟨tr, hm, beginIndices_of_frameCalls tr n hcalls, hdiag⟩,
    main_congr_endFrameAccepted L env fuel⟩

theorem main_ignores_compositor_rejection_witness :
    (∃ tr, main sampleLib (sampleEnv 3 [1]) 4 = some (0, tr) ∧
      beginIndices tr = (List.range 3).map (· + 1) ∧ diagnostics tr = []) ∧
    ∀ accepted, main sampleLib { sampleEnv 3 [1] with endFrameAccepted := accepted } 4
      = main sampleLib (sampleEnv 3 [1]) 4 :=
  main_ignores_compositor_rejection sampleLib (sampleEnv 3 [1]) 3 4 1
    ⟨rfl, rfl, rfl, rfl, rfl⟩ (by unfold FirstCloseAt; decide) (by decide) (by decide)
    (by decide) (Or.inl (by decide))

/-- C9 as stated fails: in the sample world in which the compositor rejects the frame of
iteration 4, which is frame 5, of a run of 10 frames, `main` begins the frames 6 to 10 all
the same, writes no diagnostic and returns 0. -/
theorem main_continues_after_rejected_frame :
    (sampleEnv 10 [4]).endFrameAccepted 4 = false ∧
    ∃ tr, main sampleLib (sampleEnv 10 [4]) 11 = some (0, tr) ∧
      beginIndices tr = [1, 2, 3, 4, 5, 6, 7, 8, 9, 10] ∧ diagnostics tr = [] := by
  refine ⟨by decide, ?_⟩
  obtain ⟨tr, hm, hcalls, hdiag⟩ := main_frames_of_setup_ok sampleLib (sampleEnv 10 [4]) 10 11
    ⟨rfl, rfl, rfl, rfl, rfl⟩ (sampleEnv_firstCloseAt 10 [4]) (by decide) (by decide)
  exact ⟨tr, hm, by rw [beginIndices_of_frameCalls tr 10 hcalls]; rfl, hdiag⟩

/-! ## `CubeScene_RiftSensors` without a tracking sensor -/

theorem submittedPoses_append {Mat : Type} (xs ys : List (Event Mat)) :
    submittedPoses (xs ++ ys) = submittedPoses xs ++ submittedPoses ys := by
  simp [submittedPoses]

theorem CubeScene_RiftSensors.iterations_submittedPoses {Mat : Type} [Mul Mat] (L : Lib Mat)
    (env : Env) :
    ∀ (n k : Nat) (o : Obj (CubeScene_RiftSensors Mat)),
      submittedPoses
          (stepsTrace (GlfwApp.iterations (CubeScene_RiftSensors.loopVirtuals L env) n k o).2)
        = (List.range n).map fun i => env.eyePoses (k + i) := by
  intro n
  induction n with
  | zero => intro k o; rfl
  | succ n ih =>
    intro k o
    rw [GlfwApp.iterations_succ, stepsTrace_cons, stepsTrace_append, submittedPoses_append,
      submittedPoses_append, ih, List.range_succ_eq_map, List.map_cons, List.map_map]
    have hshift : ((fun i => env.eyePoses (k + 1 + i)) : Nat → PerEye ovrPosef)
        = (fun i => env.eyePoses (k + i)) ∘ Nat.succ := by
      funext i
      simp [Nat.add_assoc, Nat.add_comm 1 i]
    rw [hshift]
    simp [GlfwApp.iteration, CubeScene_RiftSensors.loopVirtuals, GlfwApp.update,
      CubeScene_RiftSensors.finishFrame, CubeScene_RiftSensors.draw,
      CubeScene_RiftSensors.renderEye, stepsTrace, LoopStep.events, submittedPoses]

theorem GlfwApp.iterations_steps {Mat D : Type} (v : LoopVirtuals Mat D)
    (inv : Nat → Obj D → Prop) (F : Nat → List (LoopStep Mat))
    (hstep : ∀ k o, inv k o →
      (GlfwApp.iteration v k o).2 = F k ∧ inv (k + 1) (GlfwApp.iteration v k o).1) :
    ∀ (n k : Nat) (o : Obj D), inv k o →
      (GlfwApp.iterations v n k o).2
        = ((List.range n).map fun i => LoopStep.test false :: F (k + i)).flatten := by
  intro n
  induction n with
  | zero => intro k o _; rfl
  | succ n ih =>
    intro k o ho
    rw [GlfwApp.iterations_succ, (hstep k o ho).1, ih (k + 1) _ (hstep k o ho).2,
      List.range_succ_eq_map, List.map_cons, List.map_map, List.flatten_cons]
    have hshift : ((fun i => LoopStep.test false :: F (k + 1 + i)) : Nat → List (LoopStep Mat))
        = (fun i => LoopStep.test false :: F (k + i)) ∘ Nat.succ := by
      funext i
      simp [Nat.add_assoc, Nat.add_comm 1 i]
    rw [hshift]
    simp

theorem FramebufferWrapper.init_names {Mat : Type} (self : FramebufferWrapper) (s : uvec2)
    (gl : GlContext) :
    (@FramebufferWrapper.init Mat self s gl).1.1.fbo = gl.framebuffers + 1 ∧
    (@FramebufferWrapper.init Mat self s gl).1.1.color = gl.textures + 1 ∧
    (@FramebufferWrapper.init Mat self s gl).1.2.framebuffers = gl.framebuffers + 1 ∧
    (@FramebufferWrapper.init Mat self s gl).1.2.textures = gl.textures + 1 ∧
    (@FramebufferWrapper.init Mat self s gl).1.2.colorAttachment
      = (gl.framebuffers + 1, gl.textures + 1) :: gl.colorAttachment := by
  simp only [FramebufferWrapper.init, GlContext.Image2D, GlContext.Storage]
  split_ifs <;> simp

theorem FramebufferWrapper.init_twice_attached {Mat : Type} (s1 s2 : uvec2) (gl : GlContext) :
    (@FramebufferWrapper.init Mat FramebufferWrapper.empty s1 gl).1.1.fbo ≠ 0 ∧
    (@FramebufferWrapper.init Mat FramebufferWrapper.empty s2
      (@FramebufferWrapper.init Mat FramebufferWrapper.empty s1 gl).1.2).1.1.fbo ≠ 0 ∧
    (@FramebufferWrapper.init Mat FramebufferWrapper.empty s2
        (@FramebufferWrapper.init Mat FramebufferWrapper.empty s1 gl).1.2).1.2.colorAttachment.lookup
        (@FramebufferWrapper.init Mat FramebufferWrapper.empty s1 gl).1.1.fbo
      = some (@FramebufferWrapper.init Mat FramebufferWrapper.empty s1 gl).1.1.color ∧
    (@FramebufferWrapper.init Mat FramebufferWrapper.empty s2
        (@FramebufferWrapper.init Mat FramebufferWrapper.empty s1 gl).1.2).1.2.colorAttachment.lookup
        (@FramebufferWrapper.init Mat FramebufferWrapper.empty s2
          (@FramebufferWrapper.init Mat FramebufferWrapper.empty s1 gl).1.2).1.1.fbo
      = some (@FramebufferWrapper.init Mat FramebufferWrapper.empty s2
          (@FramebufferWrapper.init Mat FramebufferWrapper.empty s1 gl).1.2).1.1.color := by
  obtain ⟨a1, a2, a3, a4, a5⟩ := @FramebufferWrapper.init_names Mat FramebufferWrapper.empty s1 gl
  obtain ⟨b1, b2, _, _, b5⟩ := @FramebufferWrapper.init_names Mat FramebufferWrapper.empty s2
    (@FramebufferWrapper.init Mat FramebufferWrapper.empty s1 gl).1.2
  rw [b1, b2, b5, a1, a2, a3, a4, a5]
  simp [List.lookup, beq_succ_self]

theorem CubeScene_RiftSensors.iterations_calls {Mat : Type} [Mul Mat] (L : Lib Mat) (env : Env)
    (g : Obj (CubeScene_RiftSensors Mat)) (n : Nat) (o : Obj (CubeScene_RiftSensors Mat))
    (h : o.self.hmd = g.self.hmd ∧ o.self.frameIndex = ((0 : Nat) : Int) ∧
      o.self.eyeFramebuffers = g.self.eyeFramebuffers ∧ o.self.eyeTextures = g.self.eyeTextures ∧
      o.self.eyeOffsets = g.self.eyeOffsets ∧ o.self.eyeProjections = g.self.eyeProjections ∧
      o.self.glStacks.modelview = g.self.glStacks.modelview) :
    (GlfwApp.iterations (CubeScene_RiftSensors.loopVirtuals L env) n 0 o).2
      = ((List.range n).map fun i : Nat =>
          [LoopStep.test false, LoopStep.pollEvents, LoopStep.update [],
           LoopStep.draw
            [Event.ovrHmd_GetEyePoses (toUnsigned ((i : Int) + 1)) g.self.eyeOffsets (env.eyePoses i),
             Event.ovrHmd_BeginFrame (toUnsigned ((i : Int) + 1)),
             Event.bindDrawFramebuffer (g.self.eyeFramebuffers.get (g.self.hmd.EyeRenderOrder 0)).fbo,
             Event.viewport (g.self.eyeTextures.get (g.self.hmd.EyeRenderOrder 0)).Header.RenderViewport,
             Event.renderScene (g.self.eyeFramebuffers.get (g.self.hmd.EyeRenderOrder 0)).fbo
               (g.self.eyeProjections.get (g.self.hmd.EyeRenderOrder 0))
               (L.preMultiply (L.inverse (toGlm L ((env.eyePoses i).get (g.self.hmd.EyeRenderOrder 0))))
                 g.self.glStacks.modelview.top),
             Event.bindDrawFramebuffer (g.self.eyeFramebuffers.get (g.self.hmd.EyeRenderOrder 1)).fbo,
             Event.viewport (g.self.eyeTextures.get (g.self.hmd.EyeRenderOrder 1)).Header.RenderViewport,
             Event.renderScene (g.self.eyeFramebuffers.get (g.self.hmd.EyeRenderOrder 1)).fbo
               (g.self.eyeProjections.get (g.self.hmd.EyeRenderOrder 1))
               (L.preMultiply (L.inverse (toGlm L ((env.eyePoses i).get (g.self.hmd.EyeRenderOrder 1))))
                 g.self.glStacks.modelview.top),
             Event.bindDrawFramebuffer 0,
             Event.ovrHmd_EndFrame (env.eyePoses i) g.self.eyeTextures],
           LoopStep.finishFrame []]).flatten := by
  have hsteps := GlfwApp.iterations_steps (CubeScene_RiftSensors.loopVirtuals L env)
    (fun k o => o.self.hmd = g.self.hmd ∧ o.self.frameIndex = (k : Int) ∧
      o.self.eyeFramebuffers = g.self.eyeFramebuffers ∧ o.self.eyeTextures = g.self.eyeTextures ∧
      o.self.eyeOffsets = g.self.eyeOffsets ∧ o.self.eyeProjections = g.self.eyeProjections ∧
      o.self.glStacks.modelview = g.self.glStacks.modelview)
    (fun i : Nat =>
          [LoopStep.pollEvents, LoopStep.update [],
           LoopStep.draw
            [Event.ovrHmd_GetEyePoses (toUnsigned ((i : Int) + 1)) g.self.eyeOffsets (env.eyePoses i),
             Event.ovrHmd_BeginFrame (toUnsigned ((i : Int) + 1)),
             Event.bindDrawFramebuffer (g.self.eyeFramebuffers.get (g.self.hmd.EyeRenderOrder 0)).fbo,
             Event.viewport (g.self.eyeTextures.get (g.self.hmd.EyeRenderOrder 0)).Header.RenderViewport,
             Event.renderScene (g.self.eyeFramebuffers.get (g.self.hmd.EyeRenderOrder 0)).fbo
               (g.self.eyeProjections.get (g.self.hmd.EyeRenderOrder 0))
               (L.preMultiply (L.inverse (toGlm L ((env.eyePoses i).get (g.self.hmd.EyeRenderOrder 0))))
                 g.self.glStacks.modelview.top),
             Event.bindDrawFramebuffer (g.self.eyeFramebuffers.get (g.self.hmd.EyeRenderOrder 1)).fbo,
             Event.viewport (g.self.eyeTextures.get (g.self.hmd.EyeRenderOrder 1)).Header.RenderViewport,
             Event.renderScene (g.self.eyeFramebuffers.get (g.self.hmd.EyeRenderOrder 1)).fbo
               (g.self.eyeProjections.get (g.self.hmd.EyeRenderOrder 1))
               (L.preMultiply (L.inverse (toGlm L ((env.eyePoses i).get (g.self.hmd.EyeRenderOrder 1))))
                 g.self.glStacks.modelview.top),
             Event.bindDrawFramebuffer 0,
             Event.ovrHmd_EndFrame (env.eyePoses i) g.self.eyeTextures],
           LoopStep.finishFrame []])
    (by
      intro k o ⟨h1, h2, h3, h4, h5, h6, h7⟩
      refine ⟨?_, h1, ?_, h3, h4, h5, h6, h7⟩
      · simp [GlfwApp.iteration, CubeScene_RiftSensors.loopVirtuals, GlfwApp.update,
          CubeScene_RiftSensors.finishFrame, CubeScene_RiftSensors.draw,
          CubeScene_RiftSensors.renderEye, MatrixStack.push, MatrixStack.preMultiply,
          MatrixStack.pop, h1, h2, h3, h4, h5, h6, h7]
      · show o.self.frameIndex + 1 = ((k + 1 : Nat) : Int)
        rw [h2]
        push_cast
        rfl)
    n 0 o h
  simp only [Nat.zero_add] at hsteps
  exact hsteps

/-- C10: when `ovrHmd_ConfigureTracking` reports that no sensor could be located, the
constructor of `CubeScene_RiftSensors` says a warning and completes normally.  The loop is
the one of `GlfwApp::run` of `Example_SelfContained.cpp`, and `createRenderingTarget`, of
the base class in `Common.h`, is any function that creates the window `w` and leaves the
members of the object alone.  When GLEW initialises, `run` enters the render loop, and with
the close request first reported at test number `n + 1` it returns 0 after exactly `n`
iterations.  In iteration `i` the function `draw` asks the SDK for the poses with frame
index `i + 1`, begins the frame, and for each eye in the order of the headset binds the
framebuffer of the eye, sets the viewport of its texture and renders the scene with the
projection of the eye and the modelview `preMultiply(inverse(pose), lookAt)` of the pose
the SDK reported for this eye in this iteration; then it binds the default framebuffer and
ends the frame with these poses and the eye textures.  The members are the ones `initGl`
set: framebuffers that are not the default one, textures that name the colour texture
attached to them and cover the size the SDK recommends, the eye offsets of the SDK and the
projection between 0.01 and 100. -/
theorem CubeScene_RiftSensors.runs_without_tracking {Mat : Type} [Mul Mat] (L : Lib Mat)
    (env : Env) (glfw : GlfwApp) (hmd : ovrHmdDesc) (glStacks : Stacks Mat)
    (createRenderingTarget :
      Obj (ConstructedCubeScene Mat) → Step Mat (Obj (ConstructedCubeScene Mat) × Option Nat))
    (n fuel w : Nat) (htrack : env.ovrHmd_ConfigureTracking = false)
    (hcreate : ∀ o, ∃ glfw1,
      (createRenderingTarget o).result = Except.ok ({ glfw := glfw1, self := o.self }, some w))
    (hglew : env.glewInit = 0) (hclose : FirstCloseAt env n) (hfuel : n < fuel) :
    (CubeScene_RiftSensors.new L env glfw hmd glStacks).events
      = [Event.ovrHmd_ConfigureTracking false,
         Event.say ("Warning: Unable to locate Rift sensor device.  This demo is boring now.")] ∧
    ∃ o g x, (CubeScene_RiftSensors.new L env glfw hmd glStacks).result = Except.ok o ∧
      g = (CubeScene_RiftSensors.initGl L env o).1 ∧
      GlfwApp.run (CubeScene_RiftSensors.virtuals L env createRenderingTarget) env fuel o
        = some x ∧
      x.completion = Completion.returned 0 ∧
      x.steps
        = ((List.range n).map fun i : Nat =>
            [LoopStep.test false, LoopStep.pollEvents, LoopStep.update [],
             LoopStep.draw
              [Event.ovrHmd_GetEyePoses (toUnsigned ((i : Int) + 1)) g.self.eyeOffsets (env.eyePoses i),
               Event.ovrHmd_BeginFrame (toUnsigned ((i : Int) + 1)),
               Event.bindDrawFramebuffer (g.self.eyeFramebuffers.get (hmd.EyeRenderOrder 0)).fbo,
               Event.viewport (g.self.eyeTextures.get (hmd.EyeRenderOrder 0)).Header.RenderViewport,
               Event.renderScene (g.self.eyeFramebuffers.get (hmd.EyeRenderOrder 0)).fbo
                 (g.self.eyeProjections.get (hmd.EyeRenderOrder 0))
                 (L.preMultiply (L.inverse (toGlm L ((env.eyePoses i).get (hmd.EyeRenderOrder 0))))
                   g.self.glStacks.modelview.top),
               Event.bindDrawFramebuffer (g.self.eyeFramebuffers.get (hmd.EyeRenderOrder 1)).fbo,
               Event.viewport (g.self.eyeTextures.get (hmd.EyeRenderOrder 1)).Header.RenderViewport,
               Event.renderScene (g.self.eyeFramebuffers.get (hmd.EyeRenderOrder 1)).fbo
                 (g.self.eyeProjections.get (hmd.EyeRenderOrder 1))
                 (L.preMultiply (L.inverse (toGlm L ((env.eyePoses i).get (hmd.EyeRenderOrder 1))))
                   g.self.glStacks.modelview.top),
               Event.bindDrawFramebuffer 0,
               Event.ovrHmd_EndFrame (env.eyePoses i) g.self.eyeTextures],
             LoopStep.finishFrame []]).flatten ++ [LoopStep.test true] ∧
      submittedPoses (stepsTrace x.steps) = (List.range n).map env.eyePoses ∧
      g.self.glStacks.modelview.top
        = L.lookAt { x := 0, y := OVR_DEFAULT_EYE_HEIGHT, z := 5 * OVR_DEFAULT_IPD }
            { x := 0, y := OVR_DEFAULT_EYE_HEIGHT, z := 0 } { x := 0, y := 1, z := 0 } ∧
      g.self.eyeOffsets
        = { left := env.eyeRenderDescs.left.HmdToEyeViewOffset,
            right := env.eyeRenderDescs.right.HmdToEyeViewOffset } ∧
      ∀ eye,
        (g.self.eyeFramebuffers.get eye).fbo ≠ 0 ∧
        g.self.gl.colorOf (g.self.eyeFramebuffers.get eye).fbo
          = some (g.self.eyeTextures.get eye).TexId ∧
        (g.self.eyeTextures.get eye).Header.RenderViewport
          = { Pos := { x := 0, y := 0 },
              Size := env.ovrHmd_GetFovTextureSize eye (hmd.DefaultEyeFov.get eye) } ∧
        g.self.eyeProjections.get eye
          = toGlmMatrix L (L.ovrMatrix4f_Projection (hmd.DefaultEyeFov.get eye) (1 / 100) 100 true) := by
  constructor
  · simp [CubeScene_RiftSensors.new, htrack]
  · obtain ⟨glfw1, ho1⟩ := hcreate
      { glfw := glfw,
        self := { hmd := hmd,
                  glStacks := { glStacks with
                    modelview := { glStacks.modelview with
                      top := L.lookAt
                        { x := 0, y := OVR_DEFAULT_EYE_HEIGHT, z := 5 * OVR_DEFAULT_IPD }
                        { x := 0, y := OVR_DEFAULT_EYE_HEIGHT, z := 0 }
                        { x := 0, y := 1, z := 0 } } } } }
    have hl : (CubeScene_RiftSensors.virtuals L env createRenderingTarget).toLoopVirtuals
        = CubeScene_RiftSensors.loopVirtuals L env := rfl
    refine ⟨_, _, _, rfl, rfl,
      GlfwApp.run_eq_of_window (CubeScene_RiftSensors.virtuals L env createRenderingTarget) env
        n fuel _ _ w ho1 hglew hclose hfuel, rfl, ?_, ?_, rfl, rfl, ?_⟩
    · exact congrArg (fun l => l ++ [LoopStep.test true])
        (CubeScene_RiftSensors.iterations_calls L env _ n _ ⟨rfl, rfl, rfl, rfl, rfl, rfl, rfl⟩)
    · simp only [hl]
      rw [stepsTrace_append, submittedPoses_append,
        CubeScene_RiftSensors.iterations_submittedPoses]
      simp [stepsTrace, LoopStep.events, submittedPoses]
    · intro eye
      have h := @FramebufferWrapper.init_twice_attached Mat
        (toGlmSize (env.ovrHmd_GetFovTextureSize .ovrEye_Left
          (hmd.DefaultEyeFov.get .ovrEye_Left)))
        (toGlmSize (env.ovrHmd_GetFovTextureSize .ovrEye_Right
          (hmd.DefaultEyeFov.get .ovrEye_Right))) env.contextAfterConfigureRendering
      cases eye
      · exact ⟨h.1, h.2.2.1, rfl, rfl⟩
      · exact ⟨h.2.1, h.2.2.2, rfl, rfl⟩

theorem CubeScene_RiftSensors.runs_without_tracking_witness :
    (CubeScene_RiftSensors.new sampleLib sampleUntracked sampleCubeConstructed.glfw sampleHmd sampleStacks).events
      = [Event.ovrHmd_ConfigureTracking false,
         Event.say ("Warning: Unable to locate Rift sensor device.  This demo is boring now.")] ∧
    ∃ o g x, (CubeScene_RiftSensors.new sampleLib sampleUntracked sampleCubeConstructed.glfw sampleHmd sampleStacks).result = Except.ok o ∧
      g = (CubeScene_RiftSensors.initGl sampleLib sampleUntracked o).1 ∧
      GlfwApp.run (CubeScene_RiftSensors.virtuals sampleLib sampleUntracked sampleCreateRenderingTarget) sampleUntracked 3 o
        = some x ∧
      x.completion = Completion.returned 0 ∧
      x.steps
        = ((List.range 2).map fun i : Nat =>
            [LoopStep.test false, LoopStep.pollEvents, LoopStep.update [],
             LoopStep.draw
              [Event.ovrHmd_GetEyePoses (toUnsigned ((i : Int) + 1)) g.self.eyeOffsets (sampleUntracked.eyePoses i),
               Event.ovrHmd_BeginFrame (toUnsigned ((i : Int) + 1)),
               Event.bindDrawFramebuffer (g.self.eyeFramebuffers.get (sampleHmd.EyeRenderOrder 0)).fbo,
               Event.viewport (g.self.eyeTextures.get (sampleHmd.EyeRenderOrder 0)).Header.RenderViewport,
               Event.renderScene (g.self.eyeFramebuffers.get (sampleHmd.EyeRenderOrder 0)).fbo
                 (g.self.eyeProjections.get (sampleHmd.EyeRenderOrder 0))
                 (sampleLib.preMultiply (sampleLib.inverse (toGlm sampleLib ((sampleUntracked.eyePoses i).get (sampleHmd.EyeRenderOrder 0))))
                   g.self.glStacks.modelview.top),
               Event.bindDrawFramebuffer (g.self.eyeFramebuffers.get (sampleHmd.EyeRenderOrder 1)).fbo,
               Event.viewport (g.self.eyeTextures.get (sampleHmd.EyeRenderOrder 1)).Header.RenderViewport,
               Event.renderScene (g.self.eyeFramebuffers.get (sampleHmd.EyeRenderOrder 1)).fbo
                 (g.self.eyeProjections.get (sampleHmd.EyeRenderOrder 1))
                 (sampleLib.preMultiply (sampleLib.inverse (toGlm sampleLib ((sampleUntracked.eyePoses i).get (sampleHmd.EyeRenderOrder 1))))
                   g.self.glStacks.modelview.top),
               Event.bindDrawFramebuffer 0,
               Event.ovrHmd_EndFrame (sampleUntracked.eyePoses i) g.self.eyeTextures],
             LoopStep.finishFrame []]).flatten ++ [LoopStep.test true] ∧
      submittedPoses (stepsTrace x.steps) = (List.range 2).map sampleUntracked.eyePoses ∧
      g.self.glStacks.modelview.top
        = sampleLib.lookAt { x := 0, y := OVR_DEFAULT_EYE_HEIGHT, z := 5 * OVR_DEFAULT_IPD }
            { x := 0, y := OVR_DEFAULT_EYE_HEIGHT, z := 0 } { x := 0, y := 1, z := 0 } ∧
      g.self.eyeOffsets
        = { left := sampleUntracked.eyeRenderDescs.left.HmdToEyeViewOffset,
            right := sampleUntracked.eyeRenderDescs.right.HmdToEyeViewOffset } ∧
      ∀ eye,
        (g.self.eyeFramebuffers.get eye).fbo ≠ 0 ∧
        g.self.gl.colorOf (g.self.eyeFramebuffers.get eye).fbo
          = some (g.self.eyeTextures.get eye).TexId ∧
        (g.self.eyeTextures.get eye).Header.RenderViewport
          = { Pos := { x := 0, y := 0 },
              Size := sampleUntracked.ovrHmd_GetFovTextureSize eye (sampleHmd.DefaultEyeFov.get eye) } ∧
        g.self.eyeProjections.get eye
          = toGlmMatrix sampleLib (sampleLib.ovrMatrix4f_Projection (sampleHmd.DefaultEyeFov.get eye) (1 / 100) 100 true) :=
  CubeScene_RiftSensors.runs_without_tracking sampleLib sampleUntracked
    sampleCubeConstructed.glfw sampleHmd sampleStacks sampleCreateRenderingTarget 2 3 1 rfl
    (fun o => ⟨o.glfw, rfl⟩) rfl (by unfold FirstCloseAt; decide) (by decide)

/-! ## Tracking that cannot be attached, and a headset that is absent -/

/-- C11, amended: in the self-contained example a tracking subsystem that cannot be attached
is a hard failure.  When `ovrHmd_ConfigureTracking` reports failure, the constructor of
`RiftApp` throws "Could not attach to sensor device"; `main` then writes this message to
`std::cerr`, shuts the SDK down and returns -1, without ever creating the window or
entering the render loop. -/
theorem main_fails_without_tracking {Mat : Type} [Mul Mat] (L : Lib Mat) (env : Env)
    (fuel : Nat) (hmd : ovrHmdDesc) (h0 : env.ovr_Initialize = true)
    (h1 : env.glfwInit = true) (h : env.ovrHmd_ConfigureTracking = false) :
    (@RiftApp.new Mat env hmd).result = Except.error ("Could not attach to sensor device") ∧
    main L env fuel
      = some (-1, [Event.ovr_Initialize true, Event.glfwInit true]
                  ++ (@RiftManagerApp.new Mat env).2
                  ++ [Event.ovrHmd_ConfigureTracking false]
                  ++ [Event.cerr ("Could not attach to sensor device"), Event.ovr_Shutdown]) ∧
    frameCalls ([Event.ovr_Initialize true, Event.glfwInit true]
                  ++ (@RiftManagerApp.new Mat env).2
                  ++ [Event.ovrHmd_ConfigureTracking false]) = [] := by
  refine ⟨by simp [RiftApp.new, FAIL, h], main_eq_of_tracking_fails L env fuel h0 h1 h, ?_⟩
  simp only [frameCalls_append, RiftManagerApp.new_frameCalls]
  rfl

theorem main_fails_without_tracking_witness :
    (@RiftApp.new Int { sampleEnv 2 [] with ovrHmd_ConfigureTracking := false } sampleHmd).result
      = Except.error ("Could not attach to sensor device") ∧
    main sampleLib { sampleEnv 2 [] with ovrHmd_ConfigureTracking := false } 3
      = some (-1, [Event.ovr_Initialize true, Event.glfwInit true]
                  ++ (@RiftManagerApp.new Int
                        { sampleEnv 2 [] with ovrHmd_ConfigureTracking := false }).2
                  ++ [Event.ovrHmd_ConfigureTracking false]
                  ++ [Event.cerr ("Could not attach to sensor device"), Event.ovr_Shutdown]) ∧
    frameCalls ([Event.ovr_Initialize true, Event.glfwInit true]
                  ++ (@RiftManagerApp.new Int
                        { sampleEnv 2 [] with ovrHmd_ConfigureTracking := false }).2
                  ++ [Event.ovrHmd_ConfigureTracking false]) = [] :=
  main_fails_without_tracking sampleLib { sampleEnv 2 [] with ovrHmd_ConfigureTracking := false }
    3 sampleHmd rfl rfl rfl

/-- C11 as stated fails: in the sample world in which only `ovrHmd_ConfigureTracking`
fails, `main` makes six calls, none of them for a window or a frame, and returns -1. -/
theorem main_tracking_failure_is_fatal :
    main sampleLib { sampleEnv 2 [] with ovrHmd_ConfigureTracking := false } 3
      = some (-1, [Event.ovr_Initialize true, Event.glfwInit true, Event.ovrHmd_Create true,
                   Event.ovrHmd_ConfigureTracking false,
                   Event.cerr ("Could not attach to sensor device"), Event.ovr_Shutdown]) := by
  rfl

/-- When every set-up call succeeds and the close request comes first at test number
`n + 1`, the calls of `main` are those of the set-up, those of `n` iterations, the test that
sees the request, and `ovr_Shutdown`. -/
theorem main_trace_of_setup_ok {Mat : Type} [Mul Mat] (L : Lib Mat) (env : Env)
    (n fuel : Nat) (hsetup : SetupSucceeds env) (hclose : FirstCloseAt env n) (hfuel : n < fuel) :
    ∃ (o : Obj (ConstructedApp Mat)) (w : Nat), o.glfw.frame = 0 ∧
      env.glfwCreateWindow = some w ∧
      main L env fuel
        = some (0, ExampleApp.setupCalls L env o w
            ++ stepsTrace ((GlfwApp.iterations (ExampleApp.loopVirtuals L env) n 0
                (ExampleApp.initGl L env (RiftGlfwApp.withWindow env o w)).1).2
              ++ [LoopStep.test true])
            ++ [Event.ovr_Shutdown]) := by
  obtain ⟨h0, h1, h2, h3, h4⟩ := hsetup
  obtain ⟨w, h3⟩ := Option.isSome_iff_exists.mp h3
  obtain ⟨o, hframe, hm⟩ := main_eq_of_setup_ok L env fuel w h0 h1 h2 h3 h4
  have hloop := GlfwApp.loop_eq_iterations (ExampleApp.loopVirtuals L env) env n fuel 0
    (ExampleApp.initGl L env (RiftGlfwApp.withWindow env o w)).1
    (fun i hi => by simpa using hclose.1 i hi) (by simpa using hclose.2) hfuel
  rw [hloop] at hm
  exact ⟨o, w, hframe, h3, hm⟩

/-- C12, amended: when `ovrHmd_Create(0)` returns null, set-up does not fail: the
constructors of `RiftManagerApp` and of `HelloRift` call `ovrHmd_CreateDebug` and go on with
the debug headset in the place of the absent one.  In the self-contained example, when the
other set-up calls succeed, nothing is written to `std::cerr`, the render loop runs (with
the close request first reported at test number `n + 1`, `n < 2^32`, the `n` frames are
begun and ended), and `main` returns 0. -/
theorem absent_headset_falls_back_to_debug {Mat : Type} [Mul Mat] (L : Lib Mat) (env : Env)
    (n fuel : Nat) (glfw : GlfwApp) (habsent : env.ovrHmd_Create = none)
    (hsetup : SetupSucceeds env) (hclose : FirstCloseAt env n) (hfuel : n < fuel)
    (hn : n < UINT_RANGE) :
    ((@RiftManagerApp.new Mat env).2 = [Event.ovrHmd_Create false, Event.ovrHmd_CreateDebug] ∧
      (@RiftManagerApp.new Mat env).1.1 = env.ovrHmd_CreateDebug) ∧
    ((HelloRift.new L env glfw).2
        = [Event.ovr_Initialize env.ovr_Initialize, Event.ovrHmd_Create false,
           Event.ovrHmd_CreateDebug,
           Event.ovrHmd_ConfigureTracking env.ovrHmd_ConfigureTracking,
           Event.ovrHmd_RecenterPose] ∧
      (HelloRift.new L env glfw).1.self.hmd = env.ovrHmd_CreateDebug) ∧
    ∃ tr, main L env fuel = some (0, tr) ∧ Event.ovrHmd_CreateDebug ∈ tr ∧
      frameCalls tr = ((List.range n).flatMap fun i =>
        [FrameCall.beginFrame (i + 1), FrameCall.endFrame]) ∧
      diagnostics tr = [] := by
  refine ⟨⟨by simp [RiftManagerApp.new, habsent], by simp [RiftManagerApp.new, habsent]⟩,
    ⟨by simp [HelloRift.new, habsent], by simp [HelloRift.new, habsent]⟩, ?_⟩
  obtain ⟨tr, hm, hcalls, hdiag⟩ := main_frames_of_setup_ok L env n fuel hsetup hclose hfuel hn
  refine ⟨tr, hm, ?_, hcalls, hdiag⟩
  obtain ⟨o, w, -, -, hm'⟩ := main_trace_of_setup_ok L env n fuel hsetup hclose hfuel
  rw [hm] at hm'
  have htr : tr = _ := (Prod.mk.inj (Option.some.inj hm')).2
  rw [htr]
  simp [ExampleApp.setupCalls, RiftManagerApp.new, habsent]

theorem absent_headset_falls_back_to_debug_witness :
    ((@RiftManagerApp.new Int { sampleEnv 2 [] with ovrHmd_Create := none }).2
        = [Event.ovrHmd_Create false, Event.ovrHmd_CreateDebug] ∧
      (@RiftManagerApp.new Int { sampleEnv 2 [] with ovrHmd_Create := none }).1.1
        = ({ sampleEnv 2 [] with ovrHmd_Create := none } : Env).ovrHmd_CreateDebug) ∧
    ((HelloRift.new sampleLib { sampleEnv 2 [] with ovrHmd_Create := none } sampleApp.glfw).2
        = [Event.ovr_Initialize ({ sampleEnv 2 [] with ovrHmd_Create := none } : Env).ovr_Initialize,
           Event.ovrHmd_Create false, Event.ovrHmd_CreateDebug,
           Event.ovrHmd_ConfigureTracking
             ({ sampleEnv 2 [] with ovrHmd_Create := none } : Env).ovrHmd_ConfigureTracking,
           Event.ovrHmd_RecenterPose] ∧
      (HelloRift.new sampleLib { sampleEnv 2 [] with ovrHmd_Create := none }
          sampleApp.glfw).1.self.hmd
        = ({ sampleEnv 2 [] with ovrHmd_Create := none } : Env).ovrHmd_CreateDebug) ∧
    ∃ tr, main sampleLib { sampleEnv 2 [] with ovrHmd_Create := none } 3 = some (0, tr) ∧
      Event.ovrHmd_CreateDebug ∈ tr ∧
      frameCalls tr = ((List.range 2).flatMap fun i =>
        [FrameCall.beginFrame (i + 1), FrameCall.endFrame]) ∧
      diagnostics tr = [] :=
  absent_headset_falls_back_to_debug sampleLib { sampleEnv 2 [] with ovrHmd_Create := none } 2 3
    sampleApp.glfw rfl ⟨rfl, rfl, rfl, rfl, rfl⟩ (by unfold FirstCloseAt; decide) (by decide)
    (by decide)

/-- C12 as stated fails: in the sample world in which no headset is detected, `main` begins
the frames 1 and 2 of a run of two frames, writes no diagnostic and returns 0. -/
theorem main_runs_without_headset :
    ({ sampleEnv 2 [] with ovrHmd_Create := none } : Env).ovrHmd_Create = none ∧
    ∃ tr, main sampleLib { sampleEnv 2 [] with ovrHmd_Create := none } 3 = some (0, tr) ∧
      beginIndices tr = [1, 2] ∧ diagnostics tr = [] := by
  refine ⟨rfl, ?_⟩
  obtain ⟨tr, hm, hcalls, hdiag⟩ := main_frames_of_setup_ok sampleLib
    { sampleEnv 2 [] with ovrHmd_Create := none } 2 3 ⟨rfl, rfl, rfl, rfl, rfl⟩
    (by unfold FirstCloseAt; decide) (by decide) (by decide)
  exact ⟨tr, hm, by rw [beginIndices_of_frameCalls tr 2 hcalls]; rfl, hdiag⟩

/-! ## What stays as `initGl` set it -/

/-- At the start of every iteration the members that `initGl` set, and the storage of the
textures and renderbuffers in the OpenGL context, are as `initGl` left them. -/
theorem ExampleApp.atIteration_fields {Mat : Type} [Mul Mat] (L : Lib Mat) (env : Env)
    (c : Obj (ConstructedApp Mat)) (k : Nat) :
    (ExampleApp.atIteration L env c k).self.projections
        = (ExampleApp.initGl L env c).1.self.projections ∧
    (ExampleApp.atIteration L env c k).self.eyeOffsets
        = (ExampleApp.initGl L env c).1.self.eyeOffsets ∧
    (ExampleApp.atIteration L env c k).self.eyeTextures
        = (ExampleApp.initGl L env c).1.self.eyeTextures ∧
    (ExampleApp.atIteration L env c k).self.eyeFbos
        = (ExampleApp.initGl L env c).1.self.eyeFbos ∧
    (ExampleApp.atIteration L env c k).self.gl.texImage
        = (ExampleApp.initGl L env c).1.self.gl.texImage ∧
    (ExampleApp.atIteration L env c k).self.gl.renderbufferStorage
        = (ExampleApp.initGl L env c).1.self.gl.renderbufferStorage ∧
    (ExampleApp.atIteration L env c k).self.modelview
        = (ExampleApp.initGl L env c).1.self.modelview ∧
    (ExampleApp.atIteration L env c k).self.ipd = (ExampleApp.initGl L env c).1.self.ipd :=
  GlfwApp.iterations_invariant (ExampleApp.loopVirtuals L env)
    (fun o => o.self.projections = (ExampleApp.initGl L env c).1.self.projections ∧
      o.self.eyeOffsets = (ExampleApp.initGl L env c).1.self.eyeOffsets ∧
      o.self.eyeTextures = (ExampleApp.initGl L env c).1.self.eyeTextures ∧
      o.self.eyeFbos = (ExampleApp.initGl L env c).1.self.eyeFbos ∧
      o.self.gl.texImage = (ExampleApp.initGl L env c).1.self.gl.texImage ∧
      o.self.gl.renderbufferStorage = (ExampleApp.initGl L env c).1.self.gl.renderbufferStorage ∧
      o.self.modelview = (ExampleApp.initGl L env c).1.self.modelview ∧
      o.self.ipd = (ExampleApp.initGl L env c).1.self.ipd)
    (fun _ _ h => h) k 0 (ExampleApp.initGl L env c).1
    ⟨rfl, rfl, rfl, rfl, rfl, rfl, rfl, rfl⟩

/-- C17: `RiftApp::draw` changes, of the members of the object, only `eyePoses` (to the poses
the SDK wrote) and `currentEye` (left at the eye rendered last), and of the OpenGL context
only the framebuffer bound for drawing and the viewport; so `projections`, `eyeOffsets`,
`eyeTextures` and `eyeFbos` are after `draw` what they were before, and at the start of
every iteration `k` of the loop they are exactly as `initGl` set them. -/
theorem RiftApp.draw_reads_eye_geometry_only {Mat : Type} [Mul Mat] (L : Lib Mat) (env : Env)
    (p : PerEye ovrPosef) (o : Obj (RiftApp Mat)) (c : Obj (ConstructedApp Mat)) (k : Nat) :
    (RiftApp.draw L p o).1
      = { o with
          self := { o.self with
                    eyePoses := p,
                    currentEye := some (o.self.hmd.EyeRenderOrder 1),
                    gl := { o.self.gl with
                            drawFramebuffer := 0,
                            viewport := (o.self.eyeTextures.get
                              (o.self.hmd.EyeRenderOrder 1)).Header.RenderViewport } } } ∧
    ((RiftApp.draw L p o).1.self.projections = o.self.projections ∧
      (RiftApp.draw L p o).1.self.eyeOffsets = o.self.eyeOffsets ∧
      (RiftApp.draw L p o).1.self.eyeTextures = o.self.eyeTextures ∧
      (RiftApp.draw L p o).1.self.eyeFbos = o.self.eyeFbos) ∧
    ((ExampleApp.atIteration L env c k).self.projections
        = (RiftApp.initGl L env c).1.self.projections ∧
      (ExampleApp.atIteration L env c k).self.eyeOffsets
        = (RiftApp.initGl L env c).1.self.eyeOffsets ∧
      (ExampleApp.atIteration L env c k).self.eyeTextures
        = (RiftApp.initGl L env c).1.self.eyeTextures ∧
      (ExampleApp.atIteration L env c k).self.eyeFbos
        = (RiftApp.initGl L env c).1.self.eyeFbos) := by
  obtain ⟨h1, h2, h3, h4, -⟩ := ExampleApp.atIteration_fields L env c k
  exact ⟨rfl, ⟨rfl, rfl, rfl, rfl⟩, h1, h2, h3, h4⟩

/-! ## The viewport of an eye and the size of its render target -/

/-- The constructor of `RiftApp` leaves in `eyeTextures` the headers it filled in for the
headset of the object. -/
theorem ExampleApp.new_eyeTextures {Mat : Type} (L : Lib Mat) (env : Env)
    (o : Obj (ConstructedApp Mat)) (hnew : (ExampleApp.new L env).result = Except.ok o) :
    o.self.eyeTextures
      = { left := RiftApp.newEyeTexture env o.self.hmd .ovrEye_Left ovrTexture.zero,
          right := RiftApp.newEyeTexture env o.self.hmd .ovrEye_Right ovrTexture.zero } := by
  by_cases h1 : env.glfwInit = true
  · by_cases h2 : env.ovrHmd_ConfigureTracking = true
    · simp [ExampleApp.new, GlfwApp.new, RiftApp.new, h1, h2] at hnew
      subst hnew
      rfl
    · simp [ExampleApp.new, GlfwApp.new, RiftApp.new, FAIL, h1, h2] at hnew
  · simp [ExampleApp.new, GlfwApp.new, FAIL, h1] at hnew

/-- What `initGl` makes of the eye texture of an eye: the header is the one it found, and
the colour texture and the depth renderbuffer of the `FboWrapper` of the eye have got the
size `toGlm(TextureSize)`. -/
theorem RiftApp.initGl_sizes {Mat : Type} (L : Lib Mat) (env : Env)
    (c : Obj (ConstructedApp Mat)) (eye : ovrEyeType) :
    ((RiftApp.initGl L env c).1.self.eyeTextures.get eye).Header
        = (c.self.eyeTextures.get eye).Header ∧
    (RiftApp.initGl L env c).1.self.gl.texImage.lookup
        ((RiftApp.initGl L env c).1.self.eyeFbos.get eye).color
      = some (toGlmSize (c.self.eyeTextures.get eye).Header.TextureSize) ∧
    (RiftApp.initGl L env c).1.self.gl.renderbufferStorage.lookup
        ((RiftApp.initGl L env c).1.self.eyeFbos.get eye).depth
      = some (toGlmSize (c.self.eyeTextures.get eye).Header.TextureSize) := by
  cases eye <;>
    simp [RiftApp.initGl, RiftApp.initEye, FboWrapper.new, FboWrapper.init,
      PerEye.get, List.lookup, beq_succ_self]

/-- For an `int` that is not negative the conversion to `unsigned int` keeps the value. -/
theorem toUnsigned_of_nonneg (i : Int) (h0 : 0 ≤ i) (h1 : i < 2 ^ 31) :
    (toUnsigned i : Int) = i := by
  unfold toUnsigned UINT_RANGE
  have h : i % ((2 ^ 32 : Nat) : Int) = i := Int.emod_eq_of_lt h0 (by norm_num; omega)
  rw [h]
  exact Int.toNat_of_nonneg h0

/-- C16: in an `ExampleApp` that its constructors built, whose SDK reports texture sizes
that are not negative, at every iteration `k` of the loop and for each eye: the viewport
`draw` sets between binding the framebuffer of the eye and calling the scene renderer is
`eyeTextures[eye].Header.RenderViewport`; its origin is (0, 0) and its size is the
`TextureSize` of the header; and the colour texture and the depth renderbuffer of
`eyeFbos[eye]` have, in the OpenGL context, exactly this width and height. -/
theorem RiftApp.viewport_covers_the_eye_target {Mat : Type} [Mul Mat] (L : Lib Mat)
    (env : Env) (o : Obj (ConstructedApp Mat)) (w k : Nat)
    (hnew : (ExampleApp.new L env).result = Except.ok o)
    (hsize : ∀ eye fov, (0 ≤ (env.ovrHmd_GetFovTextureSize eye fov).w ∧
        (env.ovrHmd_GetFovTextureSize eye fov).w < 2 ^ 31) ∧
      (0 ≤ (env.ovrHmd_GetFovTextureSize eye fov).h ∧
        (env.ovrHmd_GetFovTextureSize eye fov).h < 2 ^ 31)) :
    (GlfwApp.iteration (ExampleApp.loopVirtuals L env) k
        (ExampleApp.atIteration L env (RiftGlfwApp.withWindow env o w) k)).2
      = [LoopStep.pollEvents,
         LoopStep.update [],
         LoopStep.draw
           ([Event.ovrHmd_GetEyePoses
               (((ExampleApp.atIteration L env (RiftGlfwApp.withWindow env o w) k).glfw.frame
                 + 1) % UINT_RANGE)
               (ExampleApp.atIteration L env (RiftGlfwApp.withWindow env o w) k).self.eyeOffsets
               (env.eyePoses k),
             Event.ovrHmd_BeginFrame
               (((ExampleApp.atIteration L env (RiftGlfwApp.withWindow env o w) k).glfw.frame
                 + 1) % UINT_RANGE)]
            ++ RiftApp.eyePass L (ExampleApp.atIteration L env (RiftGlfwApp.withWindow env o w) k)
                (env.eyePoses k)
                ((ExampleApp.atIteration L env (RiftGlfwApp.withWindow env o w)
                  k).self.hmd.EyeRenderOrder 0)
            ++ RiftApp.eyePass L (ExampleApp.atIteration L env (RiftGlfwApp.withWindow env o w) k)
                (env.eyePoses k)
                ((ExampleApp.atIteration L env (RiftGlfwApp.withWindow env o w)
                  k).self.hmd.EyeRenderOrder 1)
            ++ [Event.bindDrawFramebuffer 0,
                Event.ovrHmd_EndFrame (env.eyePoses k)
                  (ExampleApp.atIteration L env (RiftGlfwApp.withWindow env o w)
                    k).self.eyeTextures]),
         LoopStep.finishFrame []] ∧
    ∀ eye,
      ((ExampleApp.atIteration L env (RiftGlfwApp.withWindow env o w) k).self.eyeTextures.get
          eye).Header.RenderViewport
        = { Pos := { x := 0, y := 0 },
            Size := ((ExampleApp.atIteration L env (RiftGlfwApp.withWindow env o w)
              k).self.eyeTextures.get eye).Header.TextureSize } ∧
      ∃ size : uvec2,
        (ExampleApp.atIteration L env (RiftGlfwApp.withWindow env o w) k).self.gl.texImage.lookup
            ((ExampleApp.atIteration L env (RiftGlfwApp.withWindow env o w) k).self.eyeFbos.get
              eye).color = some size ∧
        (ExampleApp.atIteration L env (RiftGlfwApp.withWindow env o w)
            k).self.gl.renderbufferStorage.lookup
            ((ExampleApp.atIteration L env (RiftGlfwApp.withWindow env o w) k).self.eyeFbos.get
              eye).depth = some size ∧
        (size.x : Int)
          = ((ExampleApp.atIteration L env (RiftGlfwApp.withWindow env o w)
              k).self.eyeTextures.get eye).Header.RenderViewport.Size.w ∧
        (size.y : Int)
          = ((ExampleApp.atIteration L env (RiftGlfwApp.withWindow env o w)
              k).self.eyeTextures.get eye).Header.RenderViewport.Size.h := by
  constructor
  · simp [GlfwApp.iteration, ExampleApp.loopVirtuals, GlfwApp.update, RiftApp.finishFrame,
      RiftApp.draw, RiftApp.renderEye, RiftApp.eyePass]
  · intro eye
    obtain ⟨-, -, ht, hf, hi, hr, -⟩ :=
      ExampleApp.atIteration_fields L env (RiftGlfwApp.withWindow env o w) k
    obtain ⟨hh, hc, hd⟩ := RiftApp.initGl_sizes L env (RiftGlfwApp.withWindow env o w) eye
    have hi0 : (ExampleApp.initGl L env (RiftGlfwApp.withWindow env o w)).1
        = (RiftApp.initGl L env (RiftGlfwApp.withWindow env o w)).1 := rfl
    have hw : (RiftGlfwApp.withWindow env o w).self.eyeTextures = o.self.eyeTextures := rfl
    rw [ht, hf, hi, hr, hi0, hh, hc, hd, hw, ExampleApp.new_eyeTextures L env o hnew]
    have hs := hsize eye (o.self.hmd.MaxEyeFov.get eye)
    refine ⟨?_, _, rfl, rfl, ?_, ?_⟩
    · cases eye <;> rfl
    · cases eye <;> exact toUnsigned_of_nonneg _ hs.1.1 hs.1.2
    · cases eye <;> exact toUnsigned_of_nonneg _ hs.2.1 hs.2.2

theorem RiftApp.viewport_covers_the_eye_target_witness :
    (GlfwApp.iteration (ExampleApp.loopVirtuals sampleLib (sampleEnv 2 [])) 1
        (ExampleApp.atIteration sampleLib (sampleEnv 2 [])
          (RiftGlfwApp.withWindow (sampleEnv 2 []) sampleApp 1) 1)).2
      = [LoopStep.pollEvents,
         LoopStep.update [],
         LoopStep.draw
           ([Event.ovrHmd_GetEyePoses
               (((ExampleApp.atIteration sampleLib (sampleEnv 2 [])
                  (RiftGlfwApp.withWindow (sampleEnv 2 []) sampleApp 1) 1).glfw.frame
                 + 1) % UINT_RANGE)
               (ExampleApp.atIteration sampleLib (sampleEnv 2 [])
                 (RiftGlfwApp.withWindow (sampleEnv 2 []) sampleApp 1) 1).self.eyeOffsets
               ((sampleEnv 2 []).eyePoses 1),
             Event.ovrHmd_BeginFrame
               (((ExampleApp.atIteration sampleLib (sampleEnv 2 [])
                  (RiftGlfwApp.withWindow (sampleEnv 2 []) sampleApp 1) 1).glfw.frame
                 + 1) % UINT_RANGE)]
            ++ RiftApp.eyePass sampleLib (ExampleApp.atIteration sampleLib (sampleEnv 2 [])
                  (RiftGlfwApp.withWindow (sampleEnv 2 []) sampleApp 1) 1)
                ((sampleEnv 2 []).eyePoses 1)
                ((ExampleApp.atIteration sampleLib (sampleEnv 2 [])
                  (RiftGlfwApp.withWindow (sampleEnv 2 []) sampleApp 1)
                  1).self.hmd.EyeRenderOrder 0)
            ++ RiftApp.eyePass sampleLib (ExampleApp.atIteration sampleLib (sampleEnv 2 [])
                  (RiftGlfwApp.withWindow (sampleEnv 2 []) sampleApp 1) 1)
                ((sampleEnv 2 []).eyePoses 1)
                ((ExampleApp.atIteration sampleLib (sampleEnv 2 [])
                  (RiftGlfwApp.withWindow (sampleEnv 2 []) sampleApp 1)
                  1).self.hmd.EyeRenderOrder 1)
            ++ [Event.bindDrawFramebuffer 0,
                Event.ovrHmd_EndFrame ((sampleEnv 2 []).eyePoses 1)
                  (ExampleApp.atIteration sampleLib (sampleEnv 2 [])
                    (RiftGlfwApp.withWindow (sampleEnv 2 []) sampleApp 1)
                    1).self.eyeTextures]),
         LoopStep.finishFrame []] ∧
    ∀ eye,
      ((ExampleApp.atIteration sampleLib (sampleEnv 2 [])
          (RiftGlfwApp.withWindow (sampleEnv 2 []) sampleApp 1) 1).self.eyeTextures.get
          eye).Header.RenderViewport
        = { Pos := { x := 0, y := 0 },
            Size := ((ExampleApp.atIteration sampleLib (sampleEnv 2 [])
              (RiftGlfwApp.withWindow (sampleEnv 2 []) sampleApp 1)
              1).self.eyeTextures.get eye).Header.TextureSize } ∧
      ∃ size : uvec2,
        (ExampleApp.atIteration sampleLib (sampleEnv 2 [])
            (RiftGlfwApp.withWindow (sampleEnv 2 []) sampleApp 1) 1).self.gl.texImage.lookup
            ((ExampleApp.atIteration sampleLib (sampleEnv 2 [])
              (RiftGlfwApp.withWindow (sampleEnv 2 []) sampleApp 1) 1).self.eyeFbos.get
              eye).color = some size ∧
        (ExampleApp.atIteration sampleLib (sampleEnv 2 [])
            (RiftGlfwApp.withWindow (sampleEnv 2 []) sampleApp 1)
            1).self.gl.renderbufferStorage.lookup
            ((ExampleApp.atIteration sampleLib (sampleEnv 2 [])
              (RiftGlfwApp.withWindow (sampleEnv 2 []) sampleApp 1) 1).self.eyeFbos.get
              eye).depth = some size ∧
        (size.x : Int)
          = ((ExampleApp.atIteration sampleLib (sampleEnv 2 [])
              (RiftGlfwApp.withWindow (sampleEnv 2 []) sampleApp 1)
              1).self.eyeTextures.get eye).Header.RenderViewport.Size.w ∧
        (size.y : Int)
          = ((ExampleApp.atIteration sampleLib (sampleEnv 2 [])
              (RiftGlfwApp.withWindow (sampleEnv 2 []) sampleApp 1)
              1).self.eyeTextures.get eye).Header.RenderViewport.Size.h :=
  RiftApp.viewport_covers_the_eye_target sampleLib (sampleEnv 2 []) sampleApp 1 1 rfl
    (fun _ _ => ⟨⟨by simp [sampleEnv], by simp [sampleEnv]⟩,
      ⟨by simp [sampleEnv], by simp [sampleEnv]⟩⟩)

/-! ## The framebuffer wrappers -/

/-- For a size below 2^31 the conversion of an `unsigned int` to `int` keeps the value. -/
theorem toSigned_of_lt (u : Nat) (h : u < 2 ^ 31) : toSigned u = (u : Int) := by
  have hu : u % UINT_RANGE = u := Nat.mod_eq_of_lt (by unfold UINT_RANGE; omega)
  unfold toSigned
  rw [hu, if_pos h]

/-- C14: for a wrapper whose size fits an `int`, `FramebufferWrapper::Bind(target)` leaves
the framebuffer of the wrapper bound to `target` and the viewport at
(0, 0, `size.x`, `size.y`), the size the wrapper has got from `init`, and does not touch
the other target; `Unbind(target)` leaves the default framebuffer, 0, bound to `target` and
the viewport as it is. -/
theorem FramebufferWrapper.bind_targets_the_wrapper (self : FramebufferWrapper)
    (target : FramebufferTarget) (gl : GlContext)
    (hx : self.size.x < 2 ^ 31) (hy : self.size.y < 2 ^ 31) :
    (self.Bind target gl).boundTo target = self.fbo ∧
    (self.Bind target gl).viewport
      = { Pos := { x := 0, y := 0 }, Size := { w := self.size.x, h := self.size.y } } ∧
    (∀ other, other ≠ target → (self.Bind target gl).boundTo other = gl.boundTo other) ∧
    (FramebufferWrapper.Unbind target (self.Bind target gl)).boundTo target = 0 ∧
    (FramebufferWrapper.Unbind target gl).boundTo target = 0 ∧
    (FramebufferWrapper.Unbind target (self.Bind target gl)).viewport
      = (self.Bind target gl).viewport := by
  refine ⟨?_, ?_, ?_, ?_, ?_, ?_⟩
  · cases target <;> rfl
  · cases target <;>
      simp [FramebufferWrapper.Bind, GlContext.BindFramebuffer, GlContext.Viewport,
        toSigned_of_lt _ hx, toSigned_of_lt _ hy]
  · intro other h
    cases target <;> cases other <;> first | exact absurd rfl h | rfl
  · cases target <;> rfl
  · cases target <;> rfl
  · cases target <;> rfl

theorem FramebufferWrapper.bind_targets_the_wrapper_witness :
    (sampleFramebuffer.Bind .Read sampleContext).boundTo .Read = sampleFramebuffer.fbo ∧
    (sampleFramebuffer.Bind .Read sampleContext).viewport
      = { Pos := { x := 0, y := 0 },
          Size := { w := sampleFramebuffer.size.x, h := sampleFramebuffer.size.y } } ∧
    (∀ other, other ≠ FramebufferTarget.Read →
      (sampleFramebuffer.Bind .Read sampleContext).boundTo other = sampleContext.boundTo other) ∧
    (FramebufferWrapper.Unbind .Read (sampleFramebuffer.Bind .Read sampleContext)).boundTo .Read
      = 0 ∧
    (FramebufferWrapper.Unbind .Read sampleContext).boundTo .Read = 0 ∧
    (FramebufferWrapper.Unbind .Read (sampleFramebuffer.Bind .Read sampleContext)).viewport
      = (sampleFramebuffer.Bind .Read sampleContext).viewport :=
  FramebufferWrapper.bind_targets_the_wrapper sampleFramebuffer .Read sampleContext
    (by decide) (by decide)

/-- C15, amended: for a wrapper whose framebuffer name is not 0, whose `CurrentIndex` is the
index of the swap texture `tex` and whose size fits an `int`,
`RiftFramebufferWrapper::Bind(target)` leaves the framebuffer of the wrapper bound to
`target` with `tex` as its colour attachment 0, and leaves the viewport as it was: the
viewport is set to (0, 0, `size.x`, `size.y`) by the separate function `Viewport()`.
`Unbind(target)`, called while the framebuffer of the wrapper is bound, detaches its colour
attachment 0 and leaves the default framebuffer bound to `target`. -/
theorem RiftFramebufferWrapper.bind_attaches_the_current_texture
    (self : RiftFramebufferWrapper) (target : FramebufferTarget) (gl : GlContext)
    (tex : ovrTexture) (hfbo : self.fbo ≠ 0) (hidx : 0 ≤ self.textureSet.CurrentIndex)
    (htex : self.textureSet.Textures.get? self.textureSet.CurrentIndex.toNat = some tex)
    (hx : self.size.x < 2 ^ 31) (hy : self.size.y < 2 ^ 31) :
    ∃ bound, self.Bind target gl = some bound ∧
      bound.boundTo target = self.fbo ∧
      bound.colorOf self.fbo = some tex.TexId ∧
      bound.viewport = gl.viewport ∧
      (self.Viewport bound).viewport
        = { Pos := { x := 0, y := 0 }, Size := { w := self.size.x, h := self.size.y } } ∧
      (self.Viewport bound).boundTo target = self.fbo ∧
      (self.Unbind target bound).boundTo target = 0 ∧
      (self.Unbind target bound).colorOf self.fbo = some 0 ∧
      (self.Unbind target bound).viewport = bound.viewport := by
  refine ⟨(gl.BindFramebuffer target self.fbo).FramebufferTexture2D target tex.TexId, ?_,
    ?_, ?_, ?_, ?_, ?_, ?_, ?_, ?_⟩
  · unfold RiftFramebufferWrapper.Bind
    rw [if_neg (not_lt.mpr hidx), htex]
  all_goals
    cases target <;>
      simp [GlContext.FramebufferTexture2D, GlContext.BindFramebuffer, GlContext.boundTo,
        GlContext.colorOf, GlContext.Viewport, RiftFramebufferWrapper.Viewport,
        RiftFramebufferWrapper.Unbind, List.lookup, hfbo, toSigned_of_lt _ hx,
        toSigned_of_lt _ hy]

theorem RiftFramebufferWrapper.bind_attaches_the_current_texture_witness :
    ∃ bound, sampleSwapFramebuffer.Bind .Draw sampleContext = some bound ∧
      bound.boundTo .Draw = sampleSwapFramebuffer.fbo ∧
      bound.colorOf sampleSwapFramebuffer.fbo
        = some ({ ovrTexture.zero with TexId := 8 } : ovrTexture).TexId ∧
      bound.viewport = sampleContext.viewport ∧
      (sampleSwapFramebuffer.Viewport bound).viewport
        = { Pos := { x := 0, y := 0 },
            Size := { w := sampleSwapFramebuffer.size.x, h := sampleSwapFramebuffer.size.y } } ∧
      (sampleSwapFramebuffer.Viewport bound).boundTo .Draw = sampleSwapFramebuffer.fbo ∧
      (sampleSwapFramebuffer.Unbind .Draw bound).boundTo .Draw = 0 ∧
      (sampleSwapFramebuffer.Unbind .Draw bound).colorOf sampleSwapFramebuffer.fbo = some 0 ∧
      (sampleSwapFramebuffer.Unbind .Draw bound).viewport = bound.viewport :=
  RiftFramebufferWrapper.bind_attaches_the_current_texture sampleSwapFramebuffer .Draw
    sampleContext { ovrTexture.zero with TexId := 8 } (by decide) (by decide) rfl (by decide)
    (by decide)

/-- C15 as stated fails: `Bind` of the sample wrapper of 1182 by 1464 pixels, in a context
whose viewport is the window of 1920 by 1080 pixels, binds the framebuffer 1 and attaches
the texture 8, and the viewport is still that of the window, not (0, 0, 1182, 1464). -/
theorem RiftFramebufferWrapper.bind_keeps_the_viewport :
    (sampleSwapFramebuffer.Bind .Draw sampleContext).map (fun gl =>
        (gl.drawFramebuffer, gl.colorOf 1, gl.viewport))
      = some (1, some 8, { Pos := { x := 0, y := 0 }, Size := { w := 1920, h := 1080 } }) ∧
    ({ Pos := { x := 0, y := 0 }, Size := { w := 1920, h := 1080 } } : ovrRecti)
      ≠ { Pos := { x := 0, y := 0 },
          Size := { w := sampleSwapFramebuffer.size.x, h := sampleSwapFramebuffer.size.y } } := by
  constructor
  · rfl
  · decide

/-! ## The secondary screen -/

/-- Once `best` is a monitor other than the primary, the loop leaves in it a monitor other
than the primary: the one it held or one of the monitors still to come. -/
theorem glfw.considerMonitors_of_some (d : GlfwMonitors) :
    ∀ (rest : List Nat) (b : Nat) (bestSize : uvec2), b ≠ d.glfwGetPrimaryMonitor →
      ∃ r, glfw.considerMonitors d rest (some (b, bestSize)) = some r ∧
        r.1 ≠ d.glfwGetPrimaryMonitor ∧ (r.1 = b ∨ r.1 ∈ rest) := by
  intro rest
  induction rest with
  | nil => intro b bestSize hb; exact ⟨(b, bestSize), rfl, hb, Or.inl rfl⟩
  | cons cur rest ih =>
    intro b bestSize hb
    by_cases hc : cur = d.glfwGetPrimaryMonitor
    · obtain ⟨r, hr, hne, hmem⟩ := ih b bestSize hb
      refine ⟨r, ?_, hne, hmem.imp id (List.mem_cons_of_mem cur)⟩
      simpa [glfw.considerMonitors, glfw.considerMonitor, hc] using hr
    · by_cases hlt : bestSize.x < (glfw.getSize d cur).x ∧ bestSize.y < (glfw.getSize d cur).y
      · obtain ⟨r, hr, hne, hmem⟩ := ih cur (glfw.getSize d cur) hc
        refine ⟨r, ?_, hne, Or.inr ?_⟩
        · simpa [glfw.considerMonitors, glfw.considerMonitor, hc, hlt] using hr
        · rcases hmem with h | h
          · rw [h]; exact List.mem_cons_self cur rest
          · exact List.mem_cons_of_mem cur h
      · obtain ⟨r, hr, hne, hmem⟩ := ih b bestSize hb
        refine ⟨r, ?_, hne, hmem.imp id (List.mem_cons_of_mem cur)⟩
        simp only [glfw.considerMonitors, glfw.considerMonitor, if_neg hc, if_neg hlt]
        exact hr

/-- Entered with `best` null, the loop leaves `best` null exactly when every monitor of
the list is the primary; otherwise it leaves in it a monitor of the list other than the
primary. -/
theorem glfw.considerMonitors_of_none (d : GlfwMonitors) :
    ∀ rest : List Nat,
      (glfw.considerMonitors d rest none = none ∧ ∀ m ∈ rest, m = d.glfwGetPrimaryMonitor) ∨
      (∃ r, glfw.considerMonitors d rest none = some r ∧ r.1 ≠ d.glfwGetPrimaryMonitor ∧
        r.1 ∈ rest) := by
  intro rest
  induction rest with
  | nil => exact Or.inl ⟨rfl, by simp⟩
  | cons cur rest ih =>
    by_cases hc : cur = d.glfwGetPrimaryMonitor
    · rcases ih with ⟨h, hall⟩ | ⟨r, hr, hne, hmem⟩
      · refine Or.inl ⟨?_, ?_⟩
        · simpa [glfw.considerMonitors, glfw.considerMonitor, hc] using h
        · intro m hm
          rcases List.mem_cons.mp hm with h1 | h1
          · rw [h1]; exact hc
          · exact hall m h1
      · refine Or.inr ⟨r, ?_, hne, List.mem_cons_of_mem cur hmem⟩
        simpa [glfw.considerMonitors, glfw.considerMonitor, hc] using hr
    · obtain ⟨r, hr, hne, hmem⟩ := glfw.considerMonitors_of_some d rest cur (glfw.getSize d cur) hc
      refine Or.inr ⟨r, ?_, hne, ?_⟩
      · simpa [glfw.considerMonitors, glfw.considerMonitor, hc] using hr
      · rcases hmem with h | h
        · rw [h]; exact List.mem_cons_self cur rest
        · exact List.mem_cons_of_mem cur h

/-- C20: `glfw::getSecondaryScreenPosition` takes the position of the monitor `best`, which
is, for every primary monitor and every list of monitors: a monitor of the list other than
the primary as soon as the list holds one; and the primary monitor exactly when every
monitor of the list is the primary (in particular when the list is empty). -/
theorem glfw.secondary_screen_is_not_the_primary (d : GlfwMonitors) (size : uvec2) :
    glfw.getSecondaryScreenPosition d size
      = { x := glfw.centre (d.glfwGetMonitorPos (glfw.secondaryScreen d).1).x
                (glfw.secondaryScreen d).2.x size.x,
          y := glfw.centre (d.glfwGetMonitorPos (glfw.secondaryScreen d).1).y
                (glfw.secondaryScreen d).2.y size.y } ∧
    ((∃ m ∈ d.glfwGetMonitors, m ≠ d.glfwGetPrimaryMonitor) →
      (glfw.secondaryScreen d).1 ≠ d.glfwGetPrimaryMonitor ∧
      (glfw.secondaryScreen d).1 ∈ d.glfwGetMonitors) ∧
    ((glfw.secondaryScreen d).1 = d.glfwGetPrimaryMonitor ↔
      ∀ m ∈ d.glfwGetMonitors, m = d.glfwGetPrimaryMonitor) := by
  refine ⟨rfl, ?_, ?_⟩
  · rintro ⟨m, hm, hne⟩
    rcases glfw.considerMonitors_of_none d d.glfwGetMonitors with ⟨-, hall⟩ | ⟨r, hr, hrne, hmem⟩
    · exact absurd (hall m hm) hne
    · simp only [glfw.secondaryScreen, hr]
      exact ⟨hrne, hmem⟩
  · rcases glfw.considerMonitors_of_none d d.glfwGetMonitors with ⟨h, hall⟩ | ⟨r, hr, hrne, hmem⟩
    · have hs : (glfw.secondaryScreen d).1 = d.glfwGetPrimaryMonitor := by
        simp [glfw.secondaryScreen, h]
      exact ⟨fun _ => hall, fun _ => hs⟩
    · have hs : (glfw.secondaryScreen d).1 = r.1 := by simp [glfw.secondaryScreen, hr]
      rw [hs]
      exact ⟨fun h => absurd h hrne, fun hall => absurd (hall r.1 hmem) hrne⟩

/-! ## The identity pose -/

/-- The rotation matrix of the quaternion (0, 0, 0, 1) is the identity. -/
theorem glm.mat4_cast_identity : glm.mat4_cast { x := 0, y := 0, z := 0, w := 1 } = 1 := by
  ext r c
  fin_cases r <;> fin_cases c <;> simp [glm.mat4_cast]

/-- Translating the identity by the zero vector gives the identity. -/
theorem glm.translate_zero : glm.translate 1 { x := 0, y := 0, z := 0 } = 1 := by
  ext r c
  fin_cases r <;> fin_cases c <;> simp [glm.translate]

/-- The inverse of the identity is the identity. -/
theorem glm.inverse_one : glm.inverse 1 = 1 := by
  simp [glm.inverse]

/-- The matrix `ovr::toGlm` makes of the identity pose is the identity. -/
theorem glm.toGlm_identity_pose (lookAt : vec3 → vec3 → vec3 → mat4)
    (ovrMatrix4f_Projection : ovrFovPort → ℚ → ℚ → Bool → ovrMatrix4f) :
    toGlm (glm.lib lookAt ovrMatrix4f_Projection)
      { Orientation := { x := 0, y := 0, z := 0, w := 1 },
        Position := { x := 0, y := 0, z := 0 } } = 1 := by
  have h1 := glm.mat4_cast_identity
  have h2 := glm.translate_zero
  simp only [toGlm, toGlmQuat, toGlmVector, glm.lib]
  rw [h1, h2, mul_one]

/-- C18: with the functions of glm, `ovr::toGlm` of the identity pose (orientation
(0, 0, 0, 1), position (0, 0, 0)) is the identity matrix; `ExampleApp::renderScene`, given
this matrix as head pose, hands the scene renderer the projection it got and the member
`modelview` scaled by `ipd`, and leaves the object as it is; so at every iteration `k` of
the loop the modelview handed over is the one the constructor set, scaled by the `ipd` it
set. -/
theorem ExampleApp.renderScene_with_identity_pose (lookAt : vec3 → vec3 → vec3 → mat4)
    (ovrMatrix4f_Projection : ovrFovPort → ℚ → ℚ → Bool → ovrMatrix4f)
    (o : Obj (RiftApp mat4)) (projection headPose : mat4) (env : Env)
    (c : Obj (ConstructedApp mat4)) (k : Nat) :
    toGlm (glm.lib lookAt ovrMatrix4f_Projection)
      { Orientation := { x := 0, y := 0, z := 0, w := 1 },
        Position := { x := 0, y := 0, z := 0 } } = 1 ∧
    ExampleApp.renderScene (glm.lib lookAt ovrMatrix4f_Projection) o projection
        (toGlm (glm.lib lookAt ovrMatrix4f_Projection)
          { Orientation := { x := 0, y := 0, z := 0, w := 1 },
            Position := { x := 0, y := 0, z := 0 } })
      = (o, (projection,
          glm.scale o.self.modelview { x := o.self.ipd, y := o.self.ipd, z := o.self.ipd })) ∧
    (ExampleApp.renderScene (glm.lib lookAt ovrMatrix4f_Projection) o projection headPose).1
      = o ∧
    (ExampleApp.renderScene (glm.lib lookAt ovrMatrix4f_Projection)
        (ExampleApp.atIteration (glm.lib lookAt ovrMatrix4f_Projection) env c k) projection
        (toGlm (glm.lib lookAt ovrMatrix4f_Projection)
          { Orientation := { x := 0, y := 0, z := 0, w := 1 },
            Position := { x := 0, y := 0, z := 0 } })).2
      = (projection,
          glm.scale c.self.modelview { x := c.self.ipd, y := c.self.ipd, z := c.self.ipd }) := by
  have hid := glm.toGlm_identity_pose lookAt ovrMatrix4f_Projection
  have hscene : ∀ a : Obj (RiftApp mat4),
      ExampleApp.renderScene (glm.lib lookAt ovrMatrix4f_Projection) a projection 1
        = (a, (projection,
            glm.scale a.self.modelview
              { x := a.self.ipd, y := a.self.ipd, z := a.self.ipd })) := by
    intro a
    simp only [ExampleApp.renderScene, glm.lib, glm.inverse_one, one_mul]
  obtain ⟨-, -, -, -, -, -, hm, hi⟩ :=
    ExampleApp.atIteration_fields (glm.lib lookAt ovrMatrix4f_Projection) env c k
  have hm0 : (ExampleApp.initGl (glm.lib lookAt ovrMatrix4f_Projection) env c).1.self.modelview
      = c.self.modelview := rfl
  have hi0 : (ExampleApp.initGl (glm.lib lookAt ovrMatrix4f_Projection) env c).1.self.ipd
      = c.self.ipd := rfl
  rw [hid]
  refine ⟨rfl, hscene o, rfl, ?_⟩
  rw [hscene, hm, hi, hm0, hi0]

/-! ## The secondary screen chosen is not dominated -/

/-- One pass of the loop keeps `glfw.Undominated`. -/
theorem glfw.considerMonitor_undominated (d : GlfwMonitors) (seen : List Nat)
    (best : Option (Nat × uvec2)) (cur : Nat) (h : glfw.Undominated d seen best) :
    glfw.Undominated d (seen ++ [cur]) (glfw.considerMonitor d best cur) := by
  by_cases hc : cur = d.glfwGetPrimaryMonitor
  · rw [glfw.considerMonitor, if_pos hc]
    cases best with
    | none =>
      intro m hm
      rcases List.mem_append.mp hm with h1 | h1
      · exact h m h1
      · rw [List.mem_singleton.mp h1]; exact hc
    | some r =>
      obtain ⟨b, bestSize⟩ := r
      refine ⟨h.1, ?_⟩
      intro m hm hne
      rcases List.mem_append.mp hm with h1 | h1
      · exact h.2 m h1 hne
      · exact absurd ((List.mem_singleton.mp h1).trans hc) hne
  · rw [glfw.considerMonitor, if_neg hc]
    cases best with
    | none =>
      refine ⟨rfl, ?_⟩
      intro m hm hne
      rcases List.mem_append.mp hm with h1 | h1
      · exact absurd (h m h1) hne
      · rw [List.mem_singleton.mp h1]
        exact fun hlt => absurd hlt.1 (lt_irrefl _)
    | some r =>
      obtain ⟨b, bestSize⟩ := r
      by_cases hlt : bestSize.x < (glfw.getSize d cur).x ∧ bestSize.y < (glfw.getSize d cur).y
      · simp only [if_pos hlt]
        refine ⟨rfl, ?_⟩
        intro m hm hne
        rcases List.mem_append.mp hm with h1 | h1
        · exact fun hm2 => h.2 m h1 hne ⟨lt_trans hlt.1 hm2.1, lt_trans hlt.2 hm2.2⟩
        · rw [List.mem_singleton.mp h1]
          exact fun hm2 => absurd hm2.1 (lt_irrefl _)
      · simp only [if_neg hlt]
        refine ⟨h.1, ?_⟩
        intro m hm hne
        rcases List.mem_append.mp hm with h1 | h1
        · exact h.2 m h1 hne
        · rw [List.mem_singleton.mp h1]
          exact hlt

/-- The loop keeps `glfw.Undominated` over all the monitors it goes through. -/
theorem glfw.considerMonitors_undominated (d : GlfwMonitors) :
    ∀ (rest seen : List Nat) (best : Option (Nat × uvec2)), glfw.Undominated d seen best →
      glfw.Undominated d (seen ++ rest) (glfw.considerMonitors d rest best) := by
  intro rest
  induction rest with
  | nil => intro seen best h; simpa [glfw.considerMonitors] using h
  | cons cur rest ih =>
    intro seen best h
    have h1 := ih (seen ++ [cur]) _ (glfw.considerMonitor_undominated d seen best cur h)
    simpa [glfw.considerMonitors] using h1

/-- C21: for every primary monitor and every list of monitors, the size
`glfw::getSecondaryScreenPosition` centres in is the size of the monitor it has chosen, and
no monitor of the list other than the primary is larger than the chosen one in width and in
height at once.  A monitor larger in one dimension only, even of larger area, can be in the
list without being chosen: in the sample desktop monitor 2 (1280 by 1024) is chosen although
monitor 3 (1920 by 1000) is wider and has more pixels. -/
theorem glfw.secondary_screen_is_not_dominated (d : GlfwMonitors) :
    (glfw.secondaryScreen d).2 = glfw.getSize d (glfw.secondaryScreen d).1 ∧
    (∀ m ∈ d.glfwGetMonitors, m ≠ d.glfwGetPrimaryMonitor →
      ¬ ((glfw.secondaryScreen d).2.x < (glfw.getSize d m).x ∧
         (glfw.secondaryScreen d).2.y < (glfw.getSize d m).y)) ∧
    ((glfw.secondaryScreen sampleWideMonitors).1 = 2 ∧
      3 ∈ sampleWideMonitors.glfwGetMonitors ∧
      3 ≠ sampleWideMonitors.glfwGetPrimaryMonitor ∧
      (glfw.getSize sampleWideMonitors 2).x < (glfw.getSize sampleWideMonitors 3).x ∧
      (glfw.getSize sampleWideMonitors 3).y < (glfw.getSize sampleWideMonitors 2).y ∧
      (glfw.getSize sampleWideMonitors 2).x * (glfw.getSize sampleWideMonitors 2).y
        < (glfw.getSize sampleWideMonitors 3).x * (glfw.getSize sampleWideMonitors 3).y) := by
  have h := glfw.considerMonitors_undominated d d.glfwGetMonitors [] none
    (fun m hm => absurd hm (List.not_mem_nil m))
  rw [List.nil_append] at h
  refine ⟨?_, ?_, by decide⟩
  · cases hr : glfw.considerMonitors d d.glfwGetMonitors none with
    | none => simp [glfw.secondaryScreen, hr]
    | some r =>
      rw [hr] at h
      simpa [glfw.secondaryScreen, hr] using h.1
  · intro m hm hne
    cases hr : glfw.considerMonitors d d.glfwGetMonitors none with
    | none =>
      rw [hr] at h
      exact absurd (h m hm) hne
    | some r =>
      rw [hr] at h
      simpa [glfw.secondaryScreen, hr] using h.2 m hm hne

/-! ## Centring the window on the screen -/

/-- A sum of an `int` and an `unsigned int` that fits an `int` comes out exactly when it is
computed in `unsigned int` and converted back. -/
theorem toSigned_toUnsigned_add (pos : Int) (delta : Nat) (hlo : -(2 ^ 31) ≤ pos + delta)
    (hhi : pos + delta < 2 ^ 31) : toSigned (toUnsigned pos + delta) = pos + delta := by
  unfold toSigned toUnsigned UINT_RANGE
  norm_num at *
  split_ifs with h <;> omega

/-- On one axis, with the origin `pos` of the monitor an `int` and the extent of the monitor,
from `pos` to `pos + bestSize`, within the `int` coordinates: when the monitor is strictly
larger than the window, `glfw.centre` gives `pos + floor((bestSize - size) / 2)`, the window
lies inside the monitor and the margin after it exceeds the margin before it by 0 or 1;
otherwise it gives `pos`. -/
theorem glfw.centre_on_axis (pos : Int) (bestSize windowSize : Nat) (hlo : -(2 ^ 31) ≤ pos)
    (hfit : pos + bestSize ≤ 2 ^ 31) :
    (windowSize < bestSize →
      glfw.centre pos bestSize windowSize = pos + (((bestSize - windowSize) / 2 : Nat) : Int) ∧
      pos ≤ glfw.centre pos bestSize windowSize ∧
      glfw.centre pos bestSize windowSize + windowSize ≤ pos + bestSize ∧
      (0 ≤ (pos + bestSize - (glfw.centre pos bestSize windowSize + windowSize))
            - (glfw.centre pos bestSize windowSize - pos) ∧
        (pos + bestSize - (glfw.centre pos bestSize windowSize + windowSize))
            - (glfw.centre pos bestSize windowSize - pos) ≤ 1)) ∧
    (bestSize ≤ windowSize → glfw.centre pos bestSize windowSize = pos) := by
  refine ⟨?_, ?_⟩
  · intro hgt
    have hc : glfw.centre pos bestSize windowSize
        = pos + (((bestSize - windowSize) / 2 : Nat) : Int) := by
      rw [glfw.centre, if_pos hgt]
      exact toSigned_toUnsigned_add pos _ (by omega) (by omega)
    rw [hc]
    omega
  · intro hle
    rw [glfw.centre, if_neg (not_lt.mpr hle)]

/-- C22: let the monitor `glfw::getSecondaryScreenPosition` has chosen lie within the `int`
screen coordinates (its origin is an `int`, and so is the origin plus the size, on each
axis).  Then, on each axis by itself: when the monitor is strictly larger than the window,
the coordinate returned is the origin plus `floor((monitorSize - windowSize) / 2)`, the
window lies inside the monitor and the margin after it exceeds the margin before it by 0 or
1; otherwise the coordinate returned is the origin of the monitor.  The difference
`bestSize - size` is only taken under the test `bestSize > size`. -/
theorem glfw.window_is_centred_on_the_screen (d : GlfwMonitors) (size : uvec2)
    (hx : -(2 ^ 31) ≤ (glfw.getPosition d (glfw.secondaryScreen d).1).x ∧
      (glfw.getPosition d (glfw.secondaryScreen d).1).x + (glfw.secondaryScreen d).2.x ≤ 2 ^ 31)
    (hy : -(2 ^ 31) ≤ (glfw.getPosition d (glfw.secondaryScreen d).1).y ∧
      (glfw.getPosition d (glfw.secondaryScreen d).1).y + (glfw.secondaryScreen d).2.y
        ≤ 2 ^ 31) :
    ((size.x < (glfw.secondaryScreen d).2.x →
        (glfw.getSecondaryScreenPosition d size).x
          = (glfw.getPosition d (glfw.secondaryScreen d).1).x
            + ((((glfw.secondaryScreen d).2.x - size.x) / 2 : Nat) : Int) ∧
        (glfw.getPosition d (glfw.secondaryScreen d).1).x
          ≤ (glfw.getSecondaryScreenPosition d size).x ∧
        (glfw.getSecondaryScreenPosition d size).x + size.x
          ≤ (glfw.getPosition d (glfw.secondaryScreen d).1).x + (glfw.secondaryScreen d).2.x ∧
        (0 ≤ ((glfw.getPosition d (glfw.secondaryScreen d).1).x + (glfw.secondaryScreen d).2.x
                - ((glfw.getSecondaryScreenPosition d size).x + size.x))
              - ((glfw.getSecondaryScreenPosition d size).x
                - (glfw.getPosition d (glfw.secondaryScreen d).1).x) ∧
          ((glfw.getPosition d (glfw.secondaryScreen d).1).x + (glfw.secondaryScreen d).2.x
                - ((glfw.getSecondaryScreenPosition d size).x + size.x))
              - ((glfw.getSecondaryScreenPosition d size).x
                - (glfw.getPosition d (glfw.secondaryScreen d).1).x) ≤ 1)) ∧
      ((glfw.secondaryScreen d).2.x ≤ size.x →
        (glfw.getSecondaryScreenPosition d size).x
          = (glfw.getPosition d (glfw.secondaryScreen d).1).x)) ∧
    ((size.y < (glfw.secondaryScreen d).2.y →
        (glfw.getSecondaryScreenPosition d size).y
          = (glfw.getPosition d (glfw.secondaryScreen d).1).y
            + ((((glfw.secondaryScreen d).2.y - size.y) / 2 : Nat) : Int) ∧
        (glfw.getPosition d (glfw.secondaryScreen d).1).y
          ≤ (glfw.getSecondaryScreenPosition d size).y ∧
        (glfw.getSecondaryScreenPosition d size).y + size.y
          ≤ (glfw.getPosition d (glfw.secondaryScreen d).1).y + (glfw.secondaryScreen d).2.y ∧
        (0 ≤ ((glfw.getPosition d (glfw.secondaryScreen d).1).y + (glfw.secondaryScreen d).2.y
                - ((glfw.getSecondaryScreenPosition d size).y + size.y))
              - ((glfw.getSecondaryScreenPosition d size).y
                - (glfw.getPosition d (glfw.secondaryScreen d).1).y) ∧
          ((glfw.getPosition d (glfw.secondaryScreen d).1).y + (glfw.secondaryScreen d).2.y
                - ((glfw.getSecondaryScreenPosition d size).y + size.y))
              - ((glfw.getSecondaryScreenPosition d size).y
                - (glfw.getPosition d (glfw.secondaryScreen d).1).y) ≤ 1)) ∧
      ((glfw.secondaryScreen d).2.y ≤ size.y →
        (glfw.getSecondaryScreenPosition d size).y
          = (glfw.getPosition d (glfw.secondaryScreen d).1).y)) :=
  ⟨glfw.centre_on_axis _ _ size.x hx.1 hx.2, glfw.centre_on_axis _ _ size.y hy.1 hy.2⟩

theorem glfw.window_is_centred_on_the_screen_witness :
    (-(2 ^ 31) ≤ (glfw.getPosition sampleMonitors (glfw.secondaryScreen sampleMonitors).1).x ∧
      (glfw.getPosition sampleMonitors (glfw.secondaryScreen sampleMonitors).1).x + (glfw.secondaryScreen sampleMonitors).2.x ≤ 2 ^ 31) ∧
    (-(2 ^ 31) ≤ (glfw.getPosition sampleMonitors (glfw.secondaryScreen sampleMonitors).1).y ∧
      (glfw.getPosition sampleMonitors (glfw.secondaryScreen sampleMonitors).1).y + (glfw.secondaryScreen sampleMonitors).2.y
        ≤ 2 ^ 31) ∧
    ((((1182 : Nat) < (glfw.secondaryScreen sampleMonitors).2.x →
        (glfw.getSecondaryScreenPosition sampleMonitors ({ x := 1182, y := 1464 } : uvec2)).x
          = (glfw.getPosition sampleMonitors (glfw.secondaryScreen sampleMonitors).1).x
            + ((((glfw.secondaryScreen sampleMonitors).2.x - (1182 : Nat)) / 2 : Nat) : Int) ∧
        (glfw.getPosition sampleMonitors (glfw.secondaryScreen sampleMonitors).1).x
          ≤ (glfw.getSecondaryScreenPosition sampleMonitors ({ x := 1182, y := 1464 } : uvec2)).x ∧
        (glfw.getSecondaryScreenPosition sampleMonitors ({ x := 1182, y := 1464 } : uvec2)).x + (1182 : Nat)
          ≤ (glfw.getPosition sampleMonitors (glfw.secondaryScreen sampleMonitors).1).x + (glfw.secondaryScreen sampleMonitors).2.x ∧
        (0 ≤ ((glfw.getPosition sampleMonitors (glfw.secondaryScreen sampleMonitors).1).x + (glfw.secondaryScreen sampleMonitors).2.x
                - ((glfw.getSecondaryScreenPosition sampleMonitors ({ x := 1182, y := 1464 } : uvec2)).x + (1182 : Nat)))
              - ((glfw.getSecondaryScreenPosition sampleMonitors ({ x := 1182, y := 1464 } : uvec2)).x
                - (glfw.getPosition sampleMonitors (glfw.secondaryScreen sampleMonitors).1).x) ∧
          ((glfw.getPosition sampleMonitors (glfw.secondaryScreen sampleMonitors).1).x + (glfw.secondaryScreen sampleMonitors).2.x
                - ((glfw.getSecondaryScreenPosition sampleMonitors ({ x := 1182, y := 1464 } : uvec2)).x + (1182 : Nat)))
              - ((glfw.getSecondaryScreenPosition sampleMonitors ({ x := 1182, y := 1464 } : uvec2)).x
                - (glfw.getPosition sampleMonitors (glfw.secondaryScreen sampleMonitors).1).x) ≤ 1)) ∧
      ((glfw.secondaryScreen sampleMonitors).2.x ≤ (1182 : Nat) →
        (glfw.getSecondaryScreenPosition sampleMonitors ({ x := 1182, y := 1464 } : uvec2)).x
          = (glfw.getPosition sampleMonitors (glfw.secondaryScreen sampleMonitors).1).x)) ∧
    (((1464 : Nat) < (glfw.secondaryScreen sampleMonitors).2.y →
        (glfw.getSecondaryScreenPosition sampleMonitors ({ x := 1182, y := 1464 } : uvec2)).y
          = (glfw.getPosition sampleMonitors (glfw.secondaryScreen sampleMonitors).1).y
            + ((((glfw.secondaryScreen sampleMonitors).2.y - (1464 : Nat)) / 2 : Nat) : Int) ∧
        (glfw.getPosition sampleMonitors (glfw.secondaryScreen sampleMonitors).1).y
          ≤ (glfw.getSecondaryScreenPosition sampleMonitors ({ x := 1182, y := 1464 } : uvec2)).y ∧
        (glfw.getSecondaryScreenPosition sampleMonitors ({ x := 1182, y := 1464 } : uvec2)).y + (1464 : Nat)
          ≤ (glfw.getPosition sampleMonitors (glfw.secondaryScreen sampleMonitors).1).y + (glfw.secondaryScreen sampleMonitors).2.y ∧
        (0 ≤ ((glfw.getPosition sampleMonitors (glfw.secondaryScreen sampleMonitors).1).y + (glfw.secondaryScreen sampleMonitors).2.y
                - ((glfw.getSecondaryScreenPosition sampleMonitors ({ x := 1182, y := 1464 } : uvec2)).y + (1464 : Nat)))
              - ((glfw.getSecondaryScreenPosition sampleMonitors ({ x := 1182, y := 1464 } : uvec2)).y
                - (glfw.getPosition sampleMonitors (glfw.secondaryScreen sampleMonitors).1).y) ∧
          ((glfw.getPosition sampleMonitors (glfw.secondaryScreen sampleMonitors).1).y + (glfw.secondaryScreen sampleMonitors).2.y
                - ((glfw.getSecondaryScreenPosition sampleMonitors ({ x := 1182, y := 1464 } : uvec2)).y + (1464 : Nat)))
              - ((glfw.getSecondaryScreenPosition sampleMonitors ({ x := 1182, y := 1464 } : uvec2)).y
                - (glfw.getPosition sampleMonitors (glfw.secondaryScreen sampleMonitors).1).y) ≤ 1)) ∧
      ((glfw.secondaryScreen sampleMonitors).2.y ≤ (1464 : Nat) →
        (glfw.getSecondaryScreenPosition sampleMonitors ({ x := 1182, y := 1464 } : uvec2)).y
          = (glfw.getPosition sampleMonitors (glfw.secondaryScreen sampleMonitors).1).y))) :=
  ⟨by decide, by decide,
    glfw.window_is_centred_on_the_screen sampleMonitors { x := 1182, y := 1464 } (by decide)
      (by decide)⟩

/-! ## The round of the swap textures -/

/-- On a set of `n > 0` textures with the index in range, `Increment` makes the index
`(old + 1) mod n` and changes nothing else. -/
theorem RiftFramebufferWrapper.increment_eq (self : RiftFramebufferWrapper)
    (hn : 0 < self.textureSet.TextureCount) (hint : self.textureSet.TextureCount < 2 ^ 31)
    (h0 : 0 ≤ self.textureSet.CurrentIndex)
    (h1 : self.textureSet.CurrentIndex < self.textureSet.TextureCount) :
    self.Increment
      = some { self with
               textureSet := { self.textureSet with
                               CurrentIndex := (self.textureSet.CurrentIndex + 1)
                                 % self.textureSet.TextureCount } } := by
  unfold RiftFramebufferWrapper.Increment
  rw [if_neg (by omega), if_neg (by omega), Int.tmod_eq_emod (by omega) (by omega)]

/-- On a set of `n > 0` textures with the index in range, `k` calls of `Increment` make the
index `(old + k) mod n` and change nothing else. -/
theorem RiftFramebufferWrapper.incrementTimes_eq :
    ∀ (k : Nat) (self : RiftFramebufferWrapper),
      0 < self.textureSet.TextureCount → self.textureSet.TextureCount < 2 ^ 31 →
      0 ≤ self.textureSet.CurrentIndex →
      self.textureSet.CurrentIndex < self.textureSet.TextureCount →
      RiftFramebufferWrapper.IncrementTimes k self
        = some { self with
                 textureSet := { self.textureSet with
                                 CurrentIndex := (self.textureSet.CurrentIndex + k)
                                   % self.textureSet.TextureCount } } := by
  intro k
  induction k with
  | zero =>
    intro self hn hint h0 h1
    simp [RiftFramebufferWrapper.IncrementTimes, Int.emod_eq_of_lt h0 h1]
  | succ k ih =>
    intro self hn hint h0 h1
    rw [RiftFramebufferWrapper.IncrementTimes,
      RiftFramebufferWrapper.increment_eq self hn hint h0 h1]
    have h := ih { self with
        textureSet := { self.textureSet with
                        CurrentIndex := (self.textureSet.CurrentIndex + 1)
                          % self.textureSet.TextureCount } }
      hn hint (Int.emod_nonneg _ (by omega)) (Int.emod_lt_of_pos _ hn)
    simp only [] at h ⊢
    rw [h, Int.emod_add_emod]
    have hk : self.textureSet.CurrentIndex + 1 + (k : Int)
        = self.textureSet.CurrentIndex + ((k + 1 : Nat) : Int) := by
      push_cast
      ring
    rw [hk]

/-- With the index in the range of the list of textures, `Bind` finds its texture. -/
theorem RiftFramebufferWrapper.bind_isSome (self : RiftFramebufferWrapper)
    (target : FramebufferTarget) (gl : GlContext) (h0 : 0 ≤ self.textureSet.CurrentIndex)
    (h1 : self.textureSet.CurrentIndex.toNat < self.textureSet.Textures.length) :
    (self.Bind target gl).isSome = true := by
  unfold RiftFramebufferWrapper.Bind
  rw [if_neg (not_lt.mpr h0)]
  cases h : self.textureSet.Textures.get? self.textureSet.CurrentIndex.toNat with
  | none => exact absurd (List.get?_eq_none.mp h) (not_le.mpr h1)
  | some tex => rfl

/-- C23: on a swap texture set of `n` textures, `0 < n`, whose index is in the range
`0 <= CurrentIndex < n`, `RiftFramebufferWrapper::Increment` makes the index
`(old + 1) mod n`, which is in the range again, and changes nothing else of the wrapper;
after any number `k` of calls the index is `(old + k) mod n`, in the range, and `Bind` finds
the texture of this index; after `n` calls the wrapper is as it was. -/
theorem RiftFramebufferWrapper.increment_goes_round (self : RiftFramebufferWrapper)
    (target : FramebufferTarget) (gl : GlContext) (k : Nat)
    (hn : 0 < self.textureSet.TextureCount) (hint : self.textureSet.TextureCount < 2 ^ 31)
    (h0 : 0 ≤ self.textureSet.CurrentIndex)
    (h1 : self.textureSet.CurrentIndex < self.textureSet.TextureCount)
    (hlen : self.textureSet.Textures.length = self.textureSet.TextureCount.toNat) :
    (∃ next, self.Increment = some next ∧
      next.textureSet.CurrentIndex
        = (self.textureSet.CurrentIndex + 1) % self.textureSet.TextureCount ∧
      (0 ≤ next.textureSet.CurrentIndex ∧
        next.textureSet.CurrentIndex < self.textureSet.TextureCount) ∧
      next = { self with
               textureSet := { self.textureSet with
                               CurrentIndex := next.textureSet.CurrentIndex } } ∧
      (next.Bind target gl).isSome = true) ∧
    (∃ later, RiftFramebufferWrapper.IncrementTimes k self = some later ∧
      later.textureSet.CurrentIndex
        = (self.textureSet.CurrentIndex + k) % self.textureSet.TextureCount ∧
      (0 ≤ later.textureSet.CurrentIndex ∧
        later.textureSet.CurrentIndex < self.textureSet.TextureCount) ∧
      (later.Bind target gl).isSome = true) ∧
    RiftFramebufferWrapper.IncrementTimes self.textureSet.TextureCount.toNat self
      = some self := by
  have hpos : ∀ i : Int, 0 ≤ i % self.textureSet.TextureCount ∧
      i % self.textureSet.TextureCount < self.textureSet.TextureCount :=
    fun i => ⟨Int.emod_nonneg _ (by omega), Int.emod_lt_of_pos _ hn⟩
  have hbind : ∀ i : Int,
      (RiftFramebufferWrapper.Bind
        { self with
          textureSet := { self.textureSet with
                          CurrentIndex := i % self.textureSet.TextureCount } }
        target gl).isSome = true := by
    intro i
    apply RiftFramebufferWrapper.bind_isSome
    · exact (hpos i).1
    · show (i % self.textureSet.TextureCount).toNat < self.textureSet.Textures.length
      rw [hlen]
      have := hpos i
      omega
  refine ⟨⟨_, RiftFramebufferWrapper.increment_eq self hn hint h0 h1, rfl, hpos _, rfl,
    hbind _⟩, ⟨_, RiftFramebufferWrapper.incrementTimes_eq k self hn hint h0 h1, rfl, hpos _,
    hbind _⟩, ?_⟩
  rw [RiftFramebufferWrapper.incrementTimes_eq _ self hn hint h0 h1,
    Int.toNat_of_nonneg (le_of_lt hn), Int.add_emod_self, Int.emod_eq_of_lt h0 h1]

theorem RiftFramebufferWrapper.increment_goes_round_witness :
    (∃ next, sampleSwapFramebuffer.Increment = some next ∧
      next.textureSet.CurrentIndex
        = (sampleSwapFramebuffer.textureSet.CurrentIndex + 1)
          % sampleSwapFramebuffer.textureSet.TextureCount ∧
      (0 ≤ next.textureSet.CurrentIndex ∧
        next.textureSet.CurrentIndex < sampleSwapFramebuffer.textureSet.TextureCount) ∧
      next = { sampleSwapFramebuffer with
               textureSet := { sampleSwapFramebuffer.textureSet with
                               CurrentIndex := next.textureSet.CurrentIndex } } ∧
      (next.Bind .Draw sampleContext).isSome = true) ∧
    (∃ later, RiftFramebufferWrapper.IncrementTimes 5 sampleSwapFramebuffer = some later ∧
      later.textureSet.CurrentIndex
        = (sampleSwapFramebuffer.textureSet.CurrentIndex + (5 : Nat))
          % sampleSwapFramebuffer.textureSet.TextureCount ∧
      (0 ≤ later.textureSet.CurrentIndex ∧
        later.textureSet.CurrentIndex < sampleSwapFramebuffer.textureSet.TextureCount) ∧
      (later.Bind .Draw sampleContext).isSome = true) ∧
    RiftFramebufferWrapper.IncrementTimes sampleSwapFramebuffer.textureSet.TextureCount.toNat
        sampleSwapFramebuffer
      = some sampleSwapFramebuffer :=
  RiftFramebufferWrapper.increment_goes_round sampleSwapFramebuffer .Draw sampleContext 5
    (by decide) (by decide) (by decide) (by decide) rfl

/-! ## The matrix converters -/

/-- C24: with the functions of glm, for every SDK matrix `m` and every glm matrix `g`:
`ovr::fromGlm(ovr::toGlm(m))` is `m`, `ovr::toGlm(ovr::fromGlm(g))` is `g`, the element
in row `r` of column `c` of `ovr::toGlm(m)` is `m.M[r][c]`, and `ovr::fromGlm(g).M[r][c]`
is the element in row `r` of column `c` of `g`: the converters change the order from
row-major to column-major and back, and no value. -/
theorem converters_are_inverse_transpositions (lookAt : vec3 → vec3 → vec3 → mat4)
    (ovrMatrix4f_Projection : ovrFovPort → ℚ → ℚ → Bool → ovrMatrix4f)
    (m : ovrMatrix4f) (g : mat4) (r c : Fin 4) :
    fromGlmMatrix (toGlmMatrix (glm.lib lookAt ovrMatrix4f_Projection) m) = m ∧
    toGlmMatrix (glm.lib lookAt ovrMatrix4f_Projection) (fromGlmMatrix g) = g ∧
    glm.element (toGlmMatrix (glm.lib lookAt ovrMatrix4f_Projection) m) c r = m.M r c ∧
    (fromGlmMatrix g).M r c = glm.element g c r ∧
    glm.element (glm.make_mat4 m) c r = m.M c r := by
  refine ⟨?_, ?_, rfl, rfl, rfl⟩
  · cases m
    rfl
  · ext i j
    rfl

/-! ## The capabilities of the headset: which bits change -/

/-- The bits of the complement of a word of 32 bits. -/
theorem testBit_bitNot (w i : Nat) :
    (bitNot w).testBit i = (decide (i < 32) && !w.testBit i) := by
  unfold bitNot UINT_RANGE
  rw [Nat.testBit_xor, Nat.testBit_two_pow_sub_one, Nat.testBit_mod_two_pow]
  by_cases h : i < 32 <;> simp [h]

/-- A word of 32 bits has no bit from bit 32 on. -/
theorem testBit_of_word (c i : Nat) (hc : c < UINT_RANGE) (hi : 32 ≤ i) :
    c.testBit i = false :=
  Nat.testBit_lt_two_pow (lt_of_lt_of_le hc (Nat.pow_le_pow_right (by decide) hi))

/-- Disabling `m` after enabling it restores a word that had no bit of `m`. -/
theorem RiftManagerApp.disable_enable (c m : Nat) (hc : c < UINT_RANGE) (h : c &&& m = 0) :
    RiftManagerApp.disableCaps (RiftManagerApp.enableCaps c m) m = c := by
  apply Nat.eq_of_testBit_eq
  intro i
  have hi := congrArg (fun w => w.testBit i) h
  simp only [Nat.testBit_and, Nat.zero_testBit] at hi
  simp only [RiftManagerApp.disableCaps, RiftManagerApp.enableCaps, Nat.testBit_and,
    Nat.testBit_or, testBit_bitNot]
  by_cases h32 : i < 32
  · cases hci : c.testBit i <;> cases hmi : m.testBit i <;> simp_all
  · have := testBit_of_word c i hc (by omega)
    simp [this, h32]

/-- Enabling `m` after disabling it gives the word with all bits of `m` set. -/
theorem RiftManagerApp.enable_disable (c m : Nat) (hc : c < UINT_RANGE) :
    RiftManagerApp.enableCaps (RiftManagerApp.disableCaps c m) m = c ||| m := by
  apply Nat.eq_of_testBit_eq
  intro i
  simp only [RiftManagerApp.disableCaps, RiftManagerApp.enableCaps, Nat.testBit_and,
    Nat.testBit_or, testBit_bitNot]
  by_cases h32 : i < 32
  · cases hci : c.testBit i <;> cases hmi : m.testBit i <;> simp_all
  · have := testBit_of_word c i hc (by omega)
    simp_all

/-- After `disableCaps(m)` no bit of `m` is enabled. -/
theorem RiftManagerApp.and_disable (c m : Nat) : m &&& RiftManagerApp.disableCaps c m = 0 := by
  apply Nat.eq_of_testBit_eq
  intro i
  simp only [RiftManagerApp.disableCaps, Nat.testBit_and, testBit_bitNot, Nat.zero_testBit]
  cases c.testBit i <;> cases m.testBit i <;> simp

/-- After `enableCaps(m)` every bit of `m` is enabled. -/
theorem RiftManagerApp.and_enable (c m : Nat) : m &&& RiftManagerApp.enableCaps c m = m := by
  apply Nat.eq_of_testBit_eq
  intro i
  simp only [RiftManagerApp.enableCaps, Nat.testBit_and, Nat.testBit_or]
  cases c.testBit i <;> cases m.testBit i <;> simp

/-- A word contains the mask `m` exactly when setting the bits of `m` does not change it. -/
theorem or_eq_left_iff_and_eq (c m : Nat) : c ||| m = c ↔ c &&& m = m := by
  constructor
  · intro h
    apply Nat.eq_of_testBit_eq
    intro i
    have hi := congrArg (fun w => w.testBit i) h
    simp only [Nat.testBit_or] at hi
    simp only [Nat.testBit_and]
    cases hci : c.testBit i <;> cases hmi : m.testBit i <;> simp_all
  · intro h
    apply Nat.eq_of_testBit_eq
    intro i
    have hi := congrArg (fun w => w.testBit i) h
    simp only [Nat.testBit_and] at hi
    simp only [Nat.testBit_or]
    cases hci : c.testBit i <;> cases hmi : m.testBit i <;> simp_all

/-- What `HelloRift::onKey` does with the key V or P, whose capability is `cap`: it sets
the word `toggleCap(cap)` would set, unless the event dismisses the health and safety
warning, is taken by `CameraControl`, or is not a press. -/
theorem HelloRift.onKey_toggles (ovrHmdCap_NoVSync ovrHmdCap_LowPersistence : Nat)
    (Displayed cameraControl pressed : Bool) (c : Nat) :
    HelloRift.onKey ovrHmdCap_NoVSync ovrHmdCap_LowPersistence Displayed cameraControl
        .GLFW_KEY_V pressed c
      = (if pressed && Displayed then .ovrHmd_DismissHSWDisplay
         else if cameraControl then .cameraControl
         else if !pressed then .GlfwApp_onKey
         else .ovrHmd_SetEnabledCaps (RiftManagerApp.toggleCap c ovrHmdCap_NoVSync)) ∧
    HelloRift.onKey ovrHmdCap_NoVSync ovrHmdCap_LowPersistence Displayed cameraControl
        .GLFW_KEY_P pressed c
      = (if pressed && Displayed then .ovrHmd_DismissHSWDisplay
         else if cameraControl then .cameraControl
         else if !pressed then .GlfwApp_onKey
         else .ovrHmd_SetEnabledCaps (RiftManagerApp.toggleCap c ovrHmdCap_LowPersistence)) := by
  simp only [HelloRift.onKey, RiftManagerApp.toggleCap, RiftManagerApp.disableCaps,
    RiftManagerApp.enableCaps, Nat.and_comm ovrHmdCap_NoVSync c,
    Nat.and_comm ovrHmdCap_LowPersistence c]
  constructor <;> split_ifs <;> rfl

/-- C25: for every word `c` of enabled capabilities (32 bits) and every mask `m`, with `c`
what `ovrHmd_GetEnabledCaps` returns: `enableCaps(m)` sets `c | m`, `disableCaps(m)` sets
`c & ~m`, `toggleCap(m)` sets `c & ~m` when `c & m` is not zero and `c | m` otherwise, and
each of the three leaves every bit that is not in `m` as it is in `c`.  In
`HelloRift::onKey` the handlers of V and of P, which a press reaches that neither dismisses
the health and safety warning nor is taken by `CameraControl`, set the word `toggleCap`
would set for `ovrHmdCap_NoVSync` and for `ovrHmdCap_LowPersistence`; and whatever the
event, a word `onKey` sets is one of these two, so it differs from `c` in no bit outside
the capability of the key. -/
theorem RiftManagerApp.caps_change_only_the_bits_of_the_mask (c m : Nat)
    (ovrHmdCap_NoVSync ovrHmdCap_LowPersistence : Nat) (hc : c < UINT_RANGE) :
    RiftManagerApp.enableCaps c m = c ||| m ∧
    RiftManagerApp.disableCaps c m = c &&& bitNot m ∧
    RiftManagerApp.toggleCap c m = (if c &&& m ≠ 0 then c &&& bitNot m else c ||| m) ∧
    (∀ i, m.testBit i = false →
      (RiftManagerApp.enableCaps c m).testBit i = c.testBit i ∧
      (RiftManagerApp.disableCaps c m).testBit i = c.testBit i ∧
      (RiftManagerApp.toggleCap c m).testBit i = c.testBit i) ∧
    HelloRift.onKey ovrHmdCap_NoVSync ovrHmdCap_LowPersistence false false .GLFW_KEY_V true c
      = .ovrHmd_SetEnabledCaps (RiftManagerApp.toggleCap c ovrHmdCap_NoVSync) ∧
    HelloRift.onKey ovrHmdCap_NoVSync ovrHmdCap_LowPersistence false false .GLFW_KEY_P true c
      = .ovrHmd_SetEnabledCaps (RiftManagerApp.toggleCap c ovrHmdCap_LowPersistence) ∧
    (∀ (Displayed cameraControl pressed : Bool) (key : Key) (w : Nat),
      HelloRift.onKey ovrHmdCap_NoVSync ovrHmdCap_LowPersistence Displayed cameraControl key
          pressed c = .ovrHmd_SetEnabledCaps w →
      (pressed = true ∧ Displayed = false ∧ cameraControl = false) ∧
      ((key = .GLFW_KEY_V ∧ w = RiftManagerApp.toggleCap c ovrHmdCap_NoVSync ∧
          ∀ i, ovrHmdCap_NoVSync.testBit i = false → w.testBit i = c.testBit i) ∨
        (key = .GLFW_KEY_P ∧ w = RiftManagerApp.toggleCap c ovrHmdCap_LowPersistence ∧
          ∀ i, ovrHmdCap_LowPersistence.testBit i = false → w.testBit i = c.testBit i))) := by
  have htoggle : ∀ cap, RiftManagerApp.toggleCap c cap
      = (if c &&& cap ≠ 0 then c &&& bitNot cap else c ||| cap) := by
    intro cap
    simp only [RiftManagerApp.toggleCap, RiftManagerApp.disableCaps,
      RiftManagerApp.enableCaps, Nat.and_comm cap c]
  have henable : ∀ cap i, cap.testBit i = false → (c ||| cap).testBit i = c.testBit i := by
    intro cap i hi
    simp [hi]
  have hdisable : ∀ cap i, cap.testBit i = false →
      (c &&& bitNot cap).testBit i = c.testBit i := by
    intro cap i hi
    rw [Nat.testBit_and, testBit_bitNot, hi]
    by_cases h32 : i < 32
    · simp [h32]
    · simp [h32, testBit_of_word c i hc (by omega)]
  have hframe : ∀ cap i, cap.testBit i = false →
      (RiftManagerApp.toggleCap c cap).testBit i = c.testBit i := by
    intro cap i hi
    rw [htoggle cap]
    split_ifs
    · exact hdisable cap i hi
    · exact henable cap i hi
  refine ⟨rfl, rfl, htoggle m, ?_, ?_, ?_, ?_⟩
  · intro i hi
    exact ⟨henable m i hi, hdisable m i hi, hframe m i hi⟩
  · exact (HelloRift.onKey_toggles ovrHmdCap_NoVSync ovrHmdCap_LowPersistence false false
      true c).1
  · exact (HelloRift.onKey_toggles ovrHmdCap_NoVSync ovrHmdCap_LowPersistence false false
      true c).2
  · intro Displayed cameraControl pressed key w h
    have hk := HelloRift.onKey_toggles ovrHmdCap_NoVSync ovrHmdCap_LowPersistence Displayed
      cameraControl pressed c
    cases pressed <;> cases Displayed <;> cases cameraControl <;> cases key <;>
      simp_all [HelloRift.onKey]
    · intro i hi
      rw [← h]
      exact hframe _ i hi
    · intro i hi
      rw [← h]
      exact hframe _ i hi

theorem RiftManagerApp.caps_change_only_the_bits_of_the_mask_witness :
    RiftManagerApp.enableCaps 0x1080 0x1200 = 0x1080 ||| 0x1200 ∧
    RiftManagerApp.disableCaps 0x1080 0x1200 = 0x1080 &&& bitNot 0x1200 ∧
    RiftManagerApp.toggleCap 0x1080 0x1200
      = (if 0x1080 &&& 0x1200 ≠ 0 then 0x1080 &&& bitNot 0x1200 else 0x1080 ||| 0x1200) ∧
    (∀ i, (0x1200 : Nat).testBit i = false →
      (RiftManagerApp.enableCaps 0x1080 0x1200).testBit i = (0x1080 : Nat).testBit i ∧
      (RiftManagerApp.disableCaps 0x1080 0x1200).testBit i = (0x1080 : Nat).testBit i ∧
      (RiftManagerApp.toggleCap 0x1080 0x1200).testBit i = (0x1080 : Nat).testBit i) ∧
    HelloRift.onKey 0x1000 0x80 false false .GLFW_KEY_V true 0x1080
      = .ovrHmd_SetEnabledCaps (RiftManagerApp.toggleCap 0x1080 0x1000) ∧
    HelloRift.onKey 0x1000 0x80 false false .GLFW_KEY_P true 0x1080
      = .ovrHmd_SetEnabledCaps (RiftManagerApp.toggleCap 0x1080 0x80) ∧
    (∀ (Displayed cameraControl pressed : Bool) (key : Key) (w : Nat),
      HelloRift.onKey 0x1000 0x80 Displayed cameraControl key pressed 0x1080
          = .ovrHmd_SetEnabledCaps w →
      (pressed = true ∧ Displayed = false ∧ cameraControl = false) ∧
      ((key = .GLFW_KEY_V ∧ w = RiftManagerApp.toggleCap 0x1080 0x1000 ∧
          ∀ i, (0x1000 : Nat).testBit i = false → w.testBit i = (0x1080 : Nat).testBit i) ∨
        (key = .GLFW_KEY_P ∧ w = RiftManagerApp.toggleCap 0x1080 0x80 ∧
          ∀ i, (0x80 : Nat).testBit i = false → w.testBit i = (0x1080 : Nat).testBit i))) :=
  RiftManagerApp.caps_change_only_the_bits_of_the_mask 0x1080 0x1200 0x1000 0x80 (by decide)

/-! ## Toggling a capability twice -/

/-- The second `toggleCap(m)` after a first one that disabled `m` enables it, and the
other way round. -/
theorem RiftManagerApp.toggleCap_toggleCap (c m : Nat) (hm : m ≠ 0) :
    RiftManagerApp.toggleCap (RiftManagerApp.toggleCap c m) m
      = if m &&& c ≠ 0 then
          RiftManagerApp.enableCaps (RiftManagerApp.disableCaps c m) m
        else RiftManagerApp.disableCaps (RiftManagerApp.enableCaps c m) m := by
  by_cases h : m &&& c ≠ 0
  · have ht : RiftManagerApp.toggleCap c m = RiftManagerApp.disableCaps c m := by
      rw [RiftManagerApp.toggleCap, if_pos h]
    rw [if_pos h, ht, RiftManagerApp.toggleCap,
      if_neg (not_not.mpr (RiftManagerApp.and_disable c m))]
  · have ht : RiftManagerApp.toggleCap c m = RiftManagerApp.enableCaps c m := by
      rw [RiftManagerApp.toggleCap, if_neg h]
    rw [if_neg h, ht, RiftManagerApp.toggleCap,
      if_pos (by rw [RiftManagerApp.and_enable]; exact hm)]

/-- C26: for every word `c` of enabled capabilities (32 bits) and every mask `m` that is
not zero: when `c & m` is 0 or `m`, which is so for every mask of a single bit,
`toggleCap(m)` turns the answer of `isEnabled(m)` into its opposite and a second
`toggleCap(m)` sets `c` again; when `c & m` is neither 0 nor `m`, the second `toggleCap(m)`
sets `c | m`, which is not `c`. -/
theorem RiftManagerApp.toggleCap_is_an_involution_on_consistent_masks (c m k : Nat)
    (hc : c < UINT_RANGE) (hm : m ≠ 0) :
    ((c &&& m = 0 ∨ c &&& m = m) →
      RiftManagerApp.isEnabled (RiftManagerApp.toggleCap c m) m
        = !RiftManagerApp.isEnabled c m ∧
      RiftManagerApp.toggleCap (RiftManagerApp.toggleCap c m) m = c) ∧
    (c &&& 2 ^ k = 0 ∨ c &&& 2 ^ k = 2 ^ k) ∧
    (¬ (c &&& m = 0 ∨ c &&& m = m) →
      RiftManagerApp.toggleCap (RiftManagerApp.toggleCap c m) m = c ||| m ∧
      RiftManagerApp.toggleCap (RiftManagerApp.toggleCap c m) m ≠ c) := by
  have h2 := RiftManagerApp.toggleCap_toggleCap c m hm
  refine ⟨?_, ?_, ?_⟩
  · rintro (h | h)
    · have h0 : ¬ (m &&& c ≠ 0) := by rw [Nat.and_comm, h]; exact not_not.mpr rfl
      rw [h2, if_neg h0]
      refine ⟨?_, RiftManagerApp.disable_enable c m hc h⟩
      simp only [RiftManagerApp.isEnabled, RiftManagerApp.toggleCap, if_neg h0,
        RiftManagerApp.and_enable]
      rw [Nat.and_comm, h]
      simpa using hm
    · have h0 : m &&& c ≠ 0 := by rw [Nat.and_comm, h]; exact hm
      rw [h2, if_pos h0, RiftManagerApp.enable_disable c m hc]
      refine ⟨?_, (or_eq_left_iff_and_eq c m).mpr h⟩
      simp only [RiftManagerApp.isEnabled, RiftManagerApp.toggleCap, if_pos h0,
        RiftManagerApp.and_disable]
      rw [Nat.and_comm, h]
      simpa using hm
  · by_cases hk : c.testBit k = true
    · right
      apply Nat.eq_of_testBit_eq
      intro i
      rw [Nat.testBit_and, Nat.testBit_two_pow]
      by_cases hi : k = i
      · subst hi; simp [hk]
      · simp [hi]
    · left
      apply Nat.eq_of_testBit_eq
      intro i
      rw [Nat.testBit_and, Nat.testBit_two_pow, Nat.zero_testBit]
      by_cases hi : k = i
      · subst hi; simp [hk]
      · simp [hi]
  · intro h
    have h0 : m &&& c ≠ 0 := by
      rw [Nat.and_comm]
      exact fun h0 => h (Or.inl h0)
    rw [h2, if_pos h0, RiftManagerApp.enable_disable c m hc]
    exact ⟨rfl, fun hor => h (Or.inr ((or_eq_left_iff_and_eq c m).mp hor))⟩

theorem RiftManagerApp.toggleCap_is_an_involution_on_consistent_masks_witness :
    ((0x1080 &&& 0x1200 = 0 ∨ 0x1080 &&& 0x1200 = 0x1200) →
      RiftManagerApp.isEnabled (RiftManagerApp.toggleCap 0x1080 0x1200) 0x1200
        = !RiftManagerApp.isEnabled 0x1080 0x1200 ∧
      RiftManagerApp.toggleCap (RiftManagerApp.toggleCap 0x1080 0x1200) 0x1200 = 0x1080) ∧
    (0x1080 &&& 2 ^ 7 = 0 ∨ 0x1080 &&& 2 ^ 7 = 2 ^ 7) ∧
    (¬ (0x1080 &&& 0x1200 = 0 ∨ 0x1080 &&& 0x1200 = 0x1200) →
      RiftManagerApp.toggleCap (RiftManagerApp.toggleCap 0x1080 0x1200) 0x1200
        = 0x1080 ||| 0x1200 ∧
      RiftManagerApp.toggleCap (RiftManagerApp.toggleCap 0x1080 0x1200) 0x1200 ≠ 0x1080) :=
  RiftManagerApp.toggleCap_is_an_involution_on_consistent_masks 0x1080 0x1200 7 (by decide)
    (by decide)

/-! ## The cubes of `ColorCubeScene` -/

/-- The positions of the loops, written out: cell (x, y, z) gets (2(x-2), 2(y-2), -2z). -/
theorem ColorCubeScene.relativePositions_eq :
    ColorCubeScene.relativePositions
      = (List.range 5).flatMap fun z => (List.range 5).flatMap fun y =>
          (List.range 5).map fun x =>
            (2 * ((x : Int) - 2), 2 * ((y : Int) - 2), -2 * (z : Int)) := by
  decide

/-- The position of each cell, at the place of its pass in the list. -/
theorem ColorCubeScene.relativePositions_get :
    ∀ z y x : Fin 5,
      ColorCubeScene.relativePositions.get? (25 * z.val + 5 * y.val + x.val)
        = some (2 * ((x.val : Int) - 2), 2 * ((y.val : Int) - 2), -2 * (z.val : Int)) := by
  decide

set_option maxRecDepth 20000 in
/-- The positions are pairwise distinct. -/
theorem ColorCubeScene.relativePositions_nodup : ColorCubeScene.relativePositions.Nodup := by
  decide

set_option maxRecDepth 20000 in
/-- The coordinates of the positions. -/
theorem ColorCubeScene.relativePositions_mem :
    ∀ p ∈ ColorCubeScene.relativePositions,
      p.1 ∈ [-4, -2, 0, 2, 4] ∧ p.2.1 ∈ [-4, -2, 0, 2, 4] ∧ p.2.2 ∈ [0, -2, -4, -6, -8] := by
  decide

set_option maxRecDepth 20000 in
/-- The loops make 125 passes. -/
theorem ColorCubeScene.relativePositions_length :
    ColorCubeScene.relativePositions.length = 125 := by
  decide

/-- The last column of `glm::translate(glm::mat4(1.0f), v)` is `v`, the rest is the
identity. -/
theorem glm.translate_one (v : vec3) :
    glm.element (glm.translate 1 v) 3 0 = v.x ∧ glm.element (glm.translate 1 v) 3 1 = v.y ∧
    glm.element (glm.translate 1 v) 3 2 = v.z ∧ glm.element (glm.translate 1 v) 3 3 = 1 ∧
    ∀ c r, c ≠ 3 → glm.element (glm.translate 1 v) c r = if r = c then 1 else 0 := by
  refine ⟨by simp [glm.element, glm.translate], by simp [glm.element, glm.translate],
    by simp [glm.element, glm.translate], by simp [glm.element, glm.translate], ?_⟩
  intro c r hc
  simp [glm.element, glm.translate, hc, Matrix.one_apply]

/-- C27: the constructor of `ColorCubeScene` builds 125 instance transforms and sets
`instanceCount` to 125.  The intermediate values wrap around (for `x = 0` the difference
`x - GRID_SIZE / 2` is 4294967294 and its double 4294967292; for `z = 1` the value `-z` is
4294967295), and still the transform of the cell (x, y, z), the pass number
`25 z + 5 y + x`, is the translation by exactly (2(x-2), 2(y-2), -2z): the identity with
this vector as its last column.  The 125 positions, and the 125 transforms, are pairwise
distinct, with x and y among -4, -2, 0, 2, 4 and z among 0, -2, -4, -6, -8. -/
theorem ColorCubeScene.builds_125_distinct_instances :
    ColorCubeScene.instance_positions.length = 125 ∧
    ColorCubeScene.instanceCount = 125 ∧
    (usub 0 (ColorCubeScene.GRID_SIZE / 2) = 4294967294 ∧
      umul (usub 0 (ColorCubeScene.GRID_SIZE / 2)) 2 = 4294967292 ∧
      uneg 1 = 4294967295 ∧ umul (uneg 1) 2 = 4294967294) ∧
    (∀ x y z : Nat, x < 5 → y < 5 → z < 5 →
      ColorCubeScene.xpos x = 2 * ((x : Int) - 2) ∧
      ColorCubeScene.xpos y = 2 * ((y : Int) - 2) ∧
      ColorCubeScene.zpos z = -2 * (z : Int) ∧
      ColorCubeScene.instance_positions.get? (25 * z + 5 * y + x)
        = some (glm.translate 1
            { x := ((2 * ((x : Int) - 2) : Int) : ℚ), y := ((2 * ((y : Int) - 2) : Int) : ℚ),
              z := ((-2 * (z : Int) : Int) : ℚ) }) ∧
      glm.element (glm.translate 1
            { x := ((2 * ((x : Int) - 2) : Int) : ℚ), y := ((2 * ((y : Int) - 2) : Int) : ℚ),
              z := ((-2 * (z : Int) : Int) : ℚ) }) 3 0 = 2 * ((x : ℚ) - 2) ∧
      glm.element (glm.translate 1
            { x := ((2 * ((x : Int) - 2) : Int) : ℚ), y := ((2 * ((y : Int) - 2) : Int) : ℚ),
              z := ((-2 * (z : Int) : Int) : ℚ) }) 3 1 = 2 * ((y : ℚ) - 2) ∧
      glm.element (glm.translate 1
            { x := ((2 * ((x : Int) - 2) : Int) : ℚ), y := ((2 * ((y : Int) - 2) : Int) : ℚ),
              z := ((-2 * (z : Int) : Int) : ℚ) }) 3 2 = -2 * (z : ℚ)) ∧
    ColorCubeScene.relativePositions.Nodup ∧
    ColorCubeScene.instance_positions.Nodup ∧
    (∀ p ∈ ColorCubeScene.relativePositions,
      p.1 ∈ [-4, -2, 0, 2, 4] ∧ p.2.1 ∈ [-4, -2, 0, 2, 4] ∧ p.2.2 ∈ [0, -2, -4, -6, -8]) := by
  have hlen : ColorCubeScene.instance_positions.length = 125 := by
    rw [ColorCubeScene.instance_positions, List.length_map,
      ColorCubeScene.relativePositions_length]
  have hpos : ∀ n, n < 5 → ColorCubeScene.xpos n = 2 * ((n : Int) - 2) ∧
      ColorCubeScene.zpos n = -2 * (n : Int) := by
    decide
  refine ⟨hlen, ?_, by decide, ?_, ColorCubeScene.relativePositions_nodup, ?_,
    ColorCubeScene.relativePositions_mem⟩
  · rw [ColorCubeScene.instanceCount, hlen]
    decide
  · intro x y z hx hy hz
    have hget := ColorCubeScene.relativePositions_get ⟨z, hz⟩ ⟨y, hy⟩ ⟨x, hx⟩
    have ht := glm.translate_one
      { x := ((2 * ((x : Int) - 2) : Int) : ℚ), y := ((2 * ((y : Int) - 2) : Int) : ℚ),
        z := ((-2 * (z : Int) : Int) : ℚ) }
    refine ⟨(hpos x hx).1, (hpos y hy).1, (hpos z hz).2, ?_, ?_, ?_, ?_⟩
    · rw [List.get?_eq_getElem?] at hget ⊢
      rw [ColorCubeScene.instance_positions, List.getElem?_map, hget]
      rfl
    · rw [ht.1]; push_cast; ring
    · rw [ht.2.1]; push_cast; ring
    · rw [ht.2.2.1]; push_cast; ring
  · rw [ColorCubeScene.instance_positions]
    refine List.Nodup.map ?_ ColorCubeScene.relativePositions_nodup
    intro p q hpq
    have hp := glm.translate_one { x := (p.1 : ℚ), y := (p.2.1 : ℚ), z := (p.2.2 : ℚ) }
    have hq := glm.translate_one { x := (q.1 : ℚ), y := (q.2.1 : ℚ), z := (q.2.2 : ℚ) }
    simp only [] at hpq
    rw [hpq] at hp
    have h1 : (p.1 : ℚ) = q.1 := hp.1.symm.trans hq.1
    have h2 : (p.2.1 : ℚ) = q.2.1 := hp.2.1.symm.trans hq.2.1
    have h3 : (p.2.2 : ℚ) = q.2.2 := hp.2.2.1.symm.trans hq.2.2.1
    exact Prod.ext (by exact_mod_cast h1) (Prod.ext (by exact_mod_cast h2)
      (by exact_mod_cast h3))

end OculusRift
